import Mathlib

/-!
Verification of the go-ulid codec (package ulid).

A ULID is a 16-byte identifier: a 48-bit millisecond timestamp in bytes
0-5 followed by 80 random bits in bytes 6-15.  The package encodes it as
26 base32 characters and parses it back, with strict size, character-set
and overflow validation.

This file is a shallow embedding of the Go source: bytes are naturals
below 256, Go strings and byte slices are lists of naturals (their byte
values), machine-integer wraparound is made explicit with mod 2^64, and
the fallible parsing functions return the parsed value paired with an
optional error, mirroring the (ULID, error) return values of the source.
-/

/-- Error values of the package: the three sentinel errors that the
parsing functions can return. -/
inductive Err where
  | InvalidSize
  | InvalidCharacter
  | Overflow
deriving DecidableEq, Repr

/-- A ULID is a 16 byte identifier; the sixteen fields model the entries
of the Go array type ULID, declared as 16 bytes, in order. -/
structure ULID where
  b0 : Nat
  b1 : Nat
  b2 : Nat
  b3 : Nat
  b4 : Nat
  b5 : Nat
  b6 : Nat
  b7 : Nat
  b8 : Nat
  b9 : Nat
  b10 : Nat
  b11 : Nat
  b12 : Nat
  b13 : Nat
  b14 : Nat
  b15 : Nat
deriving DecidableEq, Repr

/-- The bytes of a ULID, in order, as the Go slice id[:] would list them. -/
def ULID.toList (id : ULID) : List Nat :=
  [id.b0, id.b1, id.b2, id.b3, id.b4, id.b5, id.b6, id.b7,
   id.b8, id.b9, id.b10, id.b11, id.b12, id.b13, id.b14, id.b15]

/-- Byte-range invariant of the Go array type: every field is below 256. -/
def ULID.Valid (id : ULID) : Prop :=
  id.b0 < 256 ∧ id.b1 < 256 ∧ id.b2 < 256 ∧ id.b3 < 256 ∧
  id.b4 < 256 ∧ id.b5 < 256 ∧ id.b6 < 256 ∧ id.b7 < 256 ∧
  id.b8 < 256 ∧ id.b9 < 256 ∧ id.b10 < 256 ∧ id.b11 < 256 ∧
  id.b12 < 256 ∧ id.b13 < 256 ∧ id.b14 < 256 ∧ id.b15 < 256

instance : DecidablePred ULID.Valid := fun id => by
  unfold ULID.Valid; infer_instance

/-- Zero is the zero value for a ULID (var Zero ULID in the source). -/
def ULID.Zero : ULID := ⟨0, 0, 0, 0, 0, 0, 0, 0, 0, 0, 0, 0, 0, 0, 0, 0⟩

/-- EncodedSize is the size of a ULID when encoded to text. -/
def EncodedSize : Nat := 26

/-- Two's-complement bit pattern of an int64 argument, as a natural below
2^64; used to model byte(ms >> k) on the signed millisecond argument. -/
def msBits (ms : Int) : Nat := (ms % (2 ^ 64 : Int)).toNat

/-- SetTime sets the time component of the ULID to the given Unix
milliseconds: id[0] = byte(ms >> 40) down to id[5] = byte(ms), where the
shifts are arithmetic shifts of the int64 argument and byte conversion
keeps the low 8 bits.  Bytes 6-15 are untouched. -/
def ULID.SetTime (id : ULID) (ms : Int) : ULID :=
  { id with
    b0 := msBits ms >>> 40 % 256
    b1 := msBits ms >>> 32 % 256
    b2 := msBits ms >>> 24 % 256
    b3 := msBits ms >>> 16 % 256
    b4 := msBits ms >>> 8 % 256
    b5 := msBits ms % 256 }

/-- Time returns the time component of the ULID as Unix milliseconds:
int64(id[0])<<40 | int64(id[1])<<32 | ... | int64(id[5]). -/
def ULID.Time (id : ULID) : Int :=
  ((id.b0 <<< 40 ||| id.b1 <<< 32 ||| id.b2 <<< 24 |||
    id.b3 <<< 16 ||| id.b4 <<< 8 ||| id.b5 : Nat) : Int)

/-- MarshalBinary returns an exact 16-byte copy of the identifier. -/
def ULID.MarshalBinary (id : ULID) : List Nat × Option Err := (id.toList, none)

/-- UnmarshalBinary requires exactly 16 bytes of input and copies them
into the receiver; the first component of the result is the new receiver
state, the second the returned error. -/
def ULID.UnmarshalBinary (id : ULID) (data : List Nat) : ULID × Option Err :=
  if data.length ≠ 16 then (id, some Err.InvalidSize)
  else (⟨data.getD 0 0, data.getD 1 0, data.getD 2 0, data.getD 3 0,
         data.getD 4 0, data.getD 5 0, data.getD 6 0, data.getD 7 0,
         data.getD 8 0, data.getD 9 0, data.getD 10 0, data.getD 11 0,
         data.getD 12 0, data.getD 13 0, data.getD 14 0, data.getD 15 0⟩, none)

/-- Reverse lookup table of the base32 alphabet, 256 entries of the Go
variable dec, of element type int8; -1 marks bytes outside the accepted
character set. -/
def decTable : List Int := [
  -1, -1, -1, -1, -1, -1, -1, -1, -1, -1,
  -1, -1, -1, -1, -1, -1, -1, -1, -1, -1,
  -1, -1, -1, -1, -1, -1, -1, -1, -1, -1,
  -1, -1, -1, -1, -1, -1, -1, -1, -1, -1,
  -1, -1, -1, -1, -1, -1, -1, -1, 0, 1,
  2, 3, 4, 5, 6, 7, 8, 9, -1, -1,
  -1, -1, -1, -1, -1, 10, 11, 12, 13, 14,
  15, 16, 17, -1, 18, 19, -1, 20, 21, -1,
  22, 23, 24, 25, 26, -1, 27, 28, 29, 30,
  31, -1, -1, -1, -1, -1, -1, 10, 11, 12,
  13, 14, 15, 16, 17, -1, 18, 19, -1, 20,
  21, -1, 22, 23, 24, 25, 26, -1, 27, 28,
  29, 30, 31, -1, -1, -1, -1, -1, -1, -1,
  -1, -1, -1, -1, -1, -1, -1, -1, -1, -1,
  -1, -1, -1, -1, -1, -1, -1, -1, -1, -1,
  -1, -1, -1, -1, -1, -1, -1, -1, -1, -1,
  -1, -1, -1, -1, -1, -1, -1, -1, -1, -1,
  -1, -1, -1, -1, -1, -1, -1, -1, -1, -1,
  -1, -1, -1, -1, -1, -1, -1, -1, -1, -1,
  -1, -1, -1, -1, -1, -1, -1, -1, -1, -1,
  -1, -1, -1, -1, -1, -1, -1, -1, -1, -1,
  -1, -1, -1, -1, -1, -1, -1, -1, -1, -1,
  -1, -1, -1, -1, -1, -1, -1, -1, -1, -1,
  -1, -1, -1, -1, -1, -1, -1, -1, -1, -1,
  -1, -1, -1, -1, -1, -1, -1, -1, -1, -1,
  -1, -1, -1, -1, -1, -1]

/-- Table lookup dec[c] for a byte value c. -/
def dec (c : Nat) : Int := decTable.getD c (-1)

/-- Conversion uint64(dec[c]) of the looked-up int8 to uint64: a valid
entry keeps its value, the sentinel -1 becomes 2^64 - 1. -/
def decU64 (c : Nat) : Nat := ((dec c) % (2 ^ 64 : Int)).toNat

/-- High word of the unrolled base32 decode: characters 0-9 of the input
packed at bit offsets 45 down to 0, each 64-bit shift wrapping mod 2^64. -/
def pH (s : List Nat) : Nat :=
  (decU64 (s.getD 0 0) <<< 45) % 2 ^ 64 |||
  (decU64 (s.getD 1 0) <<< 40) % 2 ^ 64 |||
  (decU64 (s.getD 2 0) <<< 35) % 2 ^ 64 |||
  (decU64 (s.getD 3 0) <<< 30) % 2 ^ 64 |||
  (decU64 (s.getD 4 0) <<< 25) % 2 ^ 64 |||
  (decU64 (s.getD 5 0) <<< 20) % 2 ^ 64 |||
  (decU64 (s.getD 6 0) <<< 15) % 2 ^ 64 |||
  (decU64 (s.getD 7 0) <<< 10) % 2 ^ 64 |||
  (decU64 (s.getD 8 0) <<< 5) % 2 ^ 64 |||
  decU64 (s.getD 9 0)

/-- Middle word of the unrolled base32 decode: characters 10-17 packed at
bit offsets 35 down to 0. -/
def pM (s : List Nat) : Nat :=
  (decU64 (s.getD 10 0) <<< 35) % 2 ^ 64 |||
  (decU64 (s.getD 11 0) <<< 30) % 2 ^ 64 |||
  (decU64 (s.getD 12 0) <<< 25) % 2 ^ 64 |||
  (decU64 (s.getD 13 0) <<< 20) % 2 ^ 64 |||
  (decU64 (s.getD 14 0) <<< 15) % 2 ^ 64 |||
  (decU64 (s.getD 15 0) <<< 10) % 2 ^ 64 |||
  (decU64 (s.getD 16 0) <<< 5) % 2 ^ 64 |||
  decU64 (s.getD 17 0)

/-- Low word of the unrolled base32 decode: characters 18-25 packed at
bit offsets 35 down to 0. -/
def pL (s : List Nat) : Nat :=
  (decU64 (s.getD 18 0) <<< 35) % 2 ^ 64 |||
  (decU64 (s.getD 19 0) <<< 30) % 2 ^ 64 |||
  (decU64 (s.getD 20 0) <<< 25) % 2 ^ 64 |||
  (decU64 (s.getD 21 0) <<< 20) % 2 ^ 64 |||
  (decU64 (s.getD 22 0) <<< 15) % 2 ^ 64 |||
  (decU64 (s.getD 23 0) <<< 10) % 2 ^ 64 |||
  (decU64 (s.getD 24 0) <<< 5) % 2 ^ 64 |||
  decU64 (s.getD 25 0)

/-- The generic parse function of the source: size check, combined
invalid-character check on the high bit, overflow check on the first
character against the byte value of the digit 7 (55), then byte-slicing
of the three decoded words.  Returns the parsed value and the error; on
error the returned identifier is the zero value. -/
def parse (s : List Nat) : ULID × Option Err :=
  if s.length ≠ EncodedSize then (ULID.Zero, some Err.InvalidSize)
  else if (pH s ||| pM s ||| pL s) &&& (1 <<< 63) ≠ 0 then (ULID.Zero, some Err.InvalidCharacter)
  else if 55 < s.getD 0 0 then (ULID.Zero, some Err.Overflow)
  else (⟨pH s >>> 40 % 256, pH s >>> 32 % 256, pH s >>> 24 % 256,
         pH s >>> 16 % 256, pH s >>> 8 % 256, pH s % 256,
         pM s >>> 32 % 256, pM s >>> 24 % 256, pM s >>> 16 % 256,
         pM s >>> 8 % 256, pM s % 256,
         pL s >>> 32 % 256, pL s >>> 24 % 256, pL s >>> 16 % 256,
         pL s >>> 8 % 256, pL s % 256⟩, none)

/-- Parse parses a ULID from a string (the string's bytes). -/
def Parse (s : List Nat) : ULID × Option Err := parse s

/-- UnmarshalText parses the data and assigns the result to the receiver
only on success; the first component is the new receiver state. -/
def ULID.UnmarshalText (id : ULID) (data : List Nat) : ULID × Option Err :=
  match parse data with
  | (id2, none) => (id2, none)
  | (_, some e) => (id, some e)

/-- The base32 alphabet of the package. -/
def encoding : String := "0123456789ABCDEFGHJKMNPQRSTVWXYZ"

/-- The alphabet as byte values. -/
def encodingBytes : List Nat := encoding.data.map Char.toNat

/-- Indexing encoding[i] for an index already masked below 32. -/
def encChar (i : Nat) : Nat := encodingBytes.getD i 0

/-- The primary text encoder of the source: five 32-bit loads a, b, c,
d, e of the 16 bytes, then 26 alphabet lookups of 5-bit groups. -/
def ULID.text (id : ULID) : List Nat :=
  let a := id.b0 <<< 16 ||| id.b1 <<< 8 ||| id.b2
  let b := id.b2 <<< 24 ||| id.b3 <<< 16 ||| id.b4 <<< 8 ||| id.b5
  let c := id.b6 <<< 24 ||| id.b7 <<< 16 ||| id.b8 <<< 8 ||| id.b9
  let d := id.b9 <<< 24 ||| id.b10 <<< 16 ||| id.b11 <<< 8 ||| id.b12
  let e := id.b12 <<< 24 ||| id.b13 <<< 16 ||| id.b14 <<< 8 ||| id.b15
  [encChar (a >>> 21 &&& 31), encChar (a >>> 16 &&& 31),
   encChar (a >>> 11 &&& 31), encChar (a >>> 6 &&& 31),
   encChar (a >>> 1 &&& 31), encChar (b >>> 20 &&& 31),
   encChar (b >>> 15 &&& 31), encChar (b >>> 10 &&& 31),
   encChar (b >>> 5 &&& 31), encChar (b &&& 31),
   encChar (c >>> 27 &&& 31), encChar (c >>> 22 &&& 31),
   encChar (c >>> 17 &&& 31), encChar (c >>> 12 &&& 31),
   encChar (c >>> 7 &&& 31), encChar (c >>> 2 &&& 31),
   encChar (d >>> 21 &&& 31), encChar (d >>> 16 &&& 31),
   encChar (d >>> 11 &&& 31), encChar (d >>> 6 &&& 31),
   encChar (d >>> 1 &&& 31), encChar (e >>> 20 &&& 31),
   encChar (e >>> 15 &&& 31), encChar (e >>> 10 &&& 31),
   encChar (e >>> 5 &&& 31), encChar (e &&& 31)]

/-- The alternate text encoder present in the repository history: two
64-bit loads h and l of the 16 bytes, then 26 alphabet lookups; the
group spanning both words shifts h left by 4 with 64-bit wraparound. -/
def ULID.textAlt (id : ULID) : List Nat :=
  let h := id.b0 <<< 56 ||| id.b1 <<< 48 ||| id.b2 <<< 40 ||| id.b3 <<< 32 |||
           id.b4 <<< 24 ||| id.b5 <<< 16 ||| id.b6 <<< 8 ||| id.b7
  let l := id.b8 <<< 56 ||| id.b9 <<< 48 ||| id.b10 <<< 40 ||| id.b11 <<< 32 |||
           id.b12 <<< 24 ||| id.b13 <<< 16 ||| id.b14 <<< 8 ||| id.b15
  [encChar (h >>> 61 &&& 31), encChar (h >>> 56 &&& 31),
   encChar (h >>> 51 &&& 31), encChar (h >>> 46 &&& 31),
   encChar (h >>> 41 &&& 31), encChar (h >>> 36 &&& 31),
   encChar (h >>> 31 &&& 31), encChar (h >>> 26 &&& 31),
   encChar (h >>> 21 &&& 31), encChar (h >>> 16 &&& 31),
   encChar (h >>> 11 &&& 31), encChar (h >>> 6 &&& 31),
   encChar (h >>> 1 &&& 31), encChar ((h <<< 4 % 2 ^ 64 ||| l >>> 60) &&& 31),
   encChar (l >>> 55 &&& 31), encChar (l >>> 50 &&& 31),
   encChar (l >>> 45 &&& 31), encChar (l >>> 40 &&& 31),
   encChar (l >>> 35 &&& 31), encChar (l >>> 30 &&& 31),
   encChar (l >>> 25 &&& 31), encChar (l >>> 20 &&& 31),
   encChar (l >>> 15 &&& 31), encChar (l >>> 10 &&& 31),
   encChar (l >>> 5 &&& 31), encChar (l &&& 31)]

/-- Model of Go bytes.Compare: unsigned byte-wise lexicographic
comparison, -1 when the first list is smaller, +1 when greater, 0 when
equal; a proper prefix is smaller. -/
def bytesCompare : List Nat → List Nat → Int
  | [], [] => 0
  | [], _ :: _ => -1
  | _ :: _, [] => 1
  | a :: as, b :: bs => if a < b then -1 else if b < a then 1 else bytesCompare as bs

/-- Compare returns an integer comparing two ULIDs lexicographically,
delegating to bytes.Compare on the two 16-byte slices. -/
def ULID.Compare (id other : ULID) : Int := bytesCompare id.toList other.toList

/-- IsZero reports whether the ULID is the zero value. -/
def ULID.IsZero (id : ULID) : Bool := id = ULID.Zero

/-- Byte values of a string, to feed string literals to the parser. -/
def strBytes (s : String) : List Nat := s.data.map Char.toNat

set_option maxRecDepth 40000
set_option linter.unusedVariables false

/-- Disjoint bitwise or is addition: when x is a multiple of 2^k and y is
below 2^k, the two have no common bits. -/
theorem orDisj {x y : Nat} (k : Nat) (hx : 2 ^ k ∣ x) (hy : y < 2 ^ k) :
    x ||| y = x + y := by
  obtain ⟨q, rfl⟩ := hx
  exact (Nat.mul_add_lt_is_or hy q).symm

/-- Masking with 31 is reduction mod 32. -/
theorem and31 (x : Nat) : x &&& 31 = x % 32 := by
  have h : (31 : Nat) = 2 ^ 5 - 1 := rfl
  rw [h, Nat.and_pow_two_sub_one_eq_mod]

theorem dec_oob {c : Nat} (hc : 256 ≤ c) : dec c = -1 := by
  unfold dec
  rw [List.getD_eq_getElem?_getD, List.getElem?_eq_none (by rw [(by rfl : decTable.length = 256)]; omega)]
  rfl

theorem decU64_lt_or (c : Nat) : decU64 c < 32 ∨ decU64 c = 2 ^ 64 - 1 := by
  by_cases hc : c < 256
  · exact (by decide : ∀ c' < 256, decU64 c' < 32 ∨ decU64 c' = 2 ^ 64 - 1) c hc
  · right
    unfold decU64
    rw [dec_oob (by omega)]
    rfl

theorem dec_valid_iff (c : Nat) : decU64 c < 32 ↔ dec c ≠ -1 := by
  by_cases hc : c < 256
  · exact (by decide : ∀ c' < 256, decU64 c' < 32 ↔ dec c' ≠ -1) c hc
  · rw [dec_oob (by omega)]
    simp only [decU64, dec_oob (by omega : 256 ≤ c)]
    norm_num

theorem decU64_encChar {v : Nat} (hv : v < 32) : decU64 (encChar v) = v :=
  (by decide : ∀ v' < 32, decU64 (encChar v') = v') v hv

theorem one_shl_63 : (1 <<< 63 : Nat) = 2 ^ 63 := by
  rw [Nat.shiftLeft_eq, Nat.one_mul]

theorem and63_eq_zero {x : Nat} (hx : x < 2 ^ 63) : x &&& (1 <<< 63) = 0 := by
  rw [one_shl_63, Nat.and_two_pow, Nat.testBit_lt_two_pow hx]
  rfl

/-- A wrapped left shift of the all-ones sentinel keeps bit 63 set for the
shift amounts the decoder uses. -/
theorem term_bit63 (k : Nat) (hk : k ≤ 45) :
    (((2 ^ 64 - 1) <<< k) % 2 ^ 64).testBit 63 = true :=
  (by decide : ∀ k' < 46, (((2 ^ 64 - 1) <<< k') % 2 ^ 64).testBit 63 = true) k (by omega)

/-- Arithmetic value of the high decode word: ten 5-bit digits below 32 packed by wrapping shifts and bitwise or equal their positional sum. -/
theorem orChain10 (v0 v1 v2 v3 v4 v5 v6 v7 v8 v9 : Nat) (h0 : v0 < 32) (h1 : v1 < 32) (h2 : v2 < 32) (h3 : v3 < 32) (h4 : v4 < 32) (h5 : v5 < 32) (h6 : v6 < 32) (h7 : v7 < 32) (h8 : v8 < 32) (h9 : v9 < 32) :
    (v0 <<< 45) % 2 ^ 64 ||| (v1 <<< 40) % 2 ^ 64 ||| (v2 <<< 35) % 2 ^ 64 ||| (v3 <<< 30) % 2 ^ 64 ||| (v4 <<< 25) % 2 ^ 64 ||| (v5 <<< 20) % 2 ^ 64 ||| (v6 <<< 15) % 2 ^ 64 ||| (v7 <<< 10) % 2 ^ 64 ||| (v8 <<< 5) % 2 ^ 64 ||| v9 = v0 * 2 ^ 45 + v1 * 2 ^ 40 + v2 * 2 ^ 35 + v3 * 2 ^ 30 + v4 * 2 ^ 25 + v5 * 2 ^ 20 + v6 * 2 ^ 15 + v7 * 2 ^ 10 + v8 * 2 ^ 5 + v9 := by
  simp only [Nat.shiftLeft_eq]
  rw [Nat.mod_eq_of_lt (show v0 * 2 ^ 45 < 2 ^ 64 by omega), Nat.mod_eq_of_lt (show v1 * 2 ^ 40 < 2 ^ 64 by omega), Nat.mod_eq_of_lt (show v2 * 2 ^ 35 < 2 ^ 64 by omega), Nat.mod_eq_of_lt (show v3 * 2 ^ 30 < 2 ^ 64 by omega), Nat.mod_eq_of_lt (show v4 * 2 ^ 25 < 2 ^ 64 by omega), Nat.mod_eq_of_lt (show v5 * 2 ^ 20 < 2 ^ 64 by omega), Nat.mod_eq_of_lt (show v6 * 2 ^ 15 < 2 ^ 64 by omega), Nat.mod_eq_of_lt (show v7 * 2 ^ 10 < 2 ^ 64 by omega), Nat.mod_eq_of_lt (show v8 * 2 ^ 5 < 2 ^ 64 by omega)]
  have e1 : v0 * 2 ^ 45 ||| v1 * 2 ^ 40 = v0 * 2 ^ 45 + v1 * 2 ^ 40 :=
    orDisj 45 (by omega) (by omega)
  rw [e1]
  have e2 : v0 * 2 ^ 45 + v1 * 2 ^ 40 ||| v2 * 2 ^ 35 = v0 * 2 ^ 45 + v1 * 2 ^ 40 + v2 * 2 ^ 35 :=
    orDisj 40 (by omega) (by omega)
  rw [e2]
  have e3 : v0 * 2 ^ 45 + v1 * 2 ^ 40 + v2 * 2 ^ 35 ||| v3 * 2 ^ 30 = v0 * 2 ^ 45 + v1 * 2 ^ 40 + v2 * 2 ^ 35 + v3 * 2 ^ 30 :=
    orDisj 35 (by omega) (by omega)
  rw [e3]
  have e4 : v0 * 2 ^ 45 + v1 * 2 ^ 40 + v2 * 2 ^ 35 + v3 * 2 ^ 30 ||| v4 * 2 ^ 25 = v0 * 2 ^ 45 + v1 * 2 ^ 40 + v2 * 2 ^ 35 + v3 * 2 ^ 30 + v4 * 2 ^ 25 :=
    orDisj 30 (by omega) (by omega)
  rw [e4]
  have e5 : v0 * 2 ^ 45 + v1 * 2 ^ 40 + v2 * 2 ^ 35 + v3 * 2 ^ 30 + v4 * 2 ^ 25 ||| v5 * 2 ^ 20 = v0 * 2 ^ 45 + v1 * 2 ^ 40 + v2 * 2 ^ 35 + v3 * 2 ^ 30 + v4 * 2 ^ 25 + v5 * 2 ^ 20 :=
    orDisj 25 (by omega) (by omega)
  rw [e5]
  have e6 : v0 * 2 ^ 45 + v1 * 2 ^ 40 + v2 * 2 ^ 35 + v3 * 2 ^ 30 + v4 * 2 ^ 25 + v5 * 2 ^ 20 ||| v6 * 2 ^ 15 = v0 * 2 ^ 45 + v1 * 2 ^ 40 + v2 * 2 ^ 35 + v3 * 2 ^ 30 + v4 * 2 ^ 25 + v5 * 2 ^ 20 + v6 * 2 ^ 15 :=
    orDisj 20 (by omega) (by omega)
  rw [e6]
  have e7 : v0 * 2 ^ 45 + v1 * 2 ^ 40 + v2 * 2 ^ 35 + v3 * 2 ^ 30 + v4 * 2 ^ 25 + v5 * 2 ^ 20 + v6 * 2 ^ 15 ||| v7 * 2 ^ 10 = v0 * 2 ^ 45 + v1 * 2 ^ 40 + v2 * 2 ^ 35 + v3 * 2 ^ 30 + v4 * 2 ^ 25 + v5 * 2 ^ 20 + v6 * 2 ^ 15 + v7 * 2 ^ 10 :=
    orDisj 15 (by omega) (by omega)
  rw [e7]
  have e8 : v0 * 2 ^ 45 + v1 * 2 ^ 40 + v2 * 2 ^ 35 + v3 * 2 ^ 30 + v4 * 2 ^ 25 + v5 * 2 ^ 20 + v6 * 2 ^ 15 + v7 * 2 ^ 10 ||| v8 * 2 ^ 5 = v0 * 2 ^ 45 + v1 * 2 ^ 40 + v2 * 2 ^ 35 + v3 * 2 ^ 30 + v4 * 2 ^ 25 + v5 * 2 ^ 20 + v6 * 2 ^ 15 + v7 * 2 ^ 10 + v8 * 2 ^ 5 :=
    orDisj 10 (by omega) (by omega)
  rw [e8]
  have e9 : v0 * 2 ^ 45 + v1 * 2 ^ 40 + v2 * 2 ^ 35 + v3 * 2 ^ 30 + v4 * 2 ^ 25 + v5 * 2 ^ 20 + v6 * 2 ^ 15 + v7 * 2 ^ 10 + v8 * 2 ^ 5 ||| v9 = v0 * 2 ^ 45 + v1 * 2 ^ 40 + v2 * 2 ^ 35 + v3 * 2 ^ 30 + v4 * 2 ^ 25 + v5 * 2 ^ 20 + v6 * 2 ^ 15 + v7 * 2 ^ 10 + v8 * 2 ^ 5 + v9 :=
    orDisj 5 (by omega) (by omega)
  rw [e9]

/-- Arithmetic value of the middle and low decode words: eight 5-bit digits packed by wrapping shifts and bitwise or equal their positional sum. -/
theorem orChain8d (v0 v1 v2 v3 v4 v5 v6 v7 : Nat) (h0 : v0 < 32) (h1 : v1 < 32) (h2 : v2 < 32) (h3 : v3 < 32) (h4 : v4 < 32) (h5 : v5 < 32) (h6 : v6 < 32) (h7 : v7 < 32) :
    (v0 <<< 35) % 2 ^ 64 ||| (v1 <<< 30) % 2 ^ 64 ||| (v2 <<< 25) % 2 ^ 64 ||| (v3 <<< 20) % 2 ^ 64 ||| (v4 <<< 15) % 2 ^ 64 ||| (v5 <<< 10) % 2 ^ 64 ||| (v6 <<< 5) % 2 ^ 64 ||| v7 = v0 * 2 ^ 35 + v1 * 2 ^ 30 + v2 * 2 ^ 25 + v3 * 2 ^ 20 + v4 * 2 ^ 15 + v5 * 2 ^ 10 + v6 * 2 ^ 5 + v7 := by
  simp only [Nat.shiftLeft_eq]
  rw [Nat.mod_eq_of_lt (show v0 * 2 ^ 35 < 2 ^ 64 by omega), Nat.mod_eq_of_lt (show v1 * 2 ^ 30 < 2 ^ 64 by omega), Nat.mod_eq_of_lt (show v2 * 2 ^ 25 < 2 ^ 64 by omega), Nat.mod_eq_of_lt (show v3 * 2 ^ 20 < 2 ^ 64 by omega), Nat.mod_eq_of_lt (show v4 * 2 ^ 15 < 2 ^ 64 by omega), Nat.mod_eq_of_lt (show v5 * 2 ^ 10 < 2 ^ 64 by omega), Nat.mod_eq_of_lt (show v6 * 2 ^ 5 < 2 ^ 64 by omega)]
  have e1 : v0 * 2 ^ 35 ||| v1 * 2 ^ 30 = v0 * 2 ^ 35 + v1 * 2 ^ 30 :=
    orDisj 35 (by omega) (by omega)
  rw [e1]
  have e2 : v0 * 2 ^ 35 + v1 * 2 ^ 30 ||| v2 * 2 ^ 25 = v0 * 2 ^ 35 + v1 * 2 ^ 30 + v2 * 2 ^ 25 :=
    orDisj 30 (by omega) (by omega)
  rw [e2]
  have e3 : v0 * 2 ^ 35 + v1 * 2 ^ 30 + v2 * 2 ^ 25 ||| v3 * 2 ^ 20 = v0 * 2 ^ 35 + v1 * 2 ^ 30 + v2 * 2 ^ 25 + v3 * 2 ^ 20 :=
    orDisj 25 (by omega) (by omega)
  rw [e3]
  have e4 : v0 * 2 ^ 35 + v1 * 2 ^ 30 + v2 * 2 ^ 25 + v3 * 2 ^ 20 ||| v4 * 2 ^ 15 = v0 * 2 ^ 35 + v1 * 2 ^ 30 + v2 * 2 ^ 25 + v3 * 2 ^ 20 + v4 * 2 ^ 15 :=
    orDisj 20 (by omega) (by omega)
  rw [e4]
  have e5 : v0 * 2 ^ 35 + v1 * 2 ^ 30 + v2 * 2 ^ 25 + v3 * 2 ^ 20 + v4 * 2 ^ 15 ||| v5 * 2 ^ 10 = v0 * 2 ^ 35 + v1 * 2 ^ 30 + v2 * 2 ^ 25 + v3 * 2 ^ 20 + v4 * 2 ^ 15 + v5 * 2 ^ 10 :=
    orDisj 15 (by omega) (by omega)
  rw [e5]
  have e6 : v0 * 2 ^ 35 + v1 * 2 ^ 30 + v2 * 2 ^ 25 + v3 * 2 ^ 20 + v4 * 2 ^ 15 + v5 * 2 ^ 10 ||| v6 * 2 ^ 5 = v0 * 2 ^ 35 + v1 * 2 ^ 30 + v2 * 2 ^ 25 + v3 * 2 ^ 20 + v4 * 2 ^ 15 + v5 * 2 ^ 10 + v6 * 2 ^ 5 :=
    orDisj 10 (by omega) (by omega)
  rw [e6]
  have e7 : v0 * 2 ^ 35 + v1 * 2 ^ 30 + v2 * 2 ^ 25 + v3 * 2 ^ 20 + v4 * 2 ^ 15 + v5 * 2 ^ 10 + v6 * 2 ^ 5 ||| v7 = v0 * 2 ^ 35 + v1 * 2 ^ 30 + v2 * 2 ^ 25 + v3 * 2 ^ 20 + v4 * 2 ^ 15 + v5 * 2 ^ 10 + v6 * 2 ^ 5 + v7 :=
    orDisj 5 (by omega) (by omega)
  rw [e7]

/-- Arithmetic value of a 24-bit load of three bytes. -/
theorem orChain3 (v0 v1 v2 : Nat) (h0 : v0 < 256) (h1 : v1 < 256) (h2 : v2 < 256) :
    v0 <<< 16 ||| v1 <<< 8 ||| v2 = v0 * 2 ^ 16 + v1 * 2 ^ 8 + v2 := by
  simp only [Nat.shiftLeft_eq]
  have e1 : v0 * 2 ^ 16 ||| v1 * 2 ^ 8 = v0 * 2 ^ 16 + v1 * 2 ^ 8 :=
    orDisj 16 (by omega) (by omega)
  rw [e1]
  have e2 : v0 * 2 ^ 16 + v1 * 2 ^ 8 ||| v2 = v0 * 2 ^ 16 + v1 * 2 ^ 8 + v2 :=
    orDisj 8 (by omega) (by omega)
  rw [e2]

/-- Arithmetic value of a 32-bit load of four bytes. -/
theorem orChain4 (v0 v1 v2 v3 : Nat) (h0 : v0 < 256) (h1 : v1 < 256) (h2 : v2 < 256) (h3 : v3 < 256) :
    v0 <<< 24 ||| v1 <<< 16 ||| v2 <<< 8 ||| v3 = v0 * 2 ^ 24 + v1 * 2 ^ 16 + v2 * 2 ^ 8 + v3 := by
  simp only [Nat.shiftLeft_eq]
  have e1 : v0 * 2 ^ 24 ||| v1 * 2 ^ 16 = v0 * 2 ^ 24 + v1 * 2 ^ 16 :=
    orDisj 24 (by omega) (by omega)
  rw [e1]
  have e2 : v0 * 2 ^ 24 + v1 * 2 ^ 16 ||| v2 * 2 ^ 8 = v0 * 2 ^ 24 + v1 * 2 ^ 16 + v2 * 2 ^ 8 :=
    orDisj 16 (by omega) (by omega)
  rw [e2]
  have e3 : v0 * 2 ^ 24 + v1 * 2 ^ 16 + v2 * 2 ^ 8 ||| v3 = v0 * 2 ^ 24 + v1 * 2 ^ 16 + v2 * 2 ^ 8 + v3 :=
    orDisj 8 (by omega) (by omega)
  rw [e3]

/-- Arithmetic value of a 48-bit load of six bytes. -/
theorem orChain6 (v0 v1 v2 v3 v4 v5 : Nat) (h0 : v0 < 256) (h1 : v1 < 256) (h2 : v2 < 256) (h3 : v3 < 256) (h4 : v4 < 256) (h5 : v5 < 256) :
    v0 <<< 40 ||| v1 <<< 32 ||| v2 <<< 24 ||| v3 <<< 16 ||| v4 <<< 8 ||| v5 = v0 * 2 ^ 40 + v1 * 2 ^ 32 + v2 * 2 ^ 24 + v3 * 2 ^ 16 + v4 * 2 ^ 8 + v5 := by
  simp only [Nat.shiftLeft_eq]
  have e1 : v0 * 2 ^ 40 ||| v1 * 2 ^ 32 = v0 * 2 ^ 40 + v1 * 2 ^ 32 :=
    orDisj 40 (by omega) (by omega)
  rw [e1]
  have e2 : v0 * 2 ^ 40 + v1 * 2 ^ 32 ||| v2 * 2 ^ 24 = v0 * 2 ^ 40 + v1 * 2 ^ 32 + v2 * 2 ^ 24 :=
    orDisj 32 (by omega) (by omega)
  rw [e2]
  have e3 : v0 * 2 ^ 40 + v1 * 2 ^ 32 + v2 * 2 ^ 24 ||| v3 * 2 ^ 16 = v0 * 2 ^ 40 + v1 * 2 ^ 32 + v2 * 2 ^ 24 + v3 * 2 ^ 16 :=
    orDisj 24 (by omega) (by omega)
  rw [e3]
  have e4 : v0 * 2 ^ 40 + v1 * 2 ^ 32 + v2 * 2 ^ 24 + v3 * 2 ^ 16 ||| v4 * 2 ^ 8 = v0 * 2 ^ 40 + v1 * 2 ^ 32 + v2 * 2 ^ 24 + v3 * 2 ^ 16 + v4 * 2 ^ 8 :=
    orDisj 16 (by omega) (by omega)
  rw [e4]
  have e5 : v0 * 2 ^ 40 + v1 * 2 ^ 32 + v2 * 2 ^ 24 + v3 * 2 ^ 16 + v4 * 2 ^ 8 ||| v5 = v0 * 2 ^ 40 + v1 * 2 ^ 32 + v2 * 2 ^ 24 + v3 * 2 ^ 16 + v4 * 2 ^ 8 + v5 :=
    orDisj 8 (by omega) (by omega)
  rw [e5]

/-- Arithmetic value of a 64-bit load of eight bytes. -/
theorem orChain8b (v0 v1 v2 v3 v4 v5 v6 v7 : Nat) (h0 : v0 < 256) (h1 : v1 < 256) (h2 : v2 < 256) (h3 : v3 < 256) (h4 : v4 < 256) (h5 : v5 < 256) (h6 : v6 < 256) (h7 : v7 < 256) :
    v0 <<< 56 ||| v1 <<< 48 ||| v2 <<< 40 ||| v3 <<< 32 ||| v4 <<< 24 ||| v5 <<< 16 ||| v6 <<< 8 ||| v7 = v0 * 2 ^ 56 + v1 * 2 ^ 48 + v2 * 2 ^ 40 + v3 * 2 ^ 32 + v4 * 2 ^ 24 + v5 * 2 ^ 16 + v6 * 2 ^ 8 + v7 := by
  simp only [Nat.shiftLeft_eq]
  have e1 : v0 * 2 ^ 56 ||| v1 * 2 ^ 48 = v0 * 2 ^ 56 + v1 * 2 ^ 48 :=
    orDisj 56 (by omega) (by omega)
  rw [e1]
  have e2 : v0 * 2 ^ 56 + v1 * 2 ^ 48 ||| v2 * 2 ^ 40 = v0 * 2 ^ 56 + v1 * 2 ^ 48 + v2 * 2 ^ 40 :=
    orDisj 48 (by omega) (by omega)
  rw [e2]
  have e3 : v0 * 2 ^ 56 + v1 * 2 ^ 48 + v2 * 2 ^ 40 ||| v3 * 2 ^ 32 = v0 * 2 ^ 56 + v1 * 2 ^ 48 + v2 * 2 ^ 40 + v3 * 2 ^ 32 :=
    orDisj 40 (by omega) (by omega)
  rw [e3]
  have e4 : v0 * 2 ^ 56 + v1 * 2 ^ 48 + v2 * 2 ^ 40 + v3 * 2 ^ 32 ||| v4 * 2 ^ 24 = v0 * 2 ^ 56 + v1 * 2 ^ 48 + v2 * 2 ^ 40 + v3 * 2 ^ 32 + v4 * 2 ^ 24 :=
    orDisj 32 (by omega) (by omega)
  rw [e4]
  have e5 : v0 * 2 ^ 56 + v1 * 2 ^ 48 + v2 * 2 ^ 40 + v3 * 2 ^ 32 + v4 * 2 ^ 24 ||| v5 * 2 ^ 16 = v0 * 2 ^ 56 + v1 * 2 ^ 48 + v2 * 2 ^ 40 + v3 * 2 ^ 32 + v4 * 2 ^ 24 + v5 * 2 ^ 16 :=
    orDisj 24 (by omega) (by omega)
  rw [e5]
  have e6 : v0 * 2 ^ 56 + v1 * 2 ^ 48 + v2 * 2 ^ 40 + v3 * 2 ^ 32 + v4 * 2 ^ 24 + v5 * 2 ^ 16 ||| v6 * 2 ^ 8 = v0 * 2 ^ 56 + v1 * 2 ^ 48 + v2 * 2 ^ 40 + v3 * 2 ^ 32 + v4 * 2 ^ 24 + v5 * 2 ^ 16 + v6 * 2 ^ 8 :=
    orDisj 16 (by omega) (by omega)
  rw [e6]
  have e7 : v0 * 2 ^ 56 + v1 * 2 ^ 48 + v2 * 2 ^ 40 + v3 * 2 ^ 32 + v4 * 2 ^ 24 + v5 * 2 ^ 16 + v6 * 2 ^ 8 ||| v7 = v0 * 2 ^ 56 + v1 * 2 ^ 48 + v2 * 2 ^ 40 + v3 * 2 ^ 32 + v4 * 2 ^ 24 + v5 * 2 ^ 16 + v6 * 2 ^ 8 + v7 :=
    orDisj 8 (by omega) (by omega)
  rw [e7]
theorem testBit_or_left {x y n : Nat} (h : x.testBit n = true) :
    (x ||| y).testBit n = true := by
  simp [Nat.testBit_or, h]

theorem testBit_or_right {x y n : Nat} (h : y.testBit n = true) :
    (x ||| y).testBit n = true := by
  simp [Nat.testBit_or, h]

/-- Arithmetic value of the high decode word when its digits are valid. -/
theorem pH_val (s : List Nat) (h : ∀ i, 0 ≤ i → i < 10 → decU64 (s.getD i 0) < 32) :
    pH s = decU64 (s.getD 0 0) * 2 ^ 45 + decU64 (s.getD 1 0) * 2 ^ 40 + decU64 (s.getD 2 0) * 2 ^ 35 + decU64 (s.getD 3 0) * 2 ^ 30 + decU64 (s.getD 4 0) * 2 ^ 25 + decU64 (s.getD 5 0) * 2 ^ 20 + decU64 (s.getD 6 0) * 2 ^ 15 + decU64 (s.getD 7 0) * 2 ^ 10 + decU64 (s.getD 8 0) * 2 ^ 5 + decU64 (s.getD 9 0) := by
  unfold pH
  exact orChain10 _ _ _ _ _ _ _ _ _ _ (h 0 (by omega) (by omega)) (h 1 (by omega) (by omega)) (h 2 (by omega) (by omega)) (h 3 (by omega) (by omega)) (h 4 (by omega) (by omega)) (h 5 (by omega) (by omega)) (h 6 (by omega) (by omega)) (h 7 (by omega) (by omega)) (h 8 (by omega) (by omega)) (h 9 (by omega) (by omega))

/-- Bound on the high decode word when its digits are valid. -/
theorem pH_lt {s : List Nat} (h : ∀ i, 0 ≤ i → i < 10 → decU64 (s.getD i 0) < 32) : pH s < 2 ^ 63 := by
  rw [pH_val s h]
  have hb0 := h 0 (by omega) (by omega); have hb1 := h 1 (by omega) (by omega); have hb2 := h 2 (by omega) (by omega); have hb3 := h 3 (by omega) (by omega); have hb4 := h 4 (by omega) (by omega); have hb5 := h 5 (by omega) (by omega); have hb6 := h 6 (by omega) (by omega); have hb7 := h 7 (by omega) (by omega); have hb8 := h 8 (by omega) (by omega); have hb9 := h 9 (by omega) (by omega);
  omega

/-- When some digit of the high word is invalid, its bit 63 is set. -/
theorem pH_bit63 {s : List Nat} (h : ∃ i, 0 ≤ i ∧ i < 10 ∧ ¬ decU64 (s.getD i 0) < 32) :
    (pH s).testBit 63 = true := by
  obtain ⟨i, hlo, hhi, hbad⟩ := h
  have hv : decU64 (s.getD i 0) = 2 ^ 64 - 1 := (decU64_lt_or _).resolve_left hbad
  unfold pH
  interval_cases i
  · rw [hv]
    exact testBit_or_left (testBit_or_left (testBit_or_left (testBit_or_left (testBit_or_left (testBit_or_left (testBit_or_left (testBit_or_left (testBit_or_left ((term_bit63 45 (by omega)))))))))))
  · rw [hv]
    exact testBit_or_left (testBit_or_left (testBit_or_left (testBit_or_left (testBit_or_left (testBit_or_left (testBit_or_left (testBit_or_left (testBit_or_right (term_bit63 40 (by omega))))))))))
  · rw [hv]
    exact testBit_or_left (testBit_or_left (testBit_or_left (testBit_or_left (testBit_or_left (testBit_or_left (testBit_or_left (testBit_or_right (term_bit63 35 (by omega)))))))))
  · rw [hv]
    exact testBit_or_left (testBit_or_left (testBit_or_left (testBit_or_left (testBit_or_left (testBit_or_left (testBit_or_right (term_bit63 30 (by omega))))))))
  · rw [hv]
    exact testBit_or_left (testBit_or_left (testBit_or_left (testBit_or_left (testBit_or_left (testBit_or_right (term_bit63 25 (by omega)))))))
  · rw [hv]
    exact testBit_or_left (testBit_or_left (testBit_or_left (testBit_or_left (testBit_or_right (term_bit63 20 (by omega))))))
  · rw [hv]
    exact testBit_or_left (testBit_or_left (testBit_or_left (testBit_or_right (term_bit63 15 (by omega)))))
  · rw [hv]
    exact testBit_or_left (testBit_or_left (testBit_or_right (term_bit63 10 (by omega))))
  · rw [hv]
    exact testBit_or_left (testBit_or_right (term_bit63 5 (by omega)))
  · rw [hv]
    exact testBit_or_right (by decide : ((2 : Nat) ^ 64 - 1).testBit 63 = true)

/-- Arithmetic value of the middle decode word when its digits are valid. -/
theorem pM_val (s : List Nat) (h : ∀ i, 10 ≤ i → i < 18 → decU64 (s.getD i 0) < 32) :
    pM s = decU64 (s.getD 10 0) * 2 ^ 35 + decU64 (s.getD 11 0) * 2 ^ 30 + decU64 (s.getD 12 0) * 2 ^ 25 + decU64 (s.getD 13 0) * 2 ^ 20 + decU64 (s.getD 14 0) * 2 ^ 15 + decU64 (s.getD 15 0) * 2 ^ 10 + decU64 (s.getD 16 0) * 2 ^ 5 + decU64 (s.getD 17 0) := by
  unfold pM
  exact orChain8d _ _ _ _ _ _ _ _ (h 10 (by omega) (by omega)) (h 11 (by omega) (by omega)) (h 12 (by omega) (by omega)) (h 13 (by omega) (by omega)) (h 14 (by omega) (by omega)) (h 15 (by omega) (by omega)) (h 16 (by omega) (by omega)) (h 17 (by omega) (by omega))

/-- Bound on the middle decode word when its digits are valid. -/
theorem pM_lt {s : List Nat} (h : ∀ i, 10 ≤ i → i < 18 → decU64 (s.getD i 0) < 32) : pM s < 2 ^ 63 := by
  rw [pM_val s h]
  have hb0 := h 10 (by omega) (by omega); have hb1 := h 11 (by omega) (by omega); have hb2 := h 12 (by omega) (by omega); have hb3 := h 13 (by omega) (by omega); have hb4 := h 14 (by omega) (by omega); have hb5 := h 15 (by omega) (by omega); have hb6 := h 16 (by omega) (by omega); have hb7 := h 17 (by omega) (by omega);
  omega

/-- When some digit of the middle word is invalid, its bit 63 is set. -/
theorem pM_bit63 {s : List Nat} (h : ∃ i, 10 ≤ i ∧ i < 18 ∧ ¬ decU64 (s.getD i 0) < 32) :
    (pM s).testBit 63 = true := by
  obtain ⟨i, hlo, hhi, hbad⟩ := h
  have hv : decU64 (s.getD i 0) = 2 ^ 64 - 1 := (decU64_lt_or _).resolve_left hbad
  unfold pM
  interval_cases i
  · rw [hv]
    exact testBit_or_left (testBit_or_left (testBit_or_left (testBit_or_left (testBit_or_left (testBit_or_left (testBit_or_left ((term_bit63 35 (by omega)))))))))
  · rw [hv]
    exact testBit_or_left (testBit_or_left (testBit_or_left (testBit_or_left (testBit_or_left (testBit_or_left (testBit_or_right (term_bit63 30 (by omega))))))))
  · rw [hv]
    exact testBit_or_left (testBit_or_left (testBit_or_left (testBit_or_left (testBit_or_left (testBit_or_right (term_bit63 25 (by omega)))))))
  · rw [hv]
    exact testBit_or_left (testBit_or_left (testBit_or_left (testBit_or_left (testBit_or_right (term_bit63 20 (by omega))))))
  · rw [hv]
    exact testBit_or_left (testBit_or_left (testBit_or_left (testBit_or_right (term_bit63 15 (by omega)))))
  · rw [hv]
    exact testBit_or_left (testBit_or_left (testBit_or_right (term_bit63 10 (by omega))))
  · rw [hv]
    exact testBit_or_left (testBit_or_right (term_bit63 5 (by omega)))
  · rw [hv]
    exact testBit_or_right (by decide : ((2 : Nat) ^ 64 - 1).testBit 63 = true)

/-- Arithmetic value of the low decode word when its digits are valid. -/
theorem pL_val (s : List Nat) (h : ∀ i, 18 ≤ i → i < 26 → decU64 (s.getD i 0) < 32) :
    pL s = decU64 (s.getD 18 0) * 2 ^ 35 + decU64 (s.getD 19 0) * 2 ^ 30 + decU64 (s.getD 20 0) * 2 ^ 25 + decU64 (s.getD 21 0) * 2 ^ 20 + decU64 (s.getD 22 0) * 2 ^ 15 + decU64 (s.getD 23 0) * 2 ^ 10 + decU64 (s.getD 24 0) * 2 ^ 5 + decU64 (s.getD 25 0) := by
  unfold pL
  exact orChain8d _ _ _ _ _ _ _ _ (h 18 (by omega) (by omega)) (h 19 (by omega) (by omega)) (h 20 (by omega) (by omega)) (h 21 (by omega) (by omega)) (h 22 (by omega) (by omega)) (h 23 (by omega) (by omega)) (h 24 (by omega) (by omega)) (h 25 (by omega) (by omega))

/-- Bound on the low decode word when its digits are valid. -/
theorem pL_lt {s : List Nat} (h : ∀ i, 18 ≤ i → i < 26 → decU64 (s.getD i 0) < 32) : pL s < 2 ^ 63 := by
  rw [pL_val s h]
  have hb0 := h 18 (by omega) (by omega); have hb1 := h 19 (by omega) (by omega); have hb2 := h 20 (by omega) (by omega); have hb3 := h 21 (by omega) (by omega); have hb4 := h 22 (by omega) (by omega); have hb5 := h 23 (by omega) (by omega); have hb6 := h 24 (by omega) (by omega); have hb7 := h 25 (by omega) (by omega);
  omega

/-- When some digit of the low word is invalid, its bit 63 is set. -/
theorem pL_bit63 {s : List Nat} (h : ∃ i, 18 ≤ i ∧ i < 26 ∧ ¬ decU64 (s.getD i 0) < 32) :
    (pL s).testBit 63 = true := by
  obtain ⟨i, hlo, hhi, hbad⟩ := h
  have hv : decU64 (s.getD i 0) = 2 ^ 64 - 1 := (decU64_lt_or _).resolve_left hbad
  unfold pL
  interval_cases i
  · rw [hv]
    exact testBit_or_left (testBit_or_left (testBit_or_left (testBit_or_left (testBit_or_left (testBit_or_left (testBit_or_left ((term_bit63 35 (by omega)))))))))
  · rw [hv]
    exact testBit_or_left (testBit_or_left (testBit_or_left (testBit_or_left (testBit_or_left (testBit_or_left (testBit_or_right (term_bit63 30 (by omega))))))))
  · rw [hv]
    exact testBit_or_left (testBit_or_left (testBit_or_left (testBit_or_left (testBit_or_left (testBit_or_right (term_bit63 25 (by omega)))))))
  · rw [hv]
    exact testBit_or_left (testBit_or_left (testBit_or_left (testBit_or_left (testBit_or_right (term_bit63 20 (by omega))))))
  · rw [hv]
    exact testBit_or_left (testBit_or_left (testBit_or_left (testBit_or_right (term_bit63 15 (by omega)))))
  · rw [hv]
    exact testBit_or_left (testBit_or_left (testBit_or_right (term_bit63 10 (by omega))))
  · rw [hv]
    exact testBit_or_left (testBit_or_right (term_bit63 5 (by omega)))
  · rw [hv]
    exact testBit_or_right (by decide : ((2 : Nat) ^ 64 - 1).testBit 63 = true)

/-- The combined high-bit test of the decoder is zero exactly when all 26
alphabet lookups are valid. -/
theorem parse_check_zero_iff (s : List Nat) :
    (pH s ||| pM s ||| pL s) &&& (1 <<< 63) = 0 ↔
      ∀ i, i < 26 → decU64 (s.getD i 0) < 32 := by
  constructor
  · intro hz i hi
    by_contra hbad
    have hbit : (pH s ||| pM s ||| pL s).testBit 63 = true := by
      rcases (by omega : i < 10 ∨ (10 ≤ i ∧ i < 18) ∨ (18 ≤ i ∧ i < 26)) with h | h | h
      · exact testBit_or_left (testBit_or_left (pH_bit63 ⟨i, by omega, h, hbad⟩))
      · exact testBit_or_left (testBit_or_right (pM_bit63 ⟨i, h.1, h.2, hbad⟩))
      · exact testBit_or_right (pL_bit63 ⟨i, h.1, h.2, hbad⟩)
    rw [one_shl_63, Nat.and_two_pow, hbit] at hz
    norm_num at hz
  · intro hv
    apply and63_eq_zero
    have h1 : pH s < 2 ^ 63 := pH_lt (fun i h1 h2 => hv i (by omega))
    have h2 : pM s < 2 ^ 63 := pM_lt (fun i h1 h2 => hv i (by omega))
    have h3 : pL s < 2 ^ 63 := pL_lt (fun i h1 h2 => hv i (by omega))
    exact Nat.or_lt_two_pow (Nat.or_lt_two_pow h1 h2) h3

/-- On an input of wrong length the decoder stops with the size error. -/
theorem parse_size (s : List Nat) (h : s.length ≠ 26) :
    parse s = (ULID.Zero, some Err.InvalidSize) := by
  unfold parse
  rw [if_pos (by simpa [EncodedSize] using h)]

/-- On a 26-byte input with an invalid character the decoder stops with
the character error. -/
theorem parse_invalid (s : List Nat) (h26 : s.length = 26)
    (hbad : ∃ i, i < 26 ∧ ¬ decU64 (s.getD i 0) < 32) :
    parse s = (ULID.Zero, some Err.InvalidCharacter) := by
  unfold parse
  rw [if_neg (by simp [EncodedSize, h26]), if_pos]
  intro hz
  obtain ⟨i, hi, hbadi⟩ := hbad
  exact hbadi ((parse_check_zero_iff s).mp hz i hi)

/-- On a 26-byte input of valid characters whose first byte exceeds the
digit 7 the decoder stops with the overflow error. -/
theorem parse_overflow (s : List Nat) (h26 : s.length = 26)
    (hv : ∀ i, i < 26 → decU64 (s.getD i 0) < 32) (h0 : 55 < s.getD 0 0) :
    parse s = (ULID.Zero, some Err.Overflow) := by
  unfold parse
  rw [if_neg (by simp [EncodedSize, h26]),
      if_neg (by simpa using (parse_check_zero_iff s).mpr hv), if_pos h0]

/-- On a 26-byte input of valid characters whose first byte does not
exceed the digit 7 the decoder succeeds with the sliced bytes. -/
theorem parse_ok (s : List Nat) (h26 : s.length = 26)
    (hv : ∀ i, i < 26 → decU64 (s.getD i 0) < 32) (h0 : s.getD 0 0 ≤ 55) :
    parse s = (⟨pH s >>> 40 % 256, pH s >>> 32 % 256, pH s >>> 24 % 256,
               pH s >>> 16 % 256, pH s >>> 8 % 256, pH s % 256,
               pM s >>> 32 % 256, pM s >>> 24 % 256, pM s >>> 16 % 256,
               pM s >>> 8 % 256, pM s % 256,
               pL s >>> 32 % 256, pL s >>> 24 % 256, pL s >>> 16 % 256,
               pL s >>> 8 % 256, pL s % 256⟩, none) := by
  unfold parse
  rw [if_neg (by simp [EncodedSize, h26]),
      if_neg (by simpa using (parse_check_zero_iff s).mpr hv), if_neg (by omega)]

/-- Mask-with-31 values are valid decoder digits after encoding. -/
theorem and31_lt (x : Nat) : x &&& 31 < 32 := by
  rw [and31]
  exact Nat.mod_lt _ (by norm_num)

theorem decU64_encChar31 (x : Nat) : decU64 (encChar (x &&& 31)) = x &&& 31 :=
  decU64_encChar (and31_lt x)

/-- Digits below 8 encode to characters at most the digit 7 (byte 55). -/
theorem encChar_le55 {v : Nat} (hv : v < 8) : encChar v ≤ 55 :=
  (by decide : ∀ v' < 8, encChar v' ≤ 55) v hv
/-- Small-form values of the 5-bit groups that the encoders extract from
24-bit and 32-bit byte loads; each group is a simple function of at most
two adjacent bytes. -/
theorem gw3_21 (x y z : Nat) (hx : x < 256) (hy : y < 256) (hz : z < 256) :
    (x * 2 ^ 16 + y * 2 ^ 8 + z) >>> 21 &&& 31 = x / 32 := by
  rw [and31, Nat.shiftRight_eq_div_pow]; omega
theorem gw3_16 (x y z : Nat) (hx : x < 256) (hy : y < 256) (hz : z < 256) :
    (x * 2 ^ 16 + y * 2 ^ 8 + z) >>> 16 &&& 31 = x % 32 := by
  rw [and31, Nat.shiftRight_eq_div_pow]; omega
theorem gw3_11 (x y z : Nat) (hx : x < 256) (hy : y < 256) (hz : z < 256) :
    (x * 2 ^ 16 + y * 2 ^ 8 + z) >>> 11 &&& 31 = y / 8 := by
  rw [and31, Nat.shiftRight_eq_div_pow]; omega
theorem gw3_6 (x y z : Nat) (hx : x < 256) (hy : y < 256) (hz : z < 256) :
    (x * 2 ^ 16 + y * 2 ^ 8 + z) >>> 6 &&& 31 = y % 8 * 4 + z / 64 := by
  rw [and31, Nat.shiftRight_eq_div_pow]; omega
theorem gw3_1 (x y z : Nat) (hx : x < 256) (hy : y < 256) (hz : z < 256) :
    (x * 2 ^ 16 + y * 2 ^ 8 + z) >>> 1 &&& 31 = z / 2 % 32 := by
  rw [and31, Nat.shiftRight_eq_div_pow]; omega
theorem gw4_27 (x y z w : Nat) (hx : x < 256) (hy : y < 256) (hz : z < 256) (hw : w < 256) :
    (x * 2 ^ 24 + y * 2 ^ 16 + z * 2 ^ 8 + w) >>> 27 &&& 31 = x / 8 := by
  rw [and31, Nat.shiftRight_eq_div_pow]; omega
theorem gw4_22 (x y z w : Nat) (hx : x < 256) (hy : y < 256) (hz : z < 256) (hw : w < 256) :
    (x * 2 ^ 24 + y * 2 ^ 16 + z * 2 ^ 8 + w) >>> 22 &&& 31 = x % 8 * 4 + y / 64 := by
  rw [and31, Nat.shiftRight_eq_div_pow]; omega
theorem gw4_21 (x y z w : Nat) (hx : x < 256) (hy : y < 256) (hz : z < 256) (hw : w < 256) :
    (x * 2 ^ 24 + y * 2 ^ 16 + z * 2 ^ 8 + w) >>> 21 &&& 31 = x % 4 * 8 + y / 32 := by
  rw [and31, Nat.shiftRight_eq_div_pow]; omega
theorem gw4_20 (x y z w : Nat) (hx : x < 256) (hy : y < 256) (hz : z < 256) (hw : w < 256) :
    (x * 2 ^ 24 + y * 2 ^ 16 + z * 2 ^ 8 + w) >>> 20 &&& 31 = x % 2 * 16 + y / 16 := by
  rw [and31, Nat.shiftRight_eq_div_pow]; omega
theorem gw4_17 (x y z w : Nat) (hx : x < 256) (hy : y < 256) (hz : z < 256) (hw : w < 256) :
    (x * 2 ^ 24 + y * 2 ^ 16 + z * 2 ^ 8 + w) >>> 17 &&& 31 = y / 2 % 32 := by
  rw [and31, Nat.shiftRight_eq_div_pow]; omega
theorem gw4_16 (x y z w : Nat) (hx : x < 256) (hy : y < 256) (hz : z < 256) (hw : w < 256) :
    (x * 2 ^ 24 + y * 2 ^ 16 + z * 2 ^ 8 + w) >>> 16 &&& 31 = y % 32 := by
  rw [and31, Nat.shiftRight_eq_div_pow]; omega
theorem gw4_15 (x y z w : Nat) (hx : x < 256) (hy : y < 256) (hz : z < 256) (hw : w < 256) :
    (x * 2 ^ 24 + y * 2 ^ 16 + z * 2 ^ 8 + w) >>> 15 &&& 31 = y % 16 * 2 + z / 128 := by
  rw [and31, Nat.shiftRight_eq_div_pow]; omega
theorem gw4_12 (x y z w : Nat) (hx : x < 256) (hy : y < 256) (hz : z < 256) (hw : w < 256) :
    (x * 2 ^ 24 + y * 2 ^ 16 + z * 2 ^ 8 + w) >>> 12 &&& 31 = y % 2 * 16 + z / 16 := by
  rw [and31, Nat.shiftRight_eq_div_pow]; omega
theorem gw4_11 (x y z w : Nat) (hx : x < 256) (hy : y < 256) (hz : z < 256) (hw : w < 256) :
    (x * 2 ^ 24 + y * 2 ^ 16 + z * 2 ^ 8 + w) >>> 11 &&& 31 = z / 8 := by
  rw [and31, Nat.shiftRight_eq_div_pow]; omega
theorem gw4_10 (x y z w : Nat) (hx : x < 256) (hy : y < 256) (hz : z < 256) (hw : w < 256) :
    (x * 2 ^ 24 + y * 2 ^ 16 + z * 2 ^ 8 + w) >>> 10 &&& 31 = z / 4 % 32 := by
  rw [and31, Nat.shiftRight_eq_div_pow]; omega
theorem gw4_7 (x y z w : Nat) (hx : x < 256) (hy : y < 256) (hz : z < 256) (hw : w < 256) :
    (x * 2 ^ 24 + y * 2 ^ 16 + z * 2 ^ 8 + w) >>> 7 &&& 31 = z % 16 * 2 + w / 128 := by
  rw [and31, Nat.shiftRight_eq_div_pow]; omega
theorem gw4_6 (x y z w : Nat) (hx : x < 256) (hy : y < 256) (hz : z < 256) (hw : w < 256) :
    (x * 2 ^ 24 + y * 2 ^ 16 + z * 2 ^ 8 + w) >>> 6 &&& 31 = z % 8 * 4 + w / 64 := by
  rw [and31, Nat.shiftRight_eq_div_pow]; omega
theorem gw4_5 (x y z w : Nat) (hx : x < 256) (hy : y < 256) (hz : z < 256) (hw : w < 256) :
    (x * 2 ^ 24 + y * 2 ^ 16 + z * 2 ^ 8 + w) >>> 5 &&& 31 = z % 4 * 8 + w / 32 := by
  rw [and31, Nat.shiftRight_eq_div_pow]; omega
theorem gw4_2 (x y z w : Nat) (hx : x < 256) (hy : y < 256) (hz : z < 256) (hw : w < 256) :
    (x * 2 ^ 24 + y * 2 ^ 16 + z * 2 ^ 8 + w) >>> 2 &&& 31 = w / 4 % 32 := by
  rw [and31, Nat.shiftRight_eq_div_pow]; omega
theorem gw4_1 (x y z w : Nat) (hx : x < 256) (hy : y < 256) (hz : z < 256) (hw : w < 256) :
    (x * 2 ^ 24 + y * 2 ^ 16 + z * 2 ^ 8 + w) >>> 1 &&& 31 = w / 2 % 32 := by
  rw [and31, Nat.shiftRight_eq_div_pow]; omega
theorem gw4_0 (x y z w : Nat) (hx : x < 256) (hy : y < 256) (hz : z < 256) (hw : w < 256) :
    x * 2 ^ 24 + y * 2 ^ 16 + z * 2 ^ 8 + w &&& 31 = w % 32 := by
  rw [and31]; omega
set_option maxHeartbeats 1600000 in
/-- Parsing a list of 26 encoded 5-bit groups succeeds and decodes to the
packed byte values, provided the leading group is below 8. -/
theorem parse_text_shape (x0 x1 x2 x3 x4 x5 x6 x7 x8 x9 x10 x11 x12 x13 x14 x15 x16 x17 x18 x19 x20 x21 x22 x23 x24 x25 : Nat) (h55 : x0 &&& 31 < 8) :
    parse [encChar (x0 &&& 31), encChar (x1 &&& 31), encChar (x2 &&& 31), encChar (x3 &&& 31), encChar (x4 &&& 31), encChar (x5 &&& 31), encChar (x6 &&& 31), encChar (x7 &&& 31), encChar (x8 &&& 31), encChar (x9 &&& 31), encChar (x10 &&& 31), encChar (x11 &&& 31), encChar (x12 &&& 31), encChar (x13 &&& 31), encChar (x14 &&& 31), encChar (x15 &&& 31), encChar (x16 &&& 31), encChar (x17 &&& 31), encChar (x18 &&& 31), encChar (x19 &&& 31), encChar (x20 &&& 31), encChar (x21 &&& 31), encChar (x22 &&& 31), encChar (x23 &&& 31), encChar (x24 &&& 31), encChar (x25 &&& 31)] =
      (⟨((x0 &&& 31) * 2 ^ 45 + (x1 &&& 31) * 2 ^ 40 + (x2 &&& 31) * 2 ^ 35 + (x3 &&& 31) * 2 ^ 30 + (x4 &&& 31) * 2 ^ 25 + (x5 &&& 31) * 2 ^ 20 + (x6 &&& 31) * 2 ^ 15 + (x7 &&& 31) * 2 ^ 10 + (x8 &&& 31) * 2 ^ 5 + (x9 &&& 31)) >>> 40 % 256,
        ((x0 &&& 31) * 2 ^ 45 + (x1 &&& 31) * 2 ^ 40 + (x2 &&& 31) * 2 ^ 35 + (x3 &&& 31) * 2 ^ 30 + (x4 &&& 31) * 2 ^ 25 + (x5 &&& 31) * 2 ^ 20 + (x6 &&& 31) * 2 ^ 15 + (x7 &&& 31) * 2 ^ 10 + (x8 &&& 31) * 2 ^ 5 + (x9 &&& 31)) >>> 32 % 256,
        ((x0 &&& 31) * 2 ^ 45 + (x1 &&& 31) * 2 ^ 40 + (x2 &&& 31) * 2 ^ 35 + (x3 &&& 31) * 2 ^ 30 + (x4 &&& 31) * 2 ^ 25 + (x5 &&& 31) * 2 ^ 20 + (x6 &&& 31) * 2 ^ 15 + (x7 &&& 31) * 2 ^ 10 + (x8 &&& 31) * 2 ^ 5 + (x9 &&& 31)) >>> 24 % 256,
        ((x0 &&& 31) * 2 ^ 45 + (x1 &&& 31) * 2 ^ 40 + (x2 &&& 31) * 2 ^ 35 + (x3 &&& 31) * 2 ^ 30 + (x4 &&& 31) * 2 ^ 25 + (x5 &&& 31) * 2 ^ 20 + (x6 &&& 31) * 2 ^ 15 + (x7 &&& 31) * 2 ^ 10 + (x8 &&& 31) * 2 ^ 5 + (x9 &&& 31)) >>> 16 % 256,
        ((x0 &&& 31) * 2 ^ 45 + (x1 &&& 31) * 2 ^ 40 + (x2 &&& 31) * 2 ^ 35 + (x3 &&& 31) * 2 ^ 30 + (x4 &&& 31) * 2 ^ 25 + (x5 &&& 31) * 2 ^ 20 + (x6 &&& 31) * 2 ^ 15 + (x7 &&& 31) * 2 ^ 10 + (x8 &&& 31) * 2 ^ 5 + (x9 &&& 31)) >>> 8 % 256,
        ((x0 &&& 31) * 2 ^ 45 + (x1 &&& 31) * 2 ^ 40 + (x2 &&& 31) * 2 ^ 35 + (x3 &&& 31) * 2 ^ 30 + (x4 &&& 31) * 2 ^ 25 + (x5 &&& 31) * 2 ^ 20 + (x6 &&& 31) * 2 ^ 15 + (x7 &&& 31) * 2 ^ 10 + (x8 &&& 31) * 2 ^ 5 + (x9 &&& 31)) % 256,
        ((x10 &&& 31) * 2 ^ 35 + (x11 &&& 31) * 2 ^ 30 + (x12 &&& 31) * 2 ^ 25 + (x13 &&& 31) * 2 ^ 20 + (x14 &&& 31) * 2 ^ 15 + (x15 &&& 31) * 2 ^ 10 + (x16 &&& 31) * 2 ^ 5 + (x17 &&& 31)) >>> 32 % 256,
        ((x10 &&& 31) * 2 ^ 35 + (x11 &&& 31) * 2 ^ 30 + (x12 &&& 31) * 2 ^ 25 + (x13 &&& 31) * 2 ^ 20 + (x14 &&& 31) * 2 ^ 15 + (x15 &&& 31) * 2 ^ 10 + (x16 &&& 31) * 2 ^ 5 + (x17 &&& 31)) >>> 24 % 256,
        ((x10 &&& 31) * 2 ^ 35 + (x11 &&& 31) * 2 ^ 30 + (x12 &&& 31) * 2 ^ 25 + (x13 &&& 31) * 2 ^ 20 + (x14 &&& 31) * 2 ^ 15 + (x15 &&& 31) * 2 ^ 10 + (x16 &&& 31) * 2 ^ 5 + (x17 &&& 31)) >>> 16 % 256,
        ((x10 &&& 31) * 2 ^ 35 + (x11 &&& 31) * 2 ^ 30 + (x12 &&& 31) * 2 ^ 25 + (x13 &&& 31) * 2 ^ 20 + (x14 &&& 31) * 2 ^ 15 + (x15 &&& 31) * 2 ^ 10 + (x16 &&& 31) * 2 ^ 5 + (x17 &&& 31)) >>> 8 % 256,
        ((x10 &&& 31) * 2 ^ 35 + (x11 &&& 31) * 2 ^ 30 + (x12 &&& 31) * 2 ^ 25 + (x13 &&& 31) * 2 ^ 20 + (x14 &&& 31) * 2 ^ 15 + (x15 &&& 31) * 2 ^ 10 + (x16 &&& 31) * 2 ^ 5 + (x17 &&& 31)) % 256,
        ((x18 &&& 31) * 2 ^ 35 + (x19 &&& 31) * 2 ^ 30 + (x20 &&& 31) * 2 ^ 25 + (x21 &&& 31) * 2 ^ 20 + (x22 &&& 31) * 2 ^ 15 + (x23 &&& 31) * 2 ^ 10 + (x24 &&& 31) * 2 ^ 5 + (x25 &&& 31)) >>> 32 % 256,
        ((x18 &&& 31) * 2 ^ 35 + (x19 &&& 31) * 2 ^ 30 + (x20 &&& 31) * 2 ^ 25 + (x21 &&& 31) * 2 ^ 20 + (x22 &&& 31) * 2 ^ 15 + (x23 &&& 31) * 2 ^ 10 + (x24 &&& 31) * 2 ^ 5 + (x25 &&& 31)) >>> 24 % 256,
        ((x18 &&& 31) * 2 ^ 35 + (x19 &&& 31) * 2 ^ 30 + (x20 &&& 31) * 2 ^ 25 + (x21 &&& 31) * 2 ^ 20 + (x22 &&& 31) * 2 ^ 15 + (x23 &&& 31) * 2 ^ 10 + (x24 &&& 31) * 2 ^ 5 + (x25 &&& 31)) >>> 16 % 256,
        ((x18 &&& 31) * 2 ^ 35 + (x19 &&& 31) * 2 ^ 30 + (x20 &&& 31) * 2 ^ 25 + (x21 &&& 31) * 2 ^ 20 + (x22 &&& 31) * 2 ^ 15 + (x23 &&& 31) * 2 ^ 10 + (x24 &&& 31) * 2 ^ 5 + (x25 &&& 31)) >>> 8 % 256,
        ((x18 &&& 31) * 2 ^ 35 + (x19 &&& 31) * 2 ^ 30 + (x20 &&& 31) * 2 ^ 25 + (x21 &&& 31) * 2 ^ 20 + (x22 &&& 31) * 2 ^ 15 + (x23 &&& 31) * 2 ^ 10 + (x24 &&& 31) * 2 ^ 5 + (x25 &&& 31)) % 256⟩, none) := by
  have hq0 : ([encChar (x0 &&& 31), encChar (x1 &&& 31), encChar (x2 &&& 31), encChar (x3 &&& 31), encChar (x4 &&& 31), encChar (x5 &&& 31), encChar (x6 &&& 31), encChar (x7 &&& 31), encChar (x8 &&& 31), encChar (x9 &&& 31), encChar (x10 &&& 31), encChar (x11 &&& 31), encChar (x12 &&& 31), encChar (x13 &&& 31), encChar (x14 &&& 31), encChar (x15 &&& 31), encChar (x16 &&& 31), encChar (x17 &&& 31), encChar (x18 &&& 31), encChar (x19 &&& 31), encChar (x20 &&& 31), encChar (x21 &&& 31), encChar (x22 &&& 31), encChar (x23 &&& 31), encChar (x24 &&& 31), encChar (x25 &&& 31)]).getD 0 0 = encChar (x0 &&& 31) := rfl
  have hq1 : ([encChar (x0 &&& 31), encChar (x1 &&& 31), encChar (x2 &&& 31), encChar (x3 &&& 31), encChar (x4 &&& 31), encChar (x5 &&& 31), encChar (x6 &&& 31), encChar (x7 &&& 31), encChar (x8 &&& 31), encChar (x9 &&& 31), encChar (x10 &&& 31), encChar (x11 &&& 31), encChar (x12 &&& 31), encChar (x13 &&& 31), encChar (x14 &&& 31), encChar (x15 &&& 31), encChar (x16 &&& 31), encChar (x17 &&& 31), encChar (x18 &&& 31), encChar (x19 &&& 31), encChar (x20 &&& 31), encChar (x21 &&& 31), encChar (x22 &&& 31), encChar (x23 &&& 31), encChar (x24 &&& 31), encChar (x25 &&& 31)]).getD 1 0 = encChar (x1 &&& 31) := rfl
  have hq2 : ([encChar (x0 &&& 31), encChar (x1 &&& 31), encChar (x2 &&& 31), encChar (x3 &&& 31), encChar (x4 &&& 31), encChar (x5 &&& 31), encChar (x6 &&& 31), encChar (x7 &&& 31), encChar (x8 &&& 31), encChar (x9 &&& 31), encChar (x10 &&& 31), encChar (x11 &&& 31), encChar (x12 &&& 31), encChar (x13 &&& 31), encChar (x14 &&& 31), encChar (x15 &&& 31), encChar (x16 &&& 31), encChar (x17 &&& 31), encChar (x18 &&& 31), encChar (x19 &&& 31), encChar (x20 &&& 31), encChar (x21 &&& 31), encChar (x22 &&& 31), encChar (x23 &&& 31), encChar (x24 &&& 31), encChar (x25 &&& 31)]).getD 2 0 = encChar (x2 &&& 31) := rfl
  have hq3 : ([encChar (x0 &&& 31), encChar (x1 &&& 31), encChar (x2 &&& 31), encChar (x3 &&& 31), encChar (x4 &&& 31), encChar (x5 &&& 31), encChar (x6 &&& 31), encChar (x7 &&& 31), encChar (x8 &&& 31), encChar (x9 &&& 31), encChar (x10 &&& 31), encChar (x11 &&& 31), encChar (x12 &&& 31), encChar (x13 &&& 31), encChar (x14 &&& 31), encChar (x15 &&& 31), encChar (x16 &&& 31), encChar (x17 &&& 31), encChar (x18 &&& 31), encChar (x19 &&& 31), encChar (x20 &&& 31), encChar (x21 &&& 31), encChar (x22 &&& 31), encChar (x23 &&& 31), encChar (x24 &&& 31), encChar (x25 &&& 31)]).getD 3 0 = encChar (x3 &&& 31) := rfl
  have hq4 : ([encChar (x0 &&& 31), encChar (x1 &&& 31), encChar (x2 &&& 31), encChar (x3 &&& 31), encChar (x4 &&& 31), encChar (x5 &&& 31), encChar (x6 &&& 31), encChar (x7 &&& 31), encChar (x8 &&& 31), encChar (x9 &&& 31), encChar (x10 &&& 31), encChar (x11 &&& 31), encChar (x12 &&& 31), encChar (x13 &&& 31), encChar (x14 &&& 31), encChar (x15 &&& 31), encChar (x16 &&& 31), encChar (x17 &&& 31), encChar (x18 &&& 31), encChar (x19 &&& 31), encChar (x20 &&& 31), encChar (x21 &&& 31), encChar (x22 &&& 31), encChar (x23 &&& 31), encChar (x24 &&& 31), encChar (x25 &&& 31)]).getD 4 0 = encChar (x4 &&& 31) := rfl
  have hq5 : ([encChar (x0 &&& 31), encChar (x1 &&& 31), encChar (x2 &&& 31), encChar (x3 &&& 31), encChar (x4 &&& 31), encChar (x5 &&& 31), encChar (x6 &&& 31), encChar (x7 &&& 31), encChar (x8 &&& 31), encChar (x9 &&& 31), encChar (x10 &&& 31), encChar (x11 &&& 31), encChar (x12 &&& 31), encChar (x13 &&& 31), encChar (x14 &&& 31), encChar (x15 &&& 31), encChar (x16 &&& 31), encChar (x17 &&& 31), encChar (x18 &&& 31), encChar (x19 &&& 31), encChar (x20 &&& 31), encChar (x21 &&& 31), encChar (x22 &&& 31), encChar (x23 &&& 31), encChar (x24 &&& 31), encChar (x25 &&& 31)]).getD 5 0 = encChar (x5 &&& 31) := rfl
  have hq6 : ([encChar (x0 &&& 31), encChar (x1 &&& 31), encChar (x2 &&& 31), encChar (x3 &&& 31), encChar (x4 &&& 31), encChar (x5 &&& 31), encChar (x6 &&& 31), encChar (x7 &&& 31), encChar (x8 &&& 31), encChar (x9 &&& 31), encChar (x10 &&& 31), encChar (x11 &&& 31), encChar (x12 &&& 31), encChar (x13 &&& 31), encChar (x14 &&& 31), encChar (x15 &&& 31), encChar (x16 &&& 31), encChar (x17 &&& 31), encChar (x18 &&& 31), encChar (x19 &&& 31), encChar (x20 &&& 31), encChar (x21 &&& 31), encChar (x22 &&& 31), encChar (x23 &&& 31), encChar (x24 &&& 31), encChar (x25 &&& 31)]).getD 6 0 = encChar (x6 &&& 31) := rfl
  have hq7 : ([encChar (x0 &&& 31), encChar (x1 &&& 31), encChar (x2 &&& 31), encChar (x3 &&& 31), encChar (x4 &&& 31), encChar (x5 &&& 31), encChar (x6 &&& 31), encChar (x7 &&& 31), encChar (x8 &&& 31), encChar (x9 &&& 31), encChar (x10 &&& 31), encChar (x11 &&& 31), encChar (x12 &&& 31), encChar (x13 &&& 31), encChar (x14 &&& 31), encChar (x15 &&& 31), encChar (x16 &&& 31), encChar (x17 &&& 31), encChar (x18 &&& 31), encChar (x19 &&& 31), encChar (x20 &&& 31), encChar (x21 &&& 31), encChar (x22 &&& 31), encChar (x23 &&& 31), encChar (x24 &&& 31), encChar (x25 &&& 31)]).getD 7 0 = encChar (x7 &&& 31) := rfl
  have hq8 : ([encChar (x0 &&& 31), encChar (x1 &&& 31), encChar (x2 &&& 31), encChar (x3 &&& 31), encChar (x4 &&& 31), encChar (x5 &&& 31), encChar (x6 &&& 31), encChar (x7 &&& 31), encChar (x8 &&& 31), encChar (x9 &&& 31), encChar (x10 &&& 31), encChar (x11 &&& 31), encChar (x12 &&& 31), encChar (x13 &&& 31), encChar (x14 &&& 31), encChar (x15 &&& 31), encChar (x16 &&& 31), encChar (x17 &&& 31), encChar (x18 &&& 31), encChar (x19 &&& 31), encChar (x20 &&& 31), encChar (x21 &&& 31), encChar (x22 &&& 31), encChar (x23 &&& 31), encChar (x24 &&& 31), encChar (x25 &&& 31)]).getD 8 0 = encChar (x8 &&& 31) := rfl
  have hq9 : ([encChar (x0 &&& 31), encChar (x1 &&& 31), encChar (x2 &&& 31), encChar (x3 &&& 31), encChar (x4 &&& 31), encChar (x5 &&& 31), encChar (x6 &&& 31), encChar (x7 &&& 31), encChar (x8 &&& 31), encChar (x9 &&& 31), encChar (x10 &&& 31), encChar (x11 &&& 31), encChar (x12 &&& 31), encChar (x13 &&& 31), encChar (x14 &&& 31), encChar (x15 &&& 31), encChar (x16 &&& 31), encChar (x17 &&& 31), encChar (x18 &&& 31), encChar (x19 &&& 31), encChar (x20 &&& 31), encChar (x21 &&& 31), encChar (x22 &&& 31), encChar (x23 &&& 31), encChar (x24 &&& 31), encChar (x25 &&& 31)]).getD 9 0 = encChar (x9 &&& 31) := rfl
  have hq10 : ([encChar (x0 &&& 31), encChar (x1 &&& 31), encChar (x2 &&& 31), encChar (x3 &&& 31), encChar (x4 &&& 31), encChar (x5 &&& 31), encChar (x6 &&& 31), encChar (x7 &&& 31), encChar (x8 &&& 31), encChar (x9 &&& 31), encChar (x10 &&& 31), encChar (x11 &&& 31), encChar (x12 &&& 31), encChar (x13 &&& 31), encChar (x14 &&& 31), encChar (x15 &&& 31), encChar (x16 &&& 31), encChar (x17 &&& 31), encChar (x18 &&& 31), encChar (x19 &&& 31), encChar (x20 &&& 31), encChar (x21 &&& 31), encChar (x22 &&& 31), encChar (x23 &&& 31), encChar (x24 &&& 31), encChar (x25 &&& 31)]).getD 10 0 = encChar (x10 &&& 31) := rfl
  have hq11 : ([encChar (x0 &&& 31), encChar (x1 &&& 31), encChar (x2 &&& 31), encChar (x3 &&& 31), encChar (x4 &&& 31), encChar (x5 &&& 31), encChar (x6 &&& 31), encChar (x7 &&& 31), encChar (x8 &&& 31), encChar (x9 &&& 31), encChar (x10 &&& 31), encChar (x11 &&& 31), encChar (x12 &&& 31), encChar (x13 &&& 31), encChar (x14 &&& 31), encChar (x15 &&& 31), encChar (x16 &&& 31), encChar (x17 &&& 31), encChar (x18 &&& 31), encChar (x19 &&& 31), encChar (x20 &&& 31), encChar (x21 &&& 31), encChar (x22 &&& 31), encChar (x23 &&& 31), encChar (x24 &&& 31), encChar (x25 &&& 31)]).getD 11 0 = encChar (x11 &&& 31) := rfl
  have hq12 : ([encChar (x0 &&& 31), encChar (x1 &&& 31), encChar (x2 &&& 31), encChar (x3 &&& 31), encChar (x4 &&& 31), encChar (x5 &&& 31), encChar (x6 &&& 31), encChar (x7 &&& 31), encChar (x8 &&& 31), encChar (x9 &&& 31), encChar (x10 &&& 31), encChar (x11 &&& 31), encChar (x12 &&& 31), encChar (x13 &&& 31), encChar (x14 &&& 31), encChar (x15 &&& 31), encChar (x16 &&& 31), encChar (x17 &&& 31), encChar (x18 &&& 31), encChar (x19 &&& 31), encChar (x20 &&& 31), encChar (x21 &&& 31), encChar (x22 &&& 31), encChar (x23 &&& 31), encChar (x24 &&& 31), encChar (x25 &&& 31)]).getD 12 0 = encChar (x12 &&& 31) := rfl
  have hq13 : ([encChar (x0 &&& 31), encChar (x1 &&& 31), encChar (x2 &&& 31), encChar (x3 &&& 31), encChar (x4 &&& 31), encChar (x5 &&& 31), encChar (x6 &&& 31), encChar (x7 &&& 31), encChar (x8 &&& 31), encChar (x9 &&& 31), encChar (x10 &&& 31), encChar (x11 &&& 31), encChar (x12 &&& 31), encChar (x13 &&& 31), encChar (x14 &&& 31), encChar (x15 &&& 31), encChar (x16 &&& 31), encChar (x17 &&& 31), encChar (x18 &&& 31), encChar (x19 &&& 31), encChar (x20 &&& 31), encChar (x21 &&& 31), encChar (x22 &&& 31), encChar (x23 &&& 31), encChar (x24 &&& 31), encChar (x25 &&& 31)]).getD 13 0 = encChar (x13 &&& 31) := rfl
  have hq14 : ([encChar (x0 &&& 31), encChar (x1 &&& 31), encChar (x2 &&& 31), encChar (x3 &&& 31), encChar (x4 &&& 31), encChar (x5 &&& 31), encChar (x6 &&& 31), encChar (x7 &&& 31), encChar (x8 &&& 31), encChar (x9 &&& 31), encChar (x10 &&& 31), encChar (x11 &&& 31), encChar (x12 &&& 31), encChar (x13 &&& 31), encChar (x14 &&& 31), encChar (x15 &&& 31), encChar (x16 &&& 31), encChar (x17 &&& 31), encChar (x18 &&& 31), encChar (x19 &&& 31), encChar (x20 &&& 31), encChar (x21 &&& 31), encChar (x22 &&& 31), encChar (x23 &&& 31), encChar (x24 &&& 31), encChar (x25 &&& 31)]).getD 14 0 = encChar (x14 &&& 31) := rfl
  have hq15 : ([encChar (x0 &&& 31), encChar (x1 &&& 31), encChar (x2 &&& 31), encChar (x3 &&& 31), encChar (x4 &&& 31), encChar (x5 &&& 31), encChar (x6 &&& 31), encChar (x7 &&& 31), encChar (x8 &&& 31), encChar (x9 &&& 31), encChar (x10 &&& 31), encChar (x11 &&& 31), encChar (x12 &&& 31), encChar (x13 &&& 31), encChar (x14 &&& 31), encChar (x15 &&& 31), encChar (x16 &&& 31), encChar (x17 &&& 31), encChar (x18 &&& 31), encChar (x19 &&& 31), encChar (x20 &&& 31), encChar (x21 &&& 31), encChar (x22 &&& 31), encChar (x23 &&& 31), encChar (x24 &&& 31), encChar (x25 &&& 31)]).getD 15 0 = encChar (x15 &&& 31) := rfl
  have hq16 : ([encChar (x0 &&& 31), encChar (x1 &&& 31), encChar (x2 &&& 31), encChar (x3 &&& 31), encChar (x4 &&& 31), encChar (x5 &&& 31), encChar (x6 &&& 31), encChar (x7 &&& 31), encChar (x8 &&& 31), encChar (x9 &&& 31), encChar (x10 &&& 31), encChar (x11 &&& 31), encChar (x12 &&& 31), encChar (x13 &&& 31), encChar (x14 &&& 31), encChar (x15 &&& 31), encChar (x16 &&& 31), encChar (x17 &&& 31), encChar (x18 &&& 31), encChar (x19 &&& 31), encChar (x20 &&& 31), encChar (x21 &&& 31), encChar (x22 &&& 31), encChar (x23 &&& 31), encChar (x24 &&& 31), encChar (x25 &&& 31)]).getD 16 0 = encChar (x16 &&& 31) := rfl
  have hq17 : ([encChar (x0 &&& 31), encChar (x1 &&& 31), encChar (x2 &&& 31), encChar (x3 &&& 31), encChar (x4 &&& 31), encChar (x5 &&& 31), encChar (x6 &&& 31), encChar (x7 &&& 31), encChar (x8 &&& 31), encChar (x9 &&& 31), encChar (x10 &&& 31), encChar (x11 &&& 31), encChar (x12 &&& 31), encChar (x13 &&& 31), encChar (x14 &&& 31), encChar (x15 &&& 31), encChar (x16 &&& 31), encChar (x17 &&& 31), encChar (x18 &&& 31), encChar (x19 &&& 31), encChar (x20 &&& 31), encChar (x21 &&& 31), encChar (x22 &&& 31), encChar (x23 &&& 31), encChar (x24 &&& 31), encChar (x25 &&& 31)]).getD 17 0 = encChar (x17 &&& 31) := rfl
  have hq18 : ([encChar (x0 &&& 31), encChar (x1 &&& 31), encChar (x2 &&& 31), encChar (x3 &&& 31), encChar (x4 &&& 31), encChar (x5 &&& 31), encChar (x6 &&& 31), encChar (x7 &&& 31), encChar (x8 &&& 31), encChar (x9 &&& 31), encChar (x10 &&& 31), encChar (x11 &&& 31), encChar (x12 &&& 31), encChar (x13 &&& 31), encChar (x14 &&& 31), encChar (x15 &&& 31), encChar (x16 &&& 31), encChar (x17 &&& 31), encChar (x18 &&& 31), encChar (x19 &&& 31), encChar (x20 &&& 31), encChar (x21 &&& 31), encChar (x22 &&& 31), encChar (x23 &&& 31), encChar (x24 &&& 31), encChar (x25 &&& 31)]).getD 18 0 = encChar (x18 &&& 31) := rfl
  have hq19 : ([encChar (x0 &&& 31), encChar (x1 &&& 31), encChar (x2 &&& 31), encChar (x3 &&& 31), encChar (x4 &&& 31), encChar (x5 &&& 31), encChar (x6 &&& 31), encChar (x7 &&& 31), encChar (x8 &&& 31), encChar (x9 &&& 31), encChar (x10 &&& 31), encChar (x11 &&& 31), encChar (x12 &&& 31), encChar (x13 &&& 31), encChar (x14 &&& 31), encChar (x15 &&& 31), encChar (x16 &&& 31), encChar (x17 &&& 31), encChar (x18 &&& 31), encChar (x19 &&& 31), encChar (x20 &&& 31), encChar (x21 &&& 31), encChar (x22 &&& 31), encChar (x23 &&& 31), encChar (x24 &&& 31), encChar (x25 &&& 31)]).getD 19 0 = encChar (x19 &&& 31) := rfl
  have hq20 : ([encChar (x0 &&& 31), encChar (x1 &&& 31), encChar (x2 &&& 31), encChar (x3 &&& 31), encChar (x4 &&& 31), encChar (x5 &&& 31), encChar (x6 &&& 31), encChar (x7 &&& 31), encChar (x8 &&& 31), encChar (x9 &&& 31), encChar (x10 &&& 31), encChar (x11 &&& 31), encChar (x12 &&& 31), encChar (x13 &&& 31), encChar (x14 &&& 31), encChar (x15 &&& 31), encChar (x16 &&& 31), encChar (x17 &&& 31), encChar (x18 &&& 31), encChar (x19 &&& 31), encChar (x20 &&& 31), encChar (x21 &&& 31), encChar (x22 &&& 31), encChar (x23 &&& 31), encChar (x24 &&& 31), encChar (x25 &&& 31)]).getD 20 0 = encChar (x20 &&& 31) := rfl
  have hq21 : ([encChar (x0 &&& 31), encChar (x1 &&& 31), encChar (x2 &&& 31), encChar (x3 &&& 31), encChar (x4 &&& 31), encChar (x5 &&& 31), encChar (x6 &&& 31), encChar (x7 &&& 31), encChar (x8 &&& 31), encChar (x9 &&& 31), encChar (x10 &&& 31), encChar (x11 &&& 31), encChar (x12 &&& 31), encChar (x13 &&& 31), encChar (x14 &&& 31), encChar (x15 &&& 31), encChar (x16 &&& 31), encChar (x17 &&& 31), encChar (x18 &&& 31), encChar (x19 &&& 31), encChar (x20 &&& 31), encChar (x21 &&& 31), encChar (x22 &&& 31), encChar (x23 &&& 31), encChar (x24 &&& 31), encChar (x25 &&& 31)]).getD 21 0 = encChar (x21 &&& 31) := rfl
  have hq22 : ([encChar (x0 &&& 31), encChar (x1 &&& 31), encChar (x2 &&& 31), encChar (x3 &&& 31), encChar (x4 &&& 31), encChar (x5 &&& 31), encChar (x6 &&& 31), encChar (x7 &&& 31), encChar (x8 &&& 31), encChar (x9 &&& 31), encChar (x10 &&& 31), encChar (x11 &&& 31), encChar (x12 &&& 31), encChar (x13 &&& 31), encChar (x14 &&& 31), encChar (x15 &&& 31), encChar (x16 &&& 31), encChar (x17 &&& 31), encChar (x18 &&& 31), encChar (x19 &&& 31), encChar (x20 &&& 31), encChar (x21 &&& 31), encChar (x22 &&& 31), encChar (x23 &&& 31), encChar (x24 &&& 31), encChar (x25 &&& 31)]).getD 22 0 = encChar (x22 &&& 31) := rfl
  have hq23 : ([encChar (x0 &&& 31), encChar (x1 &&& 31), encChar (x2 &&& 31), encChar (x3 &&& 31), encChar (x4 &&& 31), encChar (x5 &&& 31), encChar (x6 &&& 31), encChar (x7 &&& 31), encChar (x8 &&& 31), encChar (x9 &&& 31), encChar (x10 &&& 31), encChar (x11 &&& 31), encChar (x12 &&& 31), encChar (x13 &&& 31), encChar (x14 &&& 31), encChar (x15 &&& 31), encChar (x16 &&& 31), encChar (x17 &&& 31), encChar (x18 &&& 31), encChar (x19 &&& 31), encChar (x20 &&& 31), encChar (x21 &&& 31), encChar (x22 &&& 31), encChar (x23 &&& 31), encChar (x24 &&& 31), encChar (x25 &&& 31)]).getD 23 0 = encChar (x23 &&& 31) := rfl
  have hq24 : ([encChar (x0 &&& 31), encChar (x1 &&& 31), encChar (x2 &&& 31), encChar (x3 &&& 31), encChar (x4 &&& 31), encChar (x5 &&& 31), encChar (x6 &&& 31), encChar (x7 &&& 31), encChar (x8 &&& 31), encChar (x9 &&& 31), encChar (x10 &&& 31), encChar (x11 &&& 31), encChar (x12 &&& 31), encChar (x13 &&& 31), encChar (x14 &&& 31), encChar (x15 &&& 31), encChar (x16 &&& 31), encChar (x17 &&& 31), encChar (x18 &&& 31), encChar (x19 &&& 31), encChar (x20 &&& 31), encChar (x21 &&& 31), encChar (x22 &&& 31), encChar (x23 &&& 31), encChar (x24 &&& 31), encChar (x25 &&& 31)]).getD 24 0 = encChar (x24 &&& 31) := rfl
  have hq25 : ([encChar (x0 &&& 31), encChar (x1 &&& 31), encChar (x2 &&& 31), encChar (x3 &&& 31), encChar (x4 &&& 31), encChar (x5 &&& 31), encChar (x6 &&& 31), encChar (x7 &&& 31), encChar (x8 &&& 31), encChar (x9 &&& 31), encChar (x10 &&& 31), encChar (x11 &&& 31), encChar (x12 &&& 31), encChar (x13 &&& 31), encChar (x14 &&& 31), encChar (x15 &&& 31), encChar (x16 &&& 31), encChar (x17 &&& 31), encChar (x18 &&& 31), encChar (x19 &&& 31), encChar (x20 &&& 31), encChar (x21 &&& 31), encChar (x22 &&& 31), encChar (x23 &&& 31), encChar (x24 &&& 31), encChar (x25 &&& 31)]).getD 25 0 = encChar (x25 &&& 31) := rfl
  have hv : ∀ i, i < 26 → decU64 (([encChar (x0 &&& 31), encChar (x1 &&& 31), encChar (x2 &&& 31), encChar (x3 &&& 31), encChar (x4 &&& 31), encChar (x5 &&& 31), encChar (x6 &&& 31), encChar (x7 &&& 31), encChar (x8 &&& 31), encChar (x9 &&& 31), encChar (x10 &&& 31), encChar (x11 &&& 31), encChar (x12 &&& 31), encChar (x13 &&& 31), encChar (x14 &&& 31), encChar (x15 &&& 31), encChar (x16 &&& 31), encChar (x17 &&& 31), encChar (x18 &&& 31), encChar (x19 &&& 31), encChar (x20 &&& 31), encChar (x21 &&& 31), encChar (x22 &&& 31), encChar (x23 &&& 31), encChar (x24 &&& 31), encChar (x25 &&& 31)]).getD i 0) < 32 := by
    intro i hi
    interval_cases i <;> simp [hq0, hq1, hq2, hq3, hq4, hq5, hq6, hq7, hq8, hq9, hq10, hq11, hq12, hq13, hq14, hq15, hq16, hq17, hq18, hq19, hq20, hq21, hq22, hq23, hq24, hq25, decU64_encChar31, and31_lt]
  rw [parse_ok [encChar (x0 &&& 31), encChar (x1 &&& 31), encChar (x2 &&& 31), encChar (x3 &&& 31), encChar (x4 &&& 31), encChar (x5 &&& 31), encChar (x6 &&& 31), encChar (x7 &&& 31), encChar (x8 &&& 31), encChar (x9 &&& 31), encChar (x10 &&& 31), encChar (x11 &&& 31), encChar (x12 &&& 31), encChar (x13 &&& 31), encChar (x14 &&& 31), encChar (x15 &&& 31), encChar (x16 &&& 31), encChar (x17 &&& 31), encChar (x18 &&& 31), encChar (x19 &&& 31), encChar (x20 &&& 31), encChar (x21 &&& 31), encChar (x22 &&& 31), encChar (x23 &&& 31), encChar (x24 &&& 31), encChar (x25 &&& 31)] rfl hv (by rw [hq0]; exact encChar_le55 h55),
      pH_val [encChar (x0 &&& 31), encChar (x1 &&& 31), encChar (x2 &&& 31), encChar (x3 &&& 31), encChar (x4 &&& 31), encChar (x5 &&& 31), encChar (x6 &&& 31), encChar (x7 &&& 31), encChar (x8 &&& 31), encChar (x9 &&& 31), encChar (x10 &&& 31), encChar (x11 &&& 31), encChar (x12 &&& 31), encChar (x13 &&& 31), encChar (x14 &&& 31), encChar (x15 &&& 31), encChar (x16 &&& 31), encChar (x17 &&& 31), encChar (x18 &&& 31), encChar (x19 &&& 31), encChar (x20 &&& 31), encChar (x21 &&& 31), encChar (x22 &&& 31), encChar (x23 &&& 31), encChar (x24 &&& 31), encChar (x25 &&& 31)] (fun i h1 h2 => hv i (by omega)),
      pM_val [encChar (x0 &&& 31), encChar (x1 &&& 31), encChar (x2 &&& 31), encChar (x3 &&& 31), encChar (x4 &&& 31), encChar (x5 &&& 31), encChar (x6 &&& 31), encChar (x7 &&& 31), encChar (x8 &&& 31), encChar (x9 &&& 31), encChar (x10 &&& 31), encChar (x11 &&& 31), encChar (x12 &&& 31), encChar (x13 &&& 31), encChar (x14 &&& 31), encChar (x15 &&& 31), encChar (x16 &&& 31), encChar (x17 &&& 31), encChar (x18 &&& 31), encChar (x19 &&& 31), encChar (x20 &&& 31), encChar (x21 &&& 31), encChar (x22 &&& 31), encChar (x23 &&& 31), encChar (x24 &&& 31), encChar (x25 &&& 31)] (fun i h1 h2 => hv i (by omega)),
      pL_val [encChar (x0 &&& 31), encChar (x1 &&& 31), encChar (x2 &&& 31), encChar (x3 &&& 31), encChar (x4 &&& 31), encChar (x5 &&& 31), encChar (x6 &&& 31), encChar (x7 &&& 31), encChar (x8 &&& 31), encChar (x9 &&& 31), encChar (x10 &&& 31), encChar (x11 &&& 31), encChar (x12 &&& 31), encChar (x13 &&& 31), encChar (x14 &&& 31), encChar (x15 &&& 31), encChar (x16 &&& 31), encChar (x17 &&& 31), encChar (x18 &&& 31), encChar (x19 &&& 31), encChar (x20 &&& 31), encChar (x21 &&& 31), encChar (x22 &&& 31), encChar (x23 &&& 31), encChar (x24 &&& 31), encChar (x25 &&& 31)] (fun i h1 h2 => hv i (by omega))]
  simp only [hq0, hq1, hq2, hq3, hq4, hq5, hq6, hq7, hq8, hq9, hq10, hq11, hq12, hq13, hq14, hq15, hq16, hq17, hq18, hq19, hq20, hq21, hq22, hq23, hq24, hq25, decU64_encChar31]
set_option maxHeartbeats 1000000 in
/-- Round-trip: parsing the text encoding of an identifier whose bytes
are in range returns the identifier itself with no error. -/
theorem parse_text {id : ULID} (hv : id.Valid) : parse id.text = (id, none) := by
  obtain ⟨b0, b1, b2, b3, b4, b5, b6, b7, b8, b9, b10, b11, b12, b13, b14, b15⟩ := id
  have hB : b0 < 256 ∧ b1 < 256 ∧ b2 < 256 ∧ b3 < 256 ∧ b4 < 256 ∧ b5 < 256 ∧
      b6 < 256 ∧ b7 < 256 ∧ b8 < 256 ∧ b9 < 256 ∧ b10 < 256 ∧ b11 < 256 ∧
      b12 < 256 ∧ b13 < 256 ∧ b14 < 256 ∧ b15 < 256 := hv
  clear hv
  obtain ⟨B0, B1, B2, B3, B4, B5, B6, B7, B8, B9, B10, B11, B12, B13, B14, B15⟩ := hB
  have ha : b0 <<< 16 ||| b1 <<< 8 ||| b2 = b0 * 2 ^ 16 + b1 * 2 ^ 8 + b2 := orChain3 _ _ _ B0 B1 B2
  have hbb : b2 <<< 24 ||| b3 <<< 16 ||| b4 <<< 8 ||| b5 = b2 * 2 ^ 24 + b3 * 2 ^ 16 + b4 * 2 ^ 8 + b5 := orChain4 _ _ _ _ B2 B3 B4 B5
  have hcc : b6 <<< 24 ||| b7 <<< 16 ||| b8 <<< 8 ||| b9 = b6 * 2 ^ 24 + b7 * 2 ^ 16 + b8 * 2 ^ 8 + b9 := orChain4 _ _ _ _ B6 B7 B8 B9
  have hdd : b9 <<< 24 ||| b10 <<< 16 ||| b11 <<< 8 ||| b12 = b9 * 2 ^ 24 + b10 * 2 ^ 16 + b11 * 2 ^ 8 + b12 := orChain4 _ _ _ _ B9 B10 B11 B12
  have hee : b12 <<< 24 ||| b13 <<< 16 ||| b14 <<< 8 ||| b15 = b12 * 2 ^ 24 + b13 * 2 ^ 16 + b14 * 2 ^ 8 + b15 := orChain4 _ _ _ _ B12 B13 B14 B15
  have hL : ULID.text ⟨b0, b1, b2, b3, b4, b5, b6, b7, b8, b9, b10, b11, b12, b13, b14, b15⟩ =
      [encChar ((b0 * 2 ^ 16 + b1 * 2 ^ 8 + b2) >>> 21 &&& 31),
       encChar ((b0 * 2 ^ 16 + b1 * 2 ^ 8 + b2) >>> 16 &&& 31),
       encChar ((b0 * 2 ^ 16 + b1 * 2 ^ 8 + b2) >>> 11 &&& 31),
       encChar ((b0 * 2 ^ 16 + b1 * 2 ^ 8 + b2) >>> 6 &&& 31),
       encChar ((b0 * 2 ^ 16 + b1 * 2 ^ 8 + b2) >>> 1 &&& 31),
       encChar ((b2 * 2 ^ 24 + b3 * 2 ^ 16 + b4 * 2 ^ 8 + b5) >>> 20 &&& 31),
       encChar ((b2 * 2 ^ 24 + b3 * 2 ^ 16 + b4 * 2 ^ 8 + b5) >>> 15 &&& 31),
       encChar ((b2 * 2 ^ 24 + b3 * 2 ^ 16 + b4 * 2 ^ 8 + b5) >>> 10 &&& 31),
       encChar ((b2 * 2 ^ 24 + b3 * 2 ^ 16 + b4 * 2 ^ 8 + b5) >>> 5 &&& 31),
       encChar ((b2 * 2 ^ 24 + b3 * 2 ^ 16 + b4 * 2 ^ 8 + b5) &&& 31),
       encChar ((b6 * 2 ^ 24 + b7 * 2 ^ 16 + b8 * 2 ^ 8 + b9) >>> 27 &&& 31),
       encChar ((b6 * 2 ^ 24 + b7 * 2 ^ 16 + b8 * 2 ^ 8 + b9) >>> 22 &&& 31),
       encChar ((b6 * 2 ^ 24 + b7 * 2 ^ 16 + b8 * 2 ^ 8 + b9) >>> 17 &&& 31),
       encChar ((b6 * 2 ^ 24 + b7 * 2 ^ 16 + b8 * 2 ^ 8 + b9) >>> 12 &&& 31),
       encChar ((b6 * 2 ^ 24 + b7 * 2 ^ 16 + b8 * 2 ^ 8 + b9) >>> 7 &&& 31),
       encChar ((b6 * 2 ^ 24 + b7 * 2 ^ 16 + b8 * 2 ^ 8 + b9) >>> 2 &&& 31),
       encChar ((b9 * 2 ^ 24 + b10 * 2 ^ 16 + b11 * 2 ^ 8 + b12) >>> 21 &&& 31),
       encChar ((b9 * 2 ^ 24 + b10 * 2 ^ 16 + b11 * 2 ^ 8 + b12) >>> 16 &&& 31),
       encChar ((b9 * 2 ^ 24 + b10 * 2 ^ 16 + b11 * 2 ^ 8 + b12) >>> 11 &&& 31),
       encChar ((b9 * 2 ^ 24 + b10 * 2 ^ 16 + b11 * 2 ^ 8 + b12) >>> 6 &&& 31),
       encChar ((b9 * 2 ^ 24 + b10 * 2 ^ 16 + b11 * 2 ^ 8 + b12) >>> 1 &&& 31),
       encChar ((b12 * 2 ^ 24 + b13 * 2 ^ 16 + b14 * 2 ^ 8 + b15) >>> 20 &&& 31),
       encChar ((b12 * 2 ^ 24 + b13 * 2 ^ 16 + b14 * 2 ^ 8 + b15) >>> 15 &&& 31),
       encChar ((b12 * 2 ^ 24 + b13 * 2 ^ 16 + b14 * 2 ^ 8 + b15) >>> 10 &&& 31),
       encChar ((b12 * 2 ^ 24 + b13 * 2 ^ 16 + b14 * 2 ^ 8 + b15) >>> 5 &&& 31),
       encChar ((b12 * 2 ^ 24 + b13 * 2 ^ 16 + b14 * 2 ^ 8 + b15) &&& 31)] := by
    simp only [ULID.text]
    rw [ha, hbb, hcc, hdd, hee]
  rw [hL, parse_text_shape]
  · clear hL ha hbb hcc hdd hee
    rw [gw3_21 b0 b1 b2 B0 B1 B2, gw3_16 b0 b1 b2 B0 B1 B2, gw3_11 b0 b1 b2 B0 B1 B2, gw3_6 b0 b1 b2 B0 B1 B2]
    rw [gw3_1 b0 b1 b2 B0 B1 B2, gw4_20 b2 b3 b4 b5 B2 B3 B4 B5, gw4_15 b2 b3 b4 b5 B2 B3 B4 B5, gw4_10 b2 b3 b4 b5 B2 B3 B4 B5]
    rw [gw4_5 b2 b3 b4 b5 B2 B3 B4 B5, gw4_0 b2 b3 b4 b5 B2 B3 B4 B5, gw4_27 b6 b7 b8 b9 B6 B7 B8 B9, gw4_22 b6 b7 b8 b9 B6 B7 B8 B9]
    rw [gw4_17 b6 b7 b8 b9 B6 B7 B8 B9, gw4_12 b6 b7 b8 b9 B6 B7 B8 B9, gw4_7 b6 b7 b8 b9 B6 B7 B8 B9, gw4_2 b6 b7 b8 b9 B6 B7 B8 B9]
    rw [gw4_21 b9 b10 b11 b12 B9 B10 B11 B12, gw4_16 b9 b10 b11 b12 B9 B10 B11 B12, gw4_11 b9 b10 b11 b12 B9 B10 B11 B12, gw4_6 b9 b10 b11 b12 B9 B10 B11 B12]
    rw [gw4_1 b9 b10 b11 b12 B9 B10 B11 B12, gw4_20 b12 b13 b14 b15 B12 B13 B14 B15, gw4_15 b12 b13 b14 b15 B12 B13 B14 B15, gw4_10 b12 b13 b14 b15 B12 B13 B14 B15]
    rw [gw4_5 b12 b13 b14 b15 B12 B13 B14 B15, gw4_0 b12 b13 b14 b15 B12 B13 B14 B15]
    simp only [Nat.shiftRight_eq_div_pow]
    rw [Prod.mk.injEq]
    refine ⟨?_, rfl⟩
    rw [ULID.mk.injEq]
    refine ⟨?_, ?_, ?_, ?_, ?_, ?_, ?_, ?_, ?_, ?_, ?_, ?_, ?_, ?_, ?_, ?_⟩ <;> omega
  · clear hL ha hbb hcc hdd hee
    rw [gw3_21 b0 b1 b2 B0 B1 B2]
    omega

/-- Characters decoding below 8 are at most the digit 7. -/
theorem dec_lt8_le55 {c : Nat} (h : decU64 c < 8) : c ≤ 55 := by
  by_cases hc : c < 256
  · exact (by decide : ∀ c' < 256, decU64 c' < 8 → c' ≤ 55) c hc h
  · exfalso
    simp only [decU64, dec_oob (by omega : 256 ≤ c)] at h
    norm_num at h

/-- Valid characters decoding to 8 or more lie above the digit 7. -/
theorem dec_ge8_gt55 {c : Nat} (hv : decU64 c < 32) (h : 8 ≤ decU64 c) : 55 < c := by
  by_cases hc : c < 256
  · exact (by decide : ∀ c' < 256, decU64 c' < 32 → 8 ≤ decU64 c' → 55 < c') c hc hv h
  · exfalso
    simp only [decU64, dec_oob (by omega : 256 ≤ c)] at hv
    norm_num at hv

/-- Valid characters at most the digit 7 decode below 8. -/
theorem dec_le55_lt8 {c : Nat} (hv : decU64 c < 32) (h : c ≤ 55) : decU64 c < 8 :=
  (by decide : ∀ c' < 256, decU64 c' < 32 → c' ≤ 55 → decU64 c' < 8) c (by omega) hv h

/-- Indexing with a default inside the bounds yields a member of the list. -/
theorem getD_mem {s : List Nat} {i : Nat} (h : i < s.length) : s.getD i 0 ∈ s := by
  rw [List.getD_eq_getElem?_getD, List.getElem?_eq_getElem h]
  exact List.getElem_mem h

/-- The byte values accepted by the reverse lookup table: the ten digits,
the twenty-two canonical uppercase letters, and their lowercase forms. -/
def acceptedBytes : List Nat :=
  [48, 49, 50, 51, 52, 53, 54, 55, 56, 57,
   65, 66, 67, 68, 69, 70, 71, 72, 74, 75, 77, 78,
   80, 81, 82, 83, 84, 86, 87, 88, 89, 90,
   97, 98, 99, 100, 101, 102, 103, 104, 106, 107, 109, 110,
   112, 113, 114, 115, 116, 118, 119, 120, 121, 122]

/-- The lookup table accepts exactly the bytes of acceptedBytes. -/
theorem dec_ne_iff_mem (c : Nat) : dec c ≠ -1 ↔ c ∈ acceptedBytes := by
  by_cases hc : c < 256
  · exact (by decide : ∀ c' < 256, (dec c' ≠ -1 ↔ c' ∈ acceptedBytes)) c hc
  · constructor
    · intro h
      exact absurd (dec_oob (by omega)) h
    · intro h
      exact absurd ((by decide : ∀ x ∈ acceptedBytes, x < 256) c h) hc

/-- C1: for every 16-byte identifier x, decoding the 26-character encoding
of x succeeds and returns x exactly: Parse (x.String()) = (x, no error). -/
theorem c1_parse_of_string_roundtrip {id : ULID} (hv : id.Valid) :
    Parse id.text = (id, none) :=
  parse_text hv

/-- Witness for C1 at the identifier of the documentation example. -/
theorem c1_parse_of_string_roundtrip_witness :
    ULID.Valid ⟨1, 86, 62, 58, 181, 211, 214, 118, 76, 97, 239, 185, 147, 2, 189, 91⟩ ∧
    Parse (ULID.text ⟨1, 86, 62, 58, 181, 211, 214, 118, 76, 97, 239, 185, 147, 2, 189, 91⟩) =
      (⟨1, 86, 62, 58, 181, 211, 214, 118, 76, 97, 239, 185, 147, 2, 189, 91⟩, none) :=
  ⟨by decide, c1_parse_of_string_roundtrip (by decide)⟩

/-- C7: Parse fails with ErrInvalidSize exactly when the text length is
not 26, and UnmarshalBinary fails with ErrInvalidSize exactly when the
binary length is not 16; right-sized inputs never yield ErrInvalidSize. -/
theorem c7_invalid_size :
    (∀ s : List Nat, (parse s).2 = some Err.InvalidSize ↔ s.length ≠ 26) ∧
    (∀ (id : ULID) (data : List Nat),
      (id.UnmarshalBinary data).2 = some Err.InvalidSize ↔ data.length ≠ 16) := by
  constructor
  · intro s
    by_cases h26 : s.length = 26
    · simp only [h26]
      constructor
      · intro h
        exfalso
        by_cases hval : ∀ i, i < 26 → decU64 (s.getD i 0) < 32
        · by_cases h55 : 55 < s.getD 0 0
          · rw [parse_overflow s h26 hval h55] at h
            simp at h
          · rw [parse_ok s h26 hval (by omega)] at h
            simp at h
        · push_neg at hval
          obtain ⟨i, hi, hbad⟩ := hval
          rw [parse_invalid s h26 ⟨i, hi, by omega⟩] at h
          simp at h
      · intro h
        omega
    · rw [parse_size s h26]
      simp [h26]
  · intro id data
    unfold ULID.UnmarshalBinary
    by_cases h : data.length = 16 <;> simp [h]

/-- C8: decoding is all-or-nothing: on any error, parse returns the zero
identifier and the unmarshal functions leave the receiver unchanged. -/
theorem c8_all_or_nothing :
    (∀ s : List Nat, (parse s).2 ≠ none → (parse s).1 = ULID.Zero) ∧
    (∀ (id : ULID) (data : List Nat), (id.UnmarshalText data).2 ≠ none →
      (id.UnmarshalText data).1 = id) ∧
    (∀ (id : ULID) (data : List Nat), (id.UnmarshalBinary data).2 ≠ none →
      (id.UnmarshalBinary data).1 = id) := by
  refine ⟨?_, ?_, ?_⟩
  · intro s h
    unfold parse at h ⊢
    split_ifs at h ⊢ <;> simp_all
  · intro id data h
    unfold ULID.UnmarshalText at h ⊢
    rcases hp : parse data with ⟨id2, e⟩
    cases e <;> simp_all
  · intro id data h
    unfold ULID.UnmarshalBinary at h ⊢
    split_ifs at h ⊢ <;> simp_all

/-- Witness for C8 on the empty input, which fails with the size error. -/
theorem c8_all_or_nothing_witness :
    (parse []).1 = ULID.Zero ∧
    ((⟨1, 2, 3, 4, 5, 6, 7, 8, 9, 10, 11, 12, 13, 14, 15, 16⟩ : ULID).UnmarshalText []).1 =
      ⟨1, 2, 3, 4, 5, 6, 7, 8, 9, 10, 11, 12, 13, 14, 15, 16⟩ ∧
    ((⟨1, 2, 3, 4, 5, 6, 7, 8, 9, 10, 11, 12, 13, 14, 15, 16⟩ : ULID).UnmarshalBinary []).1 =
      ⟨1, 2, 3, 4, 5, 6, 7, 8, 9, 10, 11, 12, 13, 14, 15, 16⟩ :=
  ⟨c8_all_or_nothing.1 [] (by decide),
   c8_all_or_nothing.2.1 _ [] (by decide),
   c8_all_or_nothing.2.2 _ [] (by decide)⟩

/-- C5: among 26-character inputs whose characters all pass the alphabet
lookup, Parse fails with ErrOverflow exactly when the first character
decodes to a 5-bit value of 8 or more; in particular the all-8 string
overflows. -/
theorem c5_overflow :
    (∀ s : List Nat, s.length = 26 → (∀ c ∈ s, dec c ≠ -1) →
      ((parse s).2 = some Err.Overflow ↔ 8 ≤ decU64 (s.getD 0 0))) ∧
    (parse (strBytes "80000000000000000000000000")).2 = some Err.Overflow := by
  constructor
  · intro s h26 hval
    have hv : ∀ i, i < 26 → decU64 (s.getD i 0) < 32 := fun i hi =>
      (dec_valid_iff _).mpr (hval _ (getD_mem (by omega)))
    constructor
    · intro h
      by_contra hlt
      push_neg at hlt
      rw [parse_ok s h26 hv (dec_lt8_le55 hlt)] at h
      simp at h
    · intro h8
      rw [parse_overflow s h26 hv (dec_ge8_gt55 (hv 0 (by omega)) h8)]
  · decide

/-- Witness for C5 at the boundary overflow string. -/
theorem c5_overflow_witness :
    (parse (strBytes "80000000000000000000000000")).2 = some Err.Overflow ↔
      8 ≤ decU64 ((strBytes "80000000000000000000000000").getD 0 0) :=
  c5_overflow.1 (strBytes "80000000000000000000000000") (by decide) (by decide)

/-- C9: the documentation example string parses to its documented bytes,
and encoding those bytes reproduces the string exactly. -/
theorem c9_literal_scenario :
    Parse (strBytes "01ARZ3NDEKTSV4RRFFQ69G5FAV") =
      (⟨0x01, 0x56, 0x3e, 0x3a, 0xb5, 0xd3, 0xd6, 0x76,
        0x4c, 0x61, 0xef, 0xb9, 0x93, 0x02, 0xbd, 0x5b⟩, none) ∧
    ULID.text ⟨0x01, 0x56, 0x3e, 0x3a, 0xb5, 0xd3, 0xd6, 0x76,
               0x4c, 0x61, 0xef, 0xb9, 0x93, 0x02, 0xbd, 0x5b⟩ =
      strBytes "01ARZ3NDEKTSV4RRFFQ69G5FAV" := by
  decide

/-- C3 counterexample: a 26-character input made of lowercase letters,
none of which belong to the canonical alphabet string, is accepted by the
decoder rather than rejected with ErrInvalidCharacter. -/
theorem c3_counterexample :
    (strBytes "01arz3ndektsv4rrffq69g5fav").length = 26 ∧
    97 ∈ strBytes "01arz3ndektsv4rrffq69g5fav" ∧
    97 ∉ encodingBytes ∧
    (parse (strBytes "01arz3ndektsv4rrffq69g5fav")).2 ≠ some Err.InvalidCharacter := by
  decide

/-- C3 amended: the decoder accepts letters case-insensitively; a
26-character input fails with ErrInvalidCharacter exactly when it has a
byte whose table entry is the sentinel, and the table accepts exactly the
digits, the canonical uppercase letters, and their lowercase forms. -/
theorem c3_invalid_character_amended :
    (∀ s : List Nat, s.length = 26 →
      ((parse s).2 = some Err.InvalidCharacter ↔ ∃ c ∈ s, dec c = -1)) ∧
    (∀ c : Nat, dec c ≠ -1 ↔ c ∈ acceptedBytes) := by
  constructor
  · intro s h26
    constructor
    · intro h
      by_contra hno
      push_neg at hno
      have hv : ∀ i, i < 26 → decU64 (s.getD i 0) < 32 := fun i hi =>
        (dec_valid_iff _).mpr (hno _ (getD_mem (by omega)))
      by_cases h55 : 55 < s.getD 0 0
      · rw [parse_overflow s h26 hv h55] at h
        simp at h
      · rw [parse_ok s h26 hv (by omega)] at h
        simp at h
    · intro h
      obtain ⟨c, hc, hdec⟩ := h
      obtain ⟨i, hi, hci⟩ := List.getElem_of_mem hc
      have hbad : ¬ decU64 (s.getD i 0) < 32 := by
        rw [List.getD_eq_getElem?_getD, List.getElem?_eq_getElem hi]
        simp only [Option.getD_some]
        rw [hci, dec_valid_iff]
        simp [hdec]
      rw [parse_invalid s h26 ⟨i, by omega, hbad⟩]
  · exact dec_ne_iff_mem

/-- Witness for the amended C3 at the test string with an exclamation mark. -/
theorem c3_invalid_character_amended_witness :
    (parse (strBytes "01ARZ3NDEKTSV4RRFFQ69G5FA!")).2 = some Err.InvalidCharacter :=
  (c3_invalid_character_amended.1 (strBytes "01ARZ3NDEKTSV4RRFFQ69G5FA!")
    (by decide)).mpr ⟨33, by decide, by decide⟩

set_option maxHeartbeats 800000 in
/-- C6: SetTime writes exactly the low 48 bits of the millisecond value
into bytes 0-5 most-significant first, leaves bytes 6-15 unchanged, and a
subsequent Time read returns the value reduced mod 2^48; the documented
example on the zero identifier holds. -/
theorem c6_settime_time :
    (∀ (id : ULID) (ms : Int),
      (id.SetTime ms).b0 = (ms % 2 ^ 48).toNat / 2 ^ 40 ∧
      (id.SetTime ms).b1 = (ms % 2 ^ 48).toNat / 2 ^ 32 % 256 ∧
      (id.SetTime ms).b2 = (ms % 2 ^ 48).toNat / 2 ^ 24 % 256 ∧
      (id.SetTime ms).b3 = (ms % 2 ^ 48).toNat / 2 ^ 16 % 256 ∧
      (id.SetTime ms).b4 = (ms % 2 ^ 48).toNat / 2 ^ 8 % 256 ∧
      (id.SetTime ms).b5 = (ms % 2 ^ 48).toNat % 256 ∧
      (id.SetTime ms).b6 = id.b6 ∧ (id.SetTime ms).b7 = id.b7 ∧
      (id.SetTime ms).b8 = id.b8 ∧ (id.SetTime ms).b9 = id.b9 ∧
      (id.SetTime ms).b10 = id.b10 ∧ (id.SetTime ms).b11 = id.b11 ∧
      (id.SetTime ms).b12 = id.b12 ∧ (id.SetTime ms).b13 = id.b13 ∧
      (id.SetTime ms).b14 = id.b14 ∧ (id.SetTime ms).b15 = id.b15 ∧
      (id.SetTime ms).Time = ms % 2 ^ 48) ∧
    ULID.Zero.SetTime 0x1563e3ab5d3 =
      ⟨0x01, 0x56, 0x3e, 0x3a, 0xb5, 0xd3, 0, 0, 0, 0, 0, 0, 0, 0, 0, 0⟩ ∧
    (ULID.Zero.SetTime 0x1563e3ab5d3).Time = 0x1563e3ab5d3 := by
  refine ⟨?_, by decide, by decide⟩
  intro id ms
  obtain ⟨b0, b1, b2, b3, b4, b5, b6, b7, b8, b9, b10, b11, b12, b13, b14, b15⟩ := id
  have hM : msBits ms % 2 ^ 48 = (ms % 2 ^ 48).toNat := by
    unfold msBits
    omega
  have hMlt : msBits ms < 2 ^ 64 := by
    unfold msBits
    omega
  have hsum : (msBits ms >>> 40 % 256) * 2 ^ 40 + (msBits ms >>> 32 % 256) * 2 ^ 32 +
      (msBits ms >>> 24 % 256) * 2 ^ 24 + (msBits ms >>> 16 % 256) * 2 ^ 16 +
      (msBits ms >>> 8 % 256) * 2 ^ 8 + msBits ms % 256 = (ms % 2 ^ 48).toNat := by
    simp only [Nat.shiftRight_eq_div_pow]
    omega
  have hb0 : msBits ms >>> 40 % 256 = (ms % 2 ^ 48).toNat / 2 ^ 40 := by
    simp only [Nat.shiftRight_eq_div_pow]
    omega
  have hb1 : msBits ms >>> 32 % 256 = (ms % 2 ^ 48).toNat / 2 ^ 32 % 256 := by
    simp only [Nat.shiftRight_eq_div_pow]
    omega
  have hb2 : msBits ms >>> 24 % 256 = (ms % 2 ^ 48).toNat / 2 ^ 24 % 256 := by
    simp only [Nat.shiftRight_eq_div_pow]
    omega
  have hb3 : msBits ms >>> 16 % 256 = (ms % 2 ^ 48).toNat / 2 ^ 16 % 256 := by
    simp only [Nat.shiftRight_eq_div_pow]
    omega
  have hb4 : msBits ms >>> 8 % 256 = (ms % 2 ^ 48).toNat / 2 ^ 8 % 256 := by
    simp only [Nat.shiftRight_eq_div_pow]
    omega
  have hb5 : msBits ms % 256 = (ms % 2 ^ 48).toNat % 256 := by
    omega
  have ht : (msBits ms >>> 40 % 256) <<< 40 ||| (msBits ms >>> 32 % 256) <<< 32 |||
      (msBits ms >>> 24 % 256) <<< 24 ||| (msBits ms >>> 16 % 256) <<< 16 |||
      (msBits ms >>> 8 % 256) <<< 8 ||| msBits ms % 256 =
      (msBits ms >>> 40 % 256) * 2 ^ 40 + (msBits ms >>> 32 % 256) * 2 ^ 32 +
      (msBits ms >>> 24 % 256) * 2 ^ 24 + (msBits ms >>> 16 % 256) * 2 ^ 16 +
      (msBits ms >>> 8 % 256) * 2 ^ 8 + msBits ms % 256 :=
    orChain6 _ _ _ _ _ _ (Nat.mod_lt _ (by norm_num)) (Nat.mod_lt _ (by norm_num))
      (Nat.mod_lt _ (by norm_num)) (Nat.mod_lt _ (by norm_num))
      (Nat.mod_lt _ (by norm_num)) (Nat.mod_lt _ (by norm_num))
  simp only [ULID.SetTime, ULID.Time]
  rw [ht, hsum, hb0, hb1, hb2, hb3, hb4, hb5]
  refine ⟨rfl, rfl, rfl, rfl, rfl, rfl, trivial, trivial, trivial, trivial, trivial,
    trivial, trivial, trivial, trivial, trivial,
    Int.toNat_of_nonneg (Int.emod_nonneg ms (by norm_num))⟩
/-- Small-form values of the 5-bit groups extracted from a 64-bit load
of eight bytes. -/
theorem gw8_61 (x0 x1 x2 x3 x4 x5 x6 x7 : Nat) (h0 : x0 < 256) (h1 : x1 < 256) (h2 : x2 < 256) (h3 : x3 < 256) (h4 : x4 < 256) (h5 : x5 < 256) (h6 : x6 < 256) (h7 : x7 < 256) :
    (x0 * 2 ^ 56 + x1 * 2 ^ 48 + x2 * 2 ^ 40 + x3 * 2 ^ 32 + x4 * 2 ^ 24 + x5 * 2 ^ 16 + x6 * 2 ^ 8 + x7) >>> 61 &&& 31 = x0 / 32 := by
  rw [and31, Nat.shiftRight_eq_div_pow]; omega
theorem gw8_56 (x0 x1 x2 x3 x4 x5 x6 x7 : Nat) (h0 : x0 < 256) (h1 : x1 < 256) (h2 : x2 < 256) (h3 : x3 < 256) (h4 : x4 < 256) (h5 : x5 < 256) (h6 : x6 < 256) (h7 : x7 < 256) :
    (x0 * 2 ^ 56 + x1 * 2 ^ 48 + x2 * 2 ^ 40 + x3 * 2 ^ 32 + x4 * 2 ^ 24 + x5 * 2 ^ 16 + x6 * 2 ^ 8 + x7) >>> 56 &&& 31 = x0 % 32 := by
  rw [and31, Nat.shiftRight_eq_div_pow]; omega
theorem gw8_55 (x0 x1 x2 x3 x4 x5 x6 x7 : Nat) (h0 : x0 < 256) (h1 : x1 < 256) (h2 : x2 < 256) (h3 : x3 < 256) (h4 : x4 < 256) (h5 : x5 < 256) (h6 : x6 < 256) (h7 : x7 < 256) :
    (x0 * 2 ^ 56 + x1 * 2 ^ 48 + x2 * 2 ^ 40 + x3 * 2 ^ 32 + x4 * 2 ^ 24 + x5 * 2 ^ 16 + x6 * 2 ^ 8 + x7) >>> 55 &&& 31 = x0 % 16 * 2 + x1 / 128 := by
  rw [and31, Nat.shiftRight_eq_div_pow]; omega
theorem gw8_51 (x0 x1 x2 x3 x4 x5 x6 x7 : Nat) (h0 : x0 < 256) (h1 : x1 < 256) (h2 : x2 < 256) (h3 : x3 < 256) (h4 : x4 < 256) (h5 : x5 < 256) (h6 : x6 < 256) (h7 : x7 < 256) :
    (x0 * 2 ^ 56 + x1 * 2 ^ 48 + x2 * 2 ^ 40 + x3 * 2 ^ 32 + x4 * 2 ^ 24 + x5 * 2 ^ 16 + x6 * 2 ^ 8 + x7) >>> 51 &&& 31 = x1 / 8 := by
  rw [and31, Nat.shiftRight_eq_div_pow]; omega
theorem gw8_50 (x0 x1 x2 x3 x4 x5 x6 x7 : Nat) (h0 : x0 < 256) (h1 : x1 < 256) (h2 : x2 < 256) (h3 : x3 < 256) (h4 : x4 < 256) (h5 : x5 < 256) (h6 : x6 < 256) (h7 : x7 < 256) :
    (x0 * 2 ^ 56 + x1 * 2 ^ 48 + x2 * 2 ^ 40 + x3 * 2 ^ 32 + x4 * 2 ^ 24 + x5 * 2 ^ 16 + x6 * 2 ^ 8 + x7) >>> 50 &&& 31 = x1 / 4 % 32 := by
  rw [and31, Nat.shiftRight_eq_div_pow]; omega
theorem gw8_46 (x0 x1 x2 x3 x4 x5 x6 x7 : Nat) (h0 : x0 < 256) (h1 : x1 < 256) (h2 : x2 < 256) (h3 : x3 < 256) (h4 : x4 < 256) (h5 : x5 < 256) (h6 : x6 < 256) (h7 : x7 < 256) :
    (x0 * 2 ^ 56 + x1 * 2 ^ 48 + x2 * 2 ^ 40 + x3 * 2 ^ 32 + x4 * 2 ^ 24 + x5 * 2 ^ 16 + x6 * 2 ^ 8 + x7) >>> 46 &&& 31 = x1 % 8 * 4 + x2 / 64 := by
  rw [and31, Nat.shiftRight_eq_div_pow]; omega
theorem gw8_45 (x0 x1 x2 x3 x4 x5 x6 x7 : Nat) (h0 : x0 < 256) (h1 : x1 < 256) (h2 : x2 < 256) (h3 : x3 < 256) (h4 : x4 < 256) (h5 : x5 < 256) (h6 : x6 < 256) (h7 : x7 < 256) :
    (x0 * 2 ^ 56 + x1 * 2 ^ 48 + x2 * 2 ^ 40 + x3 * 2 ^ 32 + x4 * 2 ^ 24 + x5 * 2 ^ 16 + x6 * 2 ^ 8 + x7) >>> 45 &&& 31 = x1 % 4 * 8 + x2 / 32 := by
  rw [and31, Nat.shiftRight_eq_div_pow]; omega
theorem gw8_41 (x0 x1 x2 x3 x4 x5 x6 x7 : Nat) (h0 : x0 < 256) (h1 : x1 < 256) (h2 : x2 < 256) (h3 : x3 < 256) (h4 : x4 < 256) (h5 : x5 < 256) (h6 : x6 < 256) (h7 : x7 < 256) :
    (x0 * 2 ^ 56 + x1 * 2 ^ 48 + x2 * 2 ^ 40 + x3 * 2 ^ 32 + x4 * 2 ^ 24 + x5 * 2 ^ 16 + x6 * 2 ^ 8 + x7) >>> 41 &&& 31 = x2 / 2 % 32 := by
  rw [and31, Nat.shiftRight_eq_div_pow]; omega
theorem gw8_40 (x0 x1 x2 x3 x4 x5 x6 x7 : Nat) (h0 : x0 < 256) (h1 : x1 < 256) (h2 : x2 < 256) (h3 : x3 < 256) (h4 : x4 < 256) (h5 : x5 < 256) (h6 : x6 < 256) (h7 : x7 < 256) :
    (x0 * 2 ^ 56 + x1 * 2 ^ 48 + x2 * 2 ^ 40 + x3 * 2 ^ 32 + x4 * 2 ^ 24 + x5 * 2 ^ 16 + x6 * 2 ^ 8 + x7) >>> 40 &&& 31 = x2 % 32 := by
  rw [and31, Nat.shiftRight_eq_div_pow]; omega
theorem gw8_36 (x0 x1 x2 x3 x4 x5 x6 x7 : Nat) (h0 : x0 < 256) (h1 : x1 < 256) (h2 : x2 < 256) (h3 : x3 < 256) (h4 : x4 < 256) (h5 : x5 < 256) (h6 : x6 < 256) (h7 : x7 < 256) :
    (x0 * 2 ^ 56 + x1 * 2 ^ 48 + x2 * 2 ^ 40 + x3 * 2 ^ 32 + x4 * 2 ^ 24 + x5 * 2 ^ 16 + x6 * 2 ^ 8 + x7) >>> 36 &&& 31 = x2 % 2 * 16 + x3 / 16 := by
  rw [and31, Nat.shiftRight_eq_div_pow]; omega
theorem gw8_35 (x0 x1 x2 x3 x4 x5 x6 x7 : Nat) (h0 : x0 < 256) (h1 : x1 < 256) (h2 : x2 < 256) (h3 : x3 < 256) (h4 : x4 < 256) (h5 : x5 < 256) (h6 : x6 < 256) (h7 : x7 < 256) :
    (x0 * 2 ^ 56 + x1 * 2 ^ 48 + x2 * 2 ^ 40 + x3 * 2 ^ 32 + x4 * 2 ^ 24 + x5 * 2 ^ 16 + x6 * 2 ^ 8 + x7) >>> 35 &&& 31 = x3 / 8 := by
  rw [and31, Nat.shiftRight_eq_div_pow]; omega
theorem gw8_31 (x0 x1 x2 x3 x4 x5 x6 x7 : Nat) (h0 : x0 < 256) (h1 : x1 < 256) (h2 : x2 < 256) (h3 : x3 < 256) (h4 : x4 < 256) (h5 : x5 < 256) (h6 : x6 < 256) (h7 : x7 < 256) :
    (x0 * 2 ^ 56 + x1 * 2 ^ 48 + x2 * 2 ^ 40 + x3 * 2 ^ 32 + x4 * 2 ^ 24 + x5 * 2 ^ 16 + x6 * 2 ^ 8 + x7) >>> 31 &&& 31 = x3 % 16 * 2 + x4 / 128 := by
  rw [and31, Nat.shiftRight_eq_div_pow]; omega
theorem gw8_30 (x0 x1 x2 x3 x4 x5 x6 x7 : Nat) (h0 : x0 < 256) (h1 : x1 < 256) (h2 : x2 < 256) (h3 : x3 < 256) (h4 : x4 < 256) (h5 : x5 < 256) (h6 : x6 < 256) (h7 : x7 < 256) :
    (x0 * 2 ^ 56 + x1 * 2 ^ 48 + x2 * 2 ^ 40 + x3 * 2 ^ 32 + x4 * 2 ^ 24 + x5 * 2 ^ 16 + x6 * 2 ^ 8 + x7) >>> 30 &&& 31 = x3 % 8 * 4 + x4 / 64 := by
  rw [and31, Nat.shiftRight_eq_div_pow]; omega
theorem gw8_26 (x0 x1 x2 x3 x4 x5 x6 x7 : Nat) (h0 : x0 < 256) (h1 : x1 < 256) (h2 : x2 < 256) (h3 : x3 < 256) (h4 : x4 < 256) (h5 : x5 < 256) (h6 : x6 < 256) (h7 : x7 < 256) :
    (x0 * 2 ^ 56 + x1 * 2 ^ 48 + x2 * 2 ^ 40 + x3 * 2 ^ 32 + x4 * 2 ^ 24 + x5 * 2 ^ 16 + x6 * 2 ^ 8 + x7) >>> 26 &&& 31 = x4 / 4 % 32 := by
  rw [and31, Nat.shiftRight_eq_div_pow]; omega
theorem gw8_25 (x0 x1 x2 x3 x4 x5 x6 x7 : Nat) (h0 : x0 < 256) (h1 : x1 < 256) (h2 : x2 < 256) (h3 : x3 < 256) (h4 : x4 < 256) (h5 : x5 < 256) (h6 : x6 < 256) (h7 : x7 < 256) :
    (x0 * 2 ^ 56 + x1 * 2 ^ 48 + x2 * 2 ^ 40 + x3 * 2 ^ 32 + x4 * 2 ^ 24 + x5 * 2 ^ 16 + x6 * 2 ^ 8 + x7) >>> 25 &&& 31 = x4 / 2 % 32 := by
  rw [and31, Nat.shiftRight_eq_div_pow]; omega
theorem gw8_21 (x0 x1 x2 x3 x4 x5 x6 x7 : Nat) (h0 : x0 < 256) (h1 : x1 < 256) (h2 : x2 < 256) (h3 : x3 < 256) (h4 : x4 < 256) (h5 : x5 < 256) (h6 : x6 < 256) (h7 : x7 < 256) :
    (x0 * 2 ^ 56 + x1 * 2 ^ 48 + x2 * 2 ^ 40 + x3 * 2 ^ 32 + x4 * 2 ^ 24 + x5 * 2 ^ 16 + x6 * 2 ^ 8 + x7) >>> 21 &&& 31 = x4 % 4 * 8 + x5 / 32 := by
  rw [and31, Nat.shiftRight_eq_div_pow]; omega
theorem gw8_20 (x0 x1 x2 x3 x4 x5 x6 x7 : Nat) (h0 : x0 < 256) (h1 : x1 < 256) (h2 : x2 < 256) (h3 : x3 < 256) (h4 : x4 < 256) (h5 : x5 < 256) (h6 : x6 < 256) (h7 : x7 < 256) :
    (x0 * 2 ^ 56 + x1 * 2 ^ 48 + x2 * 2 ^ 40 + x3 * 2 ^ 32 + x4 * 2 ^ 24 + x5 * 2 ^ 16 + x6 * 2 ^ 8 + x7) >>> 20 &&& 31 = x4 % 2 * 16 + x5 / 16 := by
  rw [and31, Nat.shiftRight_eq_div_pow]; omega
theorem gw8_16 (x0 x1 x2 x3 x4 x5 x6 x7 : Nat) (h0 : x0 < 256) (h1 : x1 < 256) (h2 : x2 < 256) (h3 : x3 < 256) (h4 : x4 < 256) (h5 : x5 < 256) (h6 : x6 < 256) (h7 : x7 < 256) :
    (x0 * 2 ^ 56 + x1 * 2 ^ 48 + x2 * 2 ^ 40 + x3 * 2 ^ 32 + x4 * 2 ^ 24 + x5 * 2 ^ 16 + x6 * 2 ^ 8 + x7) >>> 16 &&& 31 = x5 % 32 := by
  rw [and31, Nat.shiftRight_eq_div_pow]; omega
theorem gw8_15 (x0 x1 x2 x3 x4 x5 x6 x7 : Nat) (h0 : x0 < 256) (h1 : x1 < 256) (h2 : x2 < 256) (h3 : x3 < 256) (h4 : x4 < 256) (h5 : x5 < 256) (h6 : x6 < 256) (h7 : x7 < 256) :
    (x0 * 2 ^ 56 + x1 * 2 ^ 48 + x2 * 2 ^ 40 + x3 * 2 ^ 32 + x4 * 2 ^ 24 + x5 * 2 ^ 16 + x6 * 2 ^ 8 + x7) >>> 15 &&& 31 = x5 % 16 * 2 + x6 / 128 := by
  rw [and31, Nat.shiftRight_eq_div_pow]; omega
theorem gw8_11 (x0 x1 x2 x3 x4 x5 x6 x7 : Nat) (h0 : x0 < 256) (h1 : x1 < 256) (h2 : x2 < 256) (h3 : x3 < 256) (h4 : x4 < 256) (h5 : x5 < 256) (h6 : x6 < 256) (h7 : x7 < 256) :
    (x0 * 2 ^ 56 + x1 * 2 ^ 48 + x2 * 2 ^ 40 + x3 * 2 ^ 32 + x4 * 2 ^ 24 + x5 * 2 ^ 16 + x6 * 2 ^ 8 + x7) >>> 11 &&& 31 = x6 / 8 := by
  rw [and31, Nat.shiftRight_eq_div_pow]; omega
theorem gw8_10 (x0 x1 x2 x3 x4 x5 x6 x7 : Nat) (h0 : x0 < 256) (h1 : x1 < 256) (h2 : x2 < 256) (h3 : x3 < 256) (h4 : x4 < 256) (h5 : x5 < 256) (h6 : x6 < 256) (h7 : x7 < 256) :
    (x0 * 2 ^ 56 + x1 * 2 ^ 48 + x2 * 2 ^ 40 + x3 * 2 ^ 32 + x4 * 2 ^ 24 + x5 * 2 ^ 16 + x6 * 2 ^ 8 + x7) >>> 10 &&& 31 = x6 / 4 % 32 := by
  rw [and31, Nat.shiftRight_eq_div_pow]; omega
theorem gw8_6 (x0 x1 x2 x3 x4 x5 x6 x7 : Nat) (h0 : x0 < 256) (h1 : x1 < 256) (h2 : x2 < 256) (h3 : x3 < 256) (h4 : x4 < 256) (h5 : x5 < 256) (h6 : x6 < 256) (h7 : x7 < 256) :
    (x0 * 2 ^ 56 + x1 * 2 ^ 48 + x2 * 2 ^ 40 + x3 * 2 ^ 32 + x4 * 2 ^ 24 + x5 * 2 ^ 16 + x6 * 2 ^ 8 + x7) >>> 6 &&& 31 = x6 % 8 * 4 + x7 / 64 := by
  rw [and31, Nat.shiftRight_eq_div_pow]; omega
theorem gw8_5 (x0 x1 x2 x3 x4 x5 x6 x7 : Nat) (h0 : x0 < 256) (h1 : x1 < 256) (h2 : x2 < 256) (h3 : x3 < 256) (h4 : x4 < 256) (h5 : x5 < 256) (h6 : x6 < 256) (h7 : x7 < 256) :
    (x0 * 2 ^ 56 + x1 * 2 ^ 48 + x2 * 2 ^ 40 + x3 * 2 ^ 32 + x4 * 2 ^ 24 + x5 * 2 ^ 16 + x6 * 2 ^ 8 + x7) >>> 5 &&& 31 = x6 % 4 * 8 + x7 / 32 := by
  rw [and31, Nat.shiftRight_eq_div_pow]; omega
theorem gw8_1 (x0 x1 x2 x3 x4 x5 x6 x7 : Nat) (h0 : x0 < 256) (h1 : x1 < 256) (h2 : x2 < 256) (h3 : x3 < 256) (h4 : x4 < 256) (h5 : x5 < 256) (h6 : x6 < 256) (h7 : x7 < 256) :
    (x0 * 2 ^ 56 + x1 * 2 ^ 48 + x2 * 2 ^ 40 + x3 * 2 ^ 32 + x4 * 2 ^ 24 + x5 * 2 ^ 16 + x6 * 2 ^ 8 + x7) >>> 1 &&& 31 = x7 / 2 % 32 := by
  rw [and31, Nat.shiftRight_eq_div_pow]; omega
theorem gw8_0 (x0 x1 x2 x3 x4 x5 x6 x7 : Nat) (h0 : x0 < 256) (h1 : x1 < 256) (h2 : x2 < 256) (h3 : x3 < 256) (h4 : x4 < 256) (h5 : x5 < 256) (h6 : x6 < 256) (h7 : x7 < 256) :
    x0 * 2 ^ 56 + x1 * 2 ^ 48 + x2 * 2 ^ 40 + x3 * 2 ^ 32 + x4 * 2 ^ 24 + x5 * 2 ^ 16 + x6 * 2 ^ 8 + x7 &&& 31 = x7 % 32 := by
  rw [and31]; omega

/-- Small-form value of the group that spans the two 64-bit loads of the
alternate encoder: four high bits of the wrapped shifted high word or-ed
with the top four bits of the low word. -/
theorem gwmid (x0 x1 x2 x3 x4 x5 x6 x7 y0 y1 y2 y3 y4 y5 y6 y7 : Nat)
    (hx0 : x0 < 256) (hx1 : x1 < 256) (hx2 : x2 < 256) (hx3 : x3 < 256)
    (hx4 : x4 < 256) (hx5 : x5 < 256) (hx6 : x6 < 256) (hx7 : x7 < 256)
    (hy0 : y0 < 256) (hy1 : y1 < 256) (hy2 : y2 < 256) (hy3 : y3 < 256)
    (hy4 : y4 < 256) (hy5 : y5 < 256) (hy6 : y6 < 256) (hy7 : y7 < 256) :
    ((x0 * 2 ^ 56 + x1 * 2 ^ 48 + x2 * 2 ^ 40 + x3 * 2 ^ 32 +
      x4 * 2 ^ 24 + x5 * 2 ^ 16 + x6 * 2 ^ 8 + x7) <<< 4 % 2 ^ 64 |||
     (y0 * 2 ^ 56 + y1 * 2 ^ 48 + y2 * 2 ^ 40 + y3 * 2 ^ 32 +
      y4 * 2 ^ 24 + y5 * 2 ^ 16 + y6 * 2 ^ 8 + y7) >>> 60) &&& 31 =
      x7 % 2 * 16 + y0 / 16 := by
  rw [Nat.and_distrib_right]
  simp only [and31]
  rw [Nat.shiftLeft_eq, Nat.shiftRight_eq_div_pow]
  rw [Nat.mod_mod_of_dvd _ (by norm_num : (32 : Nat) ∣ 2 ^ 64)]
  have hl : (y0 * 2 ^ 56 + y1 * 2 ^ 48 + y2 * 2 ^ 40 + y3 * 2 ^ 32 +
      y4 * 2 ^ 24 + y5 * 2 ^ 16 + y6 * 2 ^ 8 + y7) / 2 ^ 60 % 32 =
      (y0 * 2 ^ 56 + y1 * 2 ^ 48 + y2 * 2 ^ 40 + y3 * 2 ^ 32 +
      y4 * 2 ^ 24 + y5 * 2 ^ 16 + y6 * 2 ^ 8 + y7) / 2 ^ 60 := by
    omega
  rw [hl]
  rw [orDisj 4 (by omega) (by omega)]
  omega
set_option maxHeartbeats 1600000 in
/-- C10: the primary encoder built from five 32-bit loads and the
alternate encoder built from two 64-bit loads produce identical
26-byte output on every in-range identifier. -/
theorem c10_text_eq_textAlt {id : ULID} (hv : id.Valid) : id.text = id.textAlt := by
  obtain ⟨b0, b1, b2, b3, b4, b5, b6, b7, b8, b9, b10, b11, b12, b13, b14, b15⟩ := id
  have hB : b0 < 256 ∧ b1 < 256 ∧ b2 < 256 ∧ b3 < 256 ∧ b4 < 256 ∧ b5 < 256 ∧
      b6 < 256 ∧ b7 < 256 ∧ b8 < 256 ∧ b9 < 256 ∧ b10 < 256 ∧ b11 < 256 ∧
      b12 < 256 ∧ b13 < 256 ∧ b14 < 256 ∧ b15 < 256 := hv
  clear hv
  obtain ⟨B0, B1, B2, B3, B4, B5, B6, B7, B8, B9, B10, B11, B12, B13, B14, B15⟩ := hB
  have ha : b0 <<< 16 ||| b1 <<< 8 ||| b2 = b0 * 2 ^ 16 + b1 * 2 ^ 8 + b2 := orChain3 _ _ _ B0 B1 B2
  have hbb : b2 <<< 24 ||| b3 <<< 16 ||| b4 <<< 8 ||| b5 = b2 * 2 ^ 24 + b3 * 2 ^ 16 + b4 * 2 ^ 8 + b5 := orChain4 _ _ _ _ B2 B3 B4 B5
  have hcc : b6 <<< 24 ||| b7 <<< 16 ||| b8 <<< 8 ||| b9 = b6 * 2 ^ 24 + b7 * 2 ^ 16 + b8 * 2 ^ 8 + b9 := orChain4 _ _ _ _ B6 B7 B8 B9
  have hdd : b9 <<< 24 ||| b10 <<< 16 ||| b11 <<< 8 ||| b12 = b9 * 2 ^ 24 + b10 * 2 ^ 16 + b11 * 2 ^ 8 + b12 := orChain4 _ _ _ _ B9 B10 B11 B12
  have hee : b12 <<< 24 ||| b13 <<< 16 ||| b14 <<< 8 ||| b15 = b12 * 2 ^ 24 + b13 * 2 ^ 16 + b14 * 2 ^ 8 + b15 := orChain4 _ _ _ _ B12 B13 B14 B15
  have hh8 : b0 <<< 56 ||| b1 <<< 48 ||| b2 <<< 40 ||| b3 <<< 32 ||| b4 <<< 24 ||| b5 <<< 16 ||| b6 <<< 8 ||| b7 =
      b0 * 2 ^ 56 + b1 * 2 ^ 48 + b2 * 2 ^ 40 + b3 * 2 ^ 32 + b4 * 2 ^ 24 + b5 * 2 ^ 16 + b6 * 2 ^ 8 + b7 := orChain8b _ _ _ _ _ _ _ _ B0 B1 B2 B3 B4 B5 B6 B7
  have hl8 : b8 <<< 56 ||| b9 <<< 48 ||| b10 <<< 40 ||| b11 <<< 32 ||| b12 <<< 24 ||| b13 <<< 16 ||| b14 <<< 8 ||| b15 =
      b8 * 2 ^ 56 + b9 * 2 ^ 48 + b10 * 2 ^ 40 + b11 * 2 ^ 32 + b12 * 2 ^ 24 + b13 * 2 ^ 16 + b14 * 2 ^ 8 + b15 := orChain8b _ _ _ _ _ _ _ _ B8 B9 B10 B11 B12 B13 B14 B15
  simp only [ULID.text, ULID.textAlt]
  rw [ha, hbb, hcc, hdd, hee, hh8, hl8]
  clear ha hbb hcc hdd hee hh8 hl8
  rw [gw3_21 b0 b1 b2 B0 B1 B2,
      gw3_16 b0 b1 b2 B0 B1 B2,
      gw3_11 b0 b1 b2 B0 B1 B2]
  rw [gw3_6 b0 b1 b2 B0 B1 B2,
      gw3_1 b0 b1 b2 B0 B1 B2,
      gw4_20 b2 b3 b4 b5 B2 B3 B4 B5]
  rw [gw4_15 b2 b3 b4 b5 B2 B3 B4 B5,
      gw4_10 b2 b3 b4 b5 B2 B3 B4 B5,
      gw4_5 b2 b3 b4 b5 B2 B3 B4 B5]
  rw [gw4_0 b2 b3 b4 b5 B2 B3 B4 B5,
      gw4_27 b6 b7 b8 b9 B6 B7 B8 B9,
      gw4_22 b6 b7 b8 b9 B6 B7 B8 B9]
  rw [gw4_17 b6 b7 b8 b9 B6 B7 B8 B9,
      gw4_12 b6 b7 b8 b9 B6 B7 B8 B9,
      gw4_7 b6 b7 b8 b9 B6 B7 B8 B9]
  rw [gw4_2 b6 b7 b8 b9 B6 B7 B8 B9,
      gw4_21 b9 b10 b11 b12 B9 B10 B11 B12,
      gw4_16 b9 b10 b11 b12 B9 B10 B11 B12]
  rw [gw4_11 b9 b10 b11 b12 B9 B10 B11 B12,
      gw4_6 b9 b10 b11 b12 B9 B10 B11 B12,
      gw4_1 b9 b10 b11 b12 B9 B10 B11 B12]
  rw [gw4_20 b12 b13 b14 b15 B12 B13 B14 B15,
      gw4_15 b12 b13 b14 b15 B12 B13 B14 B15,
      gw4_10 b12 b13 b14 b15 B12 B13 B14 B15]
  rw [gw4_5 b12 b13 b14 b15 B12 B13 B14 B15,
      gw4_0 b12 b13 b14 b15 B12 B13 B14 B15,
      gw8_61 b0 b1 b2 b3 b4 b5 b6 b7 B0 B1 B2 B3 B4 B5 B6 B7]
  rw [gw8_56 b0 b1 b2 b3 b4 b5 b6 b7 B0 B1 B2 B3 B4 B5 B6 B7,
      gw8_51 b0 b1 b2 b3 b4 b5 b6 b7 B0 B1 B2 B3 B4 B5 B6 B7,
      gw8_46 b0 b1 b2 b3 b4 b5 b6 b7 B0 B1 B2 B3 B4 B5 B6 B7]
  rw [gw8_41 b0 b1 b2 b3 b4 b5 b6 b7 B0 B1 B2 B3 B4 B5 B6 B7,
      gw8_36 b0 b1 b2 b3 b4 b5 b6 b7 B0 B1 B2 B3 B4 B5 B6 B7,
      gw8_31 b0 b1 b2 b3 b4 b5 b6 b7 B0 B1 B2 B3 B4 B5 B6 B7]
  rw [gw8_26 b0 b1 b2 b3 b4 b5 b6 b7 B0 B1 B2 B3 B4 B5 B6 B7,
      gw8_21 b0 b1 b2 b3 b4 b5 b6 b7 B0 B1 B2 B3 B4 B5 B6 B7,
      gw8_16 b0 b1 b2 b3 b4 b5 b6 b7 B0 B1 B2 B3 B4 B5 B6 B7]
  rw [gw8_11 b0 b1 b2 b3 b4 b5 b6 b7 B0 B1 B2 B3 B4 B5 B6 B7,
      gw8_6 b0 b1 b2 b3 b4 b5 b6 b7 B0 B1 B2 B3 B4 B5 B6 B7,
      gw8_1 b0 b1 b2 b3 b4 b5 b6 b7 B0 B1 B2 B3 B4 B5 B6 B7]
  rw [gwmid b0 b1 b2 b3 b4 b5 b6 b7 b8 b9 b10 b11 b12 b13 b14 b15 B0 B1 B2 B3 B4 B5 B6 B7 B8 B9 B10 B11 B12 B13 B14 B15,
      gw8_55 b8 b9 b10 b11 b12 b13 b14 b15 B8 B9 B10 B11 B12 B13 B14 B15,
      gw8_50 b8 b9 b10 b11 b12 b13 b14 b15 B8 B9 B10 B11 B12 B13 B14 B15]
  rw [gw8_45 b8 b9 b10 b11 b12 b13 b14 b15 B8 B9 B10 B11 B12 B13 B14 B15,
      gw8_40 b8 b9 b10 b11 b12 b13 b14 b15 B8 B9 B10 B11 B12 B13 B14 B15,
      gw8_35 b8 b9 b10 b11 b12 b13 b14 b15 B8 B9 B10 B11 B12 B13 B14 B15]
  rw [gw8_30 b8 b9 b10 b11 b12 b13 b14 b15 B8 B9 B10 B11 B12 B13 B14 B15,
      gw8_25 b8 b9 b10 b11 b12 b13 b14 b15 B8 B9 B10 B11 B12 B13 B14 B15,
      gw8_20 b8 b9 b10 b11 b12 b13 b14 b15 B8 B9 B10 B11 B12 B13 B14 B15]
  rw [gw8_15 b8 b9 b10 b11 b12 b13 b14 b15 B8 B9 B10 B11 B12 B13 B14 B15,
      gw8_10 b8 b9 b10 b11 b12 b13 b14 b15 B8 B9 B10 B11 B12 B13 B14 B15,
      gw8_5 b8 b9 b10 b11 b12 b13 b14 b15 B8 B9 B10 B11 B12 B13 B14 B15]
  rw [gw8_0 b8 b9 b10 b11 b12 b13 b14 b15 B8 B9 B10 B11 B12 B13 B14 B15]
/-- Byte slices of the decoded words, as small functions of the 5-bit
digits. -/
theorem pbh_40 (v0 v1 v2 v3 v4 v5 v6 v7 v8 v9 : Nat) (h08 : v0 < 8) (h0 : v0 < 32) (h1 : v1 < 32) (h2 : v2 < 32) (h3 : v3 < 32) (h4 : v4 < 32) (h5 : v5 < 32) (h6 : v6 < 32) (h7 : v7 < 32) (h8 : v8 < 32) (h9 : v9 < 32) :
    (v0 * 2 ^ 45 + v1 * 2 ^ 40 + v2 * 2 ^ 35 + v3 * 2 ^ 30 + v4 * 2 ^ 25 + v5 * 2 ^ 20 + v6 * 2 ^ 15 + v7 * 2 ^ 10 + v8 * 2 ^ 5 + v9) >>> 40 % 256 = v0 * 32 + v1 := by
  rw [Nat.shiftRight_eq_div_pow]; omega
theorem pbh_32 (v0 v1 v2 v3 v4 v5 v6 v7 v8 v9 : Nat) (h0 : v0 < 32) (h1 : v1 < 32) (h2 : v2 < 32) (h3 : v3 < 32) (h4 : v4 < 32) (h5 : v5 < 32) (h6 : v6 < 32) (h7 : v7 < 32) (h8 : v8 < 32) (h9 : v9 < 32) :
    (v0 * 2 ^ 45 + v1 * 2 ^ 40 + v2 * 2 ^ 35 + v3 * 2 ^ 30 + v4 * 2 ^ 25 + v5 * 2 ^ 20 + v6 * 2 ^ 15 + v7 * 2 ^ 10 + v8 * 2 ^ 5 + v9) >>> 32 % 256 = v2 * 8 + v3 / 4 := by
  rw [Nat.shiftRight_eq_div_pow]; omega
theorem pbh_24 (v0 v1 v2 v3 v4 v5 v6 v7 v8 v9 : Nat) (h0 : v0 < 32) (h1 : v1 < 32) (h2 : v2 < 32) (h3 : v3 < 32) (h4 : v4 < 32) (h5 : v5 < 32) (h6 : v6 < 32) (h7 : v7 < 32) (h8 : v8 < 32) (h9 : v9 < 32) :
    (v0 * 2 ^ 45 + v1 * 2 ^ 40 + v2 * 2 ^ 35 + v3 * 2 ^ 30 + v4 * 2 ^ 25 + v5 * 2 ^ 20 + v6 * 2 ^ 15 + v7 * 2 ^ 10 + v8 * 2 ^ 5 + v9) >>> 24 % 256 = v3 % 4 * 64 + v4 * 2 + v5 / 16 := by
  rw [Nat.shiftRight_eq_div_pow]; omega
theorem pbh_16 (v0 v1 v2 v3 v4 v5 v6 v7 v8 v9 : Nat) (h0 : v0 < 32) (h1 : v1 < 32) (h2 : v2 < 32) (h3 : v3 < 32) (h4 : v4 < 32) (h5 : v5 < 32) (h6 : v6 < 32) (h7 : v7 < 32) (h8 : v8 < 32) (h9 : v9 < 32) :
    (v0 * 2 ^ 45 + v1 * 2 ^ 40 + v2 * 2 ^ 35 + v3 * 2 ^ 30 + v4 * 2 ^ 25 + v5 * 2 ^ 20 + v6 * 2 ^ 15 + v7 * 2 ^ 10 + v8 * 2 ^ 5 + v9) >>> 16 % 256 = v5 % 16 * 16 + v6 / 2 := by
  rw [Nat.shiftRight_eq_div_pow]; omega
theorem pbh_8 (v0 v1 v2 v3 v4 v5 v6 v7 v8 v9 : Nat) (h0 : v0 < 32) (h1 : v1 < 32) (h2 : v2 < 32) (h3 : v3 < 32) (h4 : v4 < 32) (h5 : v5 < 32) (h6 : v6 < 32) (h7 : v7 < 32) (h8 : v8 < 32) (h9 : v9 < 32) :
    (v0 * 2 ^ 45 + v1 * 2 ^ 40 + v2 * 2 ^ 35 + v3 * 2 ^ 30 + v4 * 2 ^ 25 + v5 * 2 ^ 20 + v6 * 2 ^ 15 + v7 * 2 ^ 10 + v8 * 2 ^ 5 + v9) >>> 8 % 256 = v6 % 2 * 128 + v7 * 4 + v8 / 8 := by
  rw [Nat.shiftRight_eq_div_pow]; omega
theorem pbh_0 (v0 v1 v2 v3 v4 v5 v6 v7 v8 v9 : Nat) (h0 : v0 < 32) (h1 : v1 < 32) (h2 : v2 < 32) (h3 : v3 < 32) (h4 : v4 < 32) (h5 : v5 < 32) (h6 : v6 < 32) (h7 : v7 < 32) (h8 : v8 < 32) (h9 : v9 < 32) :
    (v0 * 2 ^ 45 + v1 * 2 ^ 40 + v2 * 2 ^ 35 + v3 * 2 ^ 30 + v4 * 2 ^ 25 + v5 * 2 ^ 20 + v6 * 2 ^ 15 + v7 * 2 ^ 10 + v8 * 2 ^ 5 + v9) % 256 = v8 % 8 * 32 + v9 := by
  omega
theorem pbw_32 (w0 w1 w2 w3 w4 w5 w6 w7 : Nat) (k0 : w0 < 32) (k1 : w1 < 32) (k2 : w2 < 32) (k3 : w3 < 32) (k4 : w4 < 32) (k5 : w5 < 32) (k6 : w6 < 32) (k7 : w7 < 32) :
    (w0 * 2 ^ 35 + w1 * 2 ^ 30 + w2 * 2 ^ 25 + w3 * 2 ^ 20 + w4 * 2 ^ 15 + w5 * 2 ^ 10 + w6 * 2 ^ 5 + w7) >>> 32 % 256 = w0 * 8 + w1 / 4 := by
  rw [Nat.shiftRight_eq_div_pow]; omega
theorem pbw_24 (w0 w1 w2 w3 w4 w5 w6 w7 : Nat) (k0 : w0 < 32) (k1 : w1 < 32) (k2 : w2 < 32) (k3 : w3 < 32) (k4 : w4 < 32) (k5 : w5 < 32) (k6 : w6 < 32) (k7 : w7 < 32) :
    (w0 * 2 ^ 35 + w1 * 2 ^ 30 + w2 * 2 ^ 25 + w3 * 2 ^ 20 + w4 * 2 ^ 15 + w5 * 2 ^ 10 + w6 * 2 ^ 5 + w7) >>> 24 % 256 = w1 % 4 * 64 + w2 * 2 + w3 / 16 := by
  rw [Nat.shiftRight_eq_div_pow]; omega
theorem pbw_16 (w0 w1 w2 w3 w4 w5 w6 w7 : Nat) (k0 : w0 < 32) (k1 : w1 < 32) (k2 : w2 < 32) (k3 : w3 < 32) (k4 : w4 < 32) (k5 : w5 < 32) (k6 : w6 < 32) (k7 : w7 < 32) :
    (w0 * 2 ^ 35 + w1 * 2 ^ 30 + w2 * 2 ^ 25 + w3 * 2 ^ 20 + w4 * 2 ^ 15 + w5 * 2 ^ 10 + w6 * 2 ^ 5 + w7) >>> 16 % 256 = w3 % 16 * 16 + w4 / 2 := by
  rw [Nat.shiftRight_eq_div_pow]; omega
theorem pbw_8 (w0 w1 w2 w3 w4 w5 w6 w7 : Nat) (k0 : w0 < 32) (k1 : w1 < 32) (k2 : w2 < 32) (k3 : w3 < 32) (k4 : w4 < 32) (k5 : w5 < 32) (k6 : w6 < 32) (k7 : w7 < 32) :
    (w0 * 2 ^ 35 + w1 * 2 ^ 30 + w2 * 2 ^ 25 + w3 * 2 ^ 20 + w4 * 2 ^ 15 + w5 * 2 ^ 10 + w6 * 2 ^ 5 + w7) >>> 8 % 256 = w4 % 2 * 128 + w5 * 4 + w6 / 8 := by
  rw [Nat.shiftRight_eq_div_pow]; omega
theorem pbw_0 (w0 w1 w2 w3 w4 w5 w6 w7 : Nat) (k0 : w0 < 32) (k1 : w1 < 32) (k2 : w2 < 32) (k3 : w3 < 32) (k4 : w4 < 32) (k5 : w5 < 32) (k6 : w6 < 32) (k7 : w7 < 32) :
    (w0 * 2 ^ 35 + w1 * 2 ^ 30 + w2 * 2 ^ 25 + w3 * 2 ^ 20 + w4 * 2 ^ 15 + w5 * 2 ^ 10 + w6 * 2 ^ 5 + w7) % 256 = w6 % 8 * 32 + w7 := by
  omega
/-- Recomposition: re-extracting the 5-bit groups from the bytes the
decoder produced returns the original digits. -/
theorem rec_0 (v0 v1 v2 v3 v4 v5 : Nat) (h0 : v0 < 8) (h1 : v1 < 32) (h2 : v2 < 32) (h3 : v3 < 32) (h4 : v4 < 32) (h5 : v5 < 32) :
    ((v0 * 32 + v1) * 2 ^ 16 + (v2 * 8 + v3 / 4) * 2 ^ 8 + (v3 % 4 * 64 + v4 * 2 + v5 / 16)) >>> 21 &&& 31 = v0 := by
  rw [and31, Nat.shiftRight_eq_div_pow]; omega
theorem rec_1 (v0 v1 v2 v3 v4 v5 : Nat) (h0 : v0 < 8) (h1 : v1 < 32) (h2 : v2 < 32) (h3 : v3 < 32) (h4 : v4 < 32) (h5 : v5 < 32) :
    ((v0 * 32 + v1) * 2 ^ 16 + (v2 * 8 + v3 / 4) * 2 ^ 8 + (v3 % 4 * 64 + v4 * 2 + v5 / 16)) >>> 16 &&& 31 = v1 := by
  rw [and31, Nat.shiftRight_eq_div_pow]; omega
theorem rec_2 (v0 v1 v2 v3 v4 v5 : Nat) (h0 : v0 < 8) (h1 : v1 < 32) (h2 : v2 < 32) (h3 : v3 < 32) (h4 : v4 < 32) (h5 : v5 < 32) :
    ((v0 * 32 + v1) * 2 ^ 16 + (v2 * 8 + v3 / 4) * 2 ^ 8 + (v3 % 4 * 64 + v4 * 2 + v5 / 16)) >>> 11 &&& 31 = v2 := by
  rw [and31, Nat.shiftRight_eq_div_pow]; omega
theorem rec_3 (v0 v1 v2 v3 v4 v5 : Nat) (h0 : v0 < 8) (h1 : v1 < 32) (h2 : v2 < 32) (h3 : v3 < 32) (h4 : v4 < 32) (h5 : v5 < 32) :
    ((v0 * 32 + v1) * 2 ^ 16 + (v2 * 8 + v3 / 4) * 2 ^ 8 + (v3 % 4 * 64 + v4 * 2 + v5 / 16)) >>> 6 &&& 31 = v3 := by
  rw [and31, Nat.shiftRight_eq_div_pow]; omega
theorem rec_4 (v0 v1 v2 v3 v4 v5 : Nat) (h0 : v0 < 8) (h1 : v1 < 32) (h2 : v2 < 32) (h3 : v3 < 32) (h4 : v4 < 32) (h5 : v5 < 32) :
    ((v0 * 32 + v1) * 2 ^ 16 + (v2 * 8 + v3 / 4) * 2 ^ 8 + (v3 % 4 * 64 + v4 * 2 + v5 / 16)) >>> 1 &&& 31 = v4 := by
  rw [and31, Nat.shiftRight_eq_div_pow]; omega
theorem rec_5 (v3 v4 v5 v6 v7 v8 v9 : Nat) (h3 : v3 < 32) (h4 : v4 < 32) (h5 : v5 < 32) (h6 : v6 < 32) (h7 : v7 < 32) (h8 : v8 < 32) (h9 : v9 < 32) :
    ((v3 % 4 * 64 + v4 * 2 + v5 / 16) * 2 ^ 24 + (v5 % 16 * 16 + v6 / 2) * 2 ^ 16 + (v6 % 2 * 128 + v7 * 4 + v8 / 8) * 2 ^ 8 + (v8 % 8 * 32 + v9)) >>> 20 &&& 31 = v5 := by
  rw [and31, Nat.shiftRight_eq_div_pow]; omega
theorem rec_6 (v3 v4 v5 v6 v7 v8 v9 : Nat) (h3 : v3 < 32) (h4 : v4 < 32) (h5 : v5 < 32) (h6 : v6 < 32) (h7 : v7 < 32) (h8 : v8 < 32) (h9 : v9 < 32) :
    ((v3 % 4 * 64 + v4 * 2 + v5 / 16) * 2 ^ 24 + (v5 % 16 * 16 + v6 / 2) * 2 ^ 16 + (v6 % 2 * 128 + v7 * 4 + v8 / 8) * 2 ^ 8 + (v8 % 8 * 32 + v9)) >>> 15 &&& 31 = v6 := by
  rw [and31, Nat.shiftRight_eq_div_pow]; omega
theorem rec_7 (v3 v4 v5 v6 v7 v8 v9 : Nat) (h3 : v3 < 32) (h4 : v4 < 32) (h5 : v5 < 32) (h6 : v6 < 32) (h7 : v7 < 32) (h8 : v8 < 32) (h9 : v9 < 32) :
    ((v3 % 4 * 64 + v4 * 2 + v5 / 16) * 2 ^ 24 + (v5 % 16 * 16 + v6 / 2) * 2 ^ 16 + (v6 % 2 * 128 + v7 * 4 + v8 / 8) * 2 ^ 8 + (v8 % 8 * 32 + v9)) >>> 10 &&& 31 = v7 := by
  rw [and31, Nat.shiftRight_eq_div_pow]; omega
theorem rec_8 (v3 v4 v5 v6 v7 v8 v9 : Nat) (h3 : v3 < 32) (h4 : v4 < 32) (h5 : v5 < 32) (h6 : v6 < 32) (h7 : v7 < 32) (h8 : v8 < 32) (h9 : v9 < 32) :
    ((v3 % 4 * 64 + v4 * 2 + v5 / 16) * 2 ^ 24 + (v5 % 16 * 16 + v6 / 2) * 2 ^ 16 + (v6 % 2 * 128 + v7 * 4 + v8 / 8) * 2 ^ 8 + (v8 % 8 * 32 + v9)) >>> 5 &&& 31 = v8 := by
  rw [and31, Nat.shiftRight_eq_div_pow]; omega
theorem rec_9 (v3 v4 v5 v6 v7 v8 v9 : Nat) (h3 : v3 < 32) (h4 : v4 < 32) (h5 : v5 < 32) (h6 : v6 < 32) (h7 : v7 < 32) (h8 : v8 < 32) (h9 : v9 < 32) :
    (v3 % 4 * 64 + v4 * 2 + v5 / 16) * 2 ^ 24 + (v5 % 16 * 16 + v6 / 2) * 2 ^ 16 + (v6 % 2 * 128 + v7 * 4 + v8 / 8) * 2 ^ 8 + (v8 % 8 * 32 + v9) &&& 31 = v9 := by
  rw [and31]; omega
theorem rec_10 (v10 v11 v12 v13 v14 v15 v16 : Nat) (h10 : v10 < 32) (h11 : v11 < 32) (h12 : v12 < 32) (h13 : v13 < 32) (h14 : v14 < 32) (h15 : v15 < 32) (h16 : v16 < 32) :
    ((v10 * 8 + v11 / 4) * 2 ^ 24 + (v11 % 4 * 64 + v12 * 2 + v13 / 16) * 2 ^ 16 + (v13 % 16 * 16 + v14 / 2) * 2 ^ 8 + (v14 % 2 * 128 + v15 * 4 + v16 / 8)) >>> 27 &&& 31 = v10 := by
  rw [and31, Nat.shiftRight_eq_div_pow]; omega
theorem rec_11 (v10 v11 v12 v13 v14 v15 v16 : Nat) (h10 : v10 < 32) (h11 : v11 < 32) (h12 : v12 < 32) (h13 : v13 < 32) (h14 : v14 < 32) (h15 : v15 < 32) (h16 : v16 < 32) :
    ((v10 * 8 + v11 / 4) * 2 ^ 24 + (v11 % 4 * 64 + v12 * 2 + v13 / 16) * 2 ^ 16 + (v13 % 16 * 16 + v14 / 2) * 2 ^ 8 + (v14 % 2 * 128 + v15 * 4 + v16 / 8)) >>> 22 &&& 31 = v11 := by
  rw [and31, Nat.shiftRight_eq_div_pow]; omega
theorem rec_12 (v10 v11 v12 v13 v14 v15 v16 : Nat) (h10 : v10 < 32) (h11 : v11 < 32) (h12 : v12 < 32) (h13 : v13 < 32) (h14 : v14 < 32) (h15 : v15 < 32) (h16 : v16 < 32) :
    ((v10 * 8 + v11 / 4) * 2 ^ 24 + (v11 % 4 * 64 + v12 * 2 + v13 / 16) * 2 ^ 16 + (v13 % 16 * 16 + v14 / 2) * 2 ^ 8 + (v14 % 2 * 128 + v15 * 4 + v16 / 8)) >>> 17 &&& 31 = v12 := by
  rw [and31, Nat.shiftRight_eq_div_pow]; omega
theorem rec_13 (v10 v11 v12 v13 v14 v15 v16 : Nat) (h10 : v10 < 32) (h11 : v11 < 32) (h12 : v12 < 32) (h13 : v13 < 32) (h14 : v14 < 32) (h15 : v15 < 32) (h16 : v16 < 32) :
    ((v10 * 8 + v11 / 4) * 2 ^ 24 + (v11 % 4 * 64 + v12 * 2 + v13 / 16) * 2 ^ 16 + (v13 % 16 * 16 + v14 / 2) * 2 ^ 8 + (v14 % 2 * 128 + v15 * 4 + v16 / 8)) >>> 12 &&& 31 = v13 := by
  rw [and31, Nat.shiftRight_eq_div_pow]; omega
theorem rec_14 (v10 v11 v12 v13 v14 v15 v16 : Nat) (h10 : v10 < 32) (h11 : v11 < 32) (h12 : v12 < 32) (h13 : v13 < 32) (h14 : v14 < 32) (h15 : v15 < 32) (h16 : v16 < 32) :
    ((v10 * 8 + v11 / 4) * 2 ^ 24 + (v11 % 4 * 64 + v12 * 2 + v13 / 16) * 2 ^ 16 + (v13 % 16 * 16 + v14 / 2) * 2 ^ 8 + (v14 % 2 * 128 + v15 * 4 + v16 / 8)) >>> 7 &&& 31 = v14 := by
  rw [and31, Nat.shiftRight_eq_div_pow]; omega
theorem rec_15 (v10 v11 v12 v13 v14 v15 v16 : Nat) (h10 : v10 < 32) (h11 : v11 < 32) (h12 : v12 < 32) (h13 : v13 < 32) (h14 : v14 < 32) (h15 : v15 < 32) (h16 : v16 < 32) :
    ((v10 * 8 + v11 / 4) * 2 ^ 24 + (v11 % 4 * 64 + v12 * 2 + v13 / 16) * 2 ^ 16 + (v13 % 16 * 16 + v14 / 2) * 2 ^ 8 + (v14 % 2 * 128 + v15 * 4 + v16 / 8)) >>> 2 &&& 31 = v15 := by
  rw [and31, Nat.shiftRight_eq_div_pow]; omega
theorem rec_16 (v14 v15 v16 v17 v18 v19 v20 v21 : Nat) (h14 : v14 < 32) (h15 : v15 < 32) (h16 : v16 < 32) (h17 : v17 < 32) (h18 : v18 < 32) (h19 : v19 < 32) (h20 : v20 < 32) (h21 : v21 < 32) :
    ((v14 % 2 * 128 + v15 * 4 + v16 / 8) * 2 ^ 24 + (v16 % 8 * 32 + v17) * 2 ^ 16 + (v18 * 8 + v19 / 4) * 2 ^ 8 + (v19 % 4 * 64 + v20 * 2 + v21 / 16)) >>> 21 &&& 31 = v16 := by
  rw [and31, Nat.shiftRight_eq_div_pow]; omega
theorem rec_17 (v14 v15 v16 v17 v18 v19 v20 v21 : Nat) (h14 : v14 < 32) (h15 : v15 < 32) (h16 : v16 < 32) (h17 : v17 < 32) (h18 : v18 < 32) (h19 : v19 < 32) (h20 : v20 < 32) (h21 : v21 < 32) :
    ((v14 % 2 * 128 + v15 * 4 + v16 / 8) * 2 ^ 24 + (v16 % 8 * 32 + v17) * 2 ^ 16 + (v18 * 8 + v19 / 4) * 2 ^ 8 + (v19 % 4 * 64 + v20 * 2 + v21 / 16)) >>> 16 &&& 31 = v17 := by
  rw [and31, Nat.shiftRight_eq_div_pow]; omega
theorem rec_18 (v14 v15 v16 v17 v18 v19 v20 v21 : Nat) (h14 : v14 < 32) (h15 : v15 < 32) (h16 : v16 < 32) (h17 : v17 < 32) (h18 : v18 < 32) (h19 : v19 < 32) (h20 : v20 < 32) (h21 : v21 < 32) :
    ((v14 % 2 * 128 + v15 * 4 + v16 / 8) * 2 ^ 24 + (v16 % 8 * 32 + v17) * 2 ^ 16 + (v18 * 8 + v19 / 4) * 2 ^ 8 + (v19 % 4 * 64 + v20 * 2 + v21 / 16)) >>> 11 &&& 31 = v18 := by
  rw [and31, Nat.shiftRight_eq_div_pow]; omega
theorem rec_19 (v14 v15 v16 v17 v18 v19 v20 v21 : Nat) (h14 : v14 < 32) (h15 : v15 < 32) (h16 : v16 < 32) (h17 : v17 < 32) (h18 : v18 < 32) (h19 : v19 < 32) (h20 : v20 < 32) (h21 : v21 < 32) :
    ((v14 % 2 * 128 + v15 * 4 + v16 / 8) * 2 ^ 24 + (v16 % 8 * 32 + v17) * 2 ^ 16 + (v18 * 8 + v19 / 4) * 2 ^ 8 + (v19 % 4 * 64 + v20 * 2 + v21 / 16)) >>> 6 &&& 31 = v19 := by
  rw [and31, Nat.shiftRight_eq_div_pow]; omega
theorem rec_20 (v14 v15 v16 v17 v18 v19 v20 v21 : Nat) (h14 : v14 < 32) (h15 : v15 < 32) (h16 : v16 < 32) (h17 : v17 < 32) (h18 : v18 < 32) (h19 : v19 < 32) (h20 : v20 < 32) (h21 : v21 < 32) :
    ((v14 % 2 * 128 + v15 * 4 + v16 / 8) * 2 ^ 24 + (v16 % 8 * 32 + v17) * 2 ^ 16 + (v18 * 8 + v19 / 4) * 2 ^ 8 + (v19 % 4 * 64 + v20 * 2 + v21 / 16)) >>> 1 &&& 31 = v20 := by
  rw [and31, Nat.shiftRight_eq_div_pow]; omega
theorem rec_21 (v19 v20 v21 v22 v23 v24 v25 : Nat) (h19 : v19 < 32) (h20 : v20 < 32) (h21 : v21 < 32) (h22 : v22 < 32) (h23 : v23 < 32) (h24 : v24 < 32) (h25 : v25 < 32) :
    ((v19 % 4 * 64 + v20 * 2 + v21 / 16) * 2 ^ 24 + (v21 % 16 * 16 + v22 / 2) * 2 ^ 16 + (v22 % 2 * 128 + v23 * 4 + v24 / 8) * 2 ^ 8 + (v24 % 8 * 32 + v25)) >>> 20 &&& 31 = v21 := by
  rw [and31, Nat.shiftRight_eq_div_pow]; omega
theorem rec_22 (v19 v20 v21 v22 v23 v24 v25 : Nat) (h19 : v19 < 32) (h20 : v20 < 32) (h21 : v21 < 32) (h22 : v22 < 32) (h23 : v23 < 32) (h24 : v24 < 32) (h25 : v25 < 32) :
    ((v19 % 4 * 64 + v20 * 2 + v21 / 16) * 2 ^ 24 + (v21 % 16 * 16 + v22 / 2) * 2 ^ 16 + (v22 % 2 * 128 + v23 * 4 + v24 / 8) * 2 ^ 8 + (v24 % 8 * 32 + v25)) >>> 15 &&& 31 = v22 := by
  rw [and31, Nat.shiftRight_eq_div_pow]; omega
theorem rec_23 (v19 v20 v21 v22 v23 v24 v25 : Nat) (h19 : v19 < 32) (h20 : v20 < 32) (h21 : v21 < 32) (h22 : v22 < 32) (h23 : v23 < 32) (h24 : v24 < 32) (h25 : v25 < 32) :
    ((v19 % 4 * 64 + v20 * 2 + v21 / 16) * 2 ^ 24 + (v21 % 16 * 16 + v22 / 2) * 2 ^ 16 + (v22 % 2 * 128 + v23 * 4 + v24 / 8) * 2 ^ 8 + (v24 % 8 * 32 + v25)) >>> 10 &&& 31 = v23 := by
  rw [and31, Nat.shiftRight_eq_div_pow]; omega
theorem rec_24 (v19 v20 v21 v22 v23 v24 v25 : Nat) (h19 : v19 < 32) (h20 : v20 < 32) (h21 : v21 < 32) (h22 : v22 < 32) (h23 : v23 < 32) (h24 : v24 < 32) (h25 : v25 < 32) :
    ((v19 % 4 * 64 + v20 * 2 + v21 / 16) * 2 ^ 24 + (v21 % 16 * 16 + v22 / 2) * 2 ^ 16 + (v22 % 2 * 128 + v23 * 4 + v24 / 8) * 2 ^ 8 + (v24 % 8 * 32 + v25)) >>> 5 &&& 31 = v24 := by
  rw [and31, Nat.shiftRight_eq_div_pow]; omega
theorem rec_25 (v19 v20 v21 v22 v23 v24 v25 : Nat) (h19 : v19 < 32) (h20 : v20 < 32) (h21 : v21 < 32) (h22 : v22 < 32) (h23 : v23 < 32) (h24 : v24 < 32) (h25 : v25 < 32) :
    (v19 % 4 * 64 + v20 * 2 + v21 / 16) * 2 ^ 24 + (v21 % 16 * 16 + v22 / 2) * 2 ^ 16 + (v22 % 2 * 128 + v23 * 4 + v24 / 8) * 2 ^ 8 + (v24 % 8 * 32 + v25) &&& 31 = v25 := by
  rw [and31]; omega
/-- Encoding the decoded value of a canonical alphabet byte returns the
byte itself. -/
theorem encChar_decU64 {c : Nat} (h : c ∈ encodingBytes) :
    encChar (decU64 c) = c :=
  (by decide : ∀ c' ∈ encodingBytes, encChar (decU64 c') = c') c h

/-- A list of length 26 is the literal list of its 26 indexed entries. -/
theorem eq_list26 (s : List Nat) (h : s.length = 26) :
    s = [s.getD 0 0, s.getD 1 0, s.getD 2 0, s.getD 3 0, s.getD 4 0, s.getD 5 0, s.getD 6 0, s.getD 7 0, s.getD 8 0, s.getD 9 0, s.getD 10 0, s.getD 11 0, s.getD 12 0, s.getD 13 0, s.getD 14 0, s.getD 15 0, s.getD 16 0, s.getD 17 0, s.getD 18 0, s.getD 19 0, s.getD 20 0, s.getD 21 0, s.getD 22 0, s.getD 23 0, s.getD 24 0, s.getD 25 0] := by
  rcases s with _ | ⟨a0, s⟩
  · simp at h
  rcases s with _ | ⟨a1, s⟩
  · simp at h
  rcases s with _ | ⟨a2, s⟩
  · simp at h
  rcases s with _ | ⟨a3, s⟩
  · simp at h
  rcases s with _ | ⟨a4, s⟩
  · simp at h
  rcases s with _ | ⟨a5, s⟩
  · simp at h
  rcases s with _ | ⟨a6, s⟩
  · simp at h
  rcases s with _ | ⟨a7, s⟩
  · simp at h
  rcases s with _ | ⟨a8, s⟩
  · simp at h
  rcases s with _ | ⟨a9, s⟩
  · simp at h
  rcases s with _ | ⟨a10, s⟩
  · simp at h
  rcases s with _ | ⟨a11, s⟩
  · simp at h
  rcases s with _ | ⟨a12, s⟩
  · simp at h
  rcases s with _ | ⟨a13, s⟩
  · simp at h
  rcases s with _ | ⟨a14, s⟩
  · simp at h
  rcases s with _ | ⟨a15, s⟩
  · simp at h
  rcases s with _ | ⟨a16, s⟩
  · simp at h
  rcases s with _ | ⟨a17, s⟩
  · simp at h
  rcases s with _ | ⟨a18, s⟩
  · simp at h
  rcases s with _ | ⟨a19, s⟩
  · simp at h
  rcases s with _ | ⟨a20, s⟩
  · simp at h
  rcases s with _ | ⟨a21, s⟩
  · simp at h
  rcases s with _ | ⟨a22, s⟩
  · simp at h
  rcases s with _ | ⟨a23, s⟩
  · simp at h
  rcases s with _ | ⟨a24, s⟩
  · simp at h
  rcases s with _ | ⟨a25, s⟩
  · simp at h
  rcases s with _ | ⟨a26, s⟩
  · rfl
  · simp at h
set_option maxHeartbeats 2000000 in
/-- C2 amended: a 26-character string accepted by the decoder whose bytes
all belong to the canonical alphabet is reproduced exactly by re-encoding
the decoded identifier. -/
theorem c2_text_of_parse_roundtrip :
    ∀ s : List Nat, (parse s).2 = none → (∀ c ∈ s, c ∈ encodingBytes) →
      ((parse s).1).text = s := by
  intro s hok hcanon
  have h26 : s.length = 26 := by
    by_contra h
    rw [parse_size s h] at hok
    simp at hok
  have hv : ∀ i, i < 26 → decU64 (s.getD i 0) < 32 := by
    by_contra h
    push_neg at h
    obtain ⟨i, hi, hbad⟩ := h
    rw [parse_invalid s h26 ⟨i, hi, by omega⟩] at hok
    simp at hok
  have h55 : s.getD 0 0 ≤ 55 := by
    by_contra h
    push_neg at h
    rw [parse_overflow s h26 hv h] at hok
    simp at hok
  have h8 : decU64 (s.getD 0 0) < 8 := dec_le55_lt8 (hv 0 (by omega)) h55
  have hd1 : decU64 (s.getD 1 0) < 32 := hv 1 (by omega)
  have hd2 : decU64 (s.getD 2 0) < 32 := hv 2 (by omega)
  have hd3 : decU64 (s.getD 3 0) < 32 := hv 3 (by omega)
  have hd4 : decU64 (s.getD 4 0) < 32 := hv 4 (by omega)
  have hd5 : decU64 (s.getD 5 0) < 32 := hv 5 (by omega)
  have hd6 : decU64 (s.getD 6 0) < 32 := hv 6 (by omega)
  have hd7 : decU64 (s.getD 7 0) < 32 := hv 7 (by omega)
  have hd8 : decU64 (s.getD 8 0) < 32 := hv 8 (by omega)
  have hd9 : decU64 (s.getD 9 0) < 32 := hv 9 (by omega)
  have hd10 : decU64 (s.getD 10 0) < 32 := hv 10 (by omega)
  have hd11 : decU64 (s.getD 11 0) < 32 := hv 11 (by omega)
  have hd12 : decU64 (s.getD 12 0) < 32 := hv 12 (by omega)
  have hd13 : decU64 (s.getD 13 0) < 32 := hv 13 (by omega)
  have hd14 : decU64 (s.getD 14 0) < 32 := hv 14 (by omega)
  have hd15 : decU64 (s.getD 15 0) < 32 := hv 15 (by omega)
  have hd16 : decU64 (s.getD 16 0) < 32 := hv 16 (by omega)
  have hd17 : decU64 (s.getD 17 0) < 32 := hv 17 (by omega)
  have hd18 : decU64 (s.getD 18 0) < 32 := hv 18 (by omega)
  have hd19 : decU64 (s.getD 19 0) < 32 := hv 19 (by omega)
  have hd20 : decU64 (s.getD 20 0) < 32 := hv 20 (by omega)
  have hd21 : decU64 (s.getD 21 0) < 32 := hv 21 (by omega)
  have hd22 : decU64 (s.getD 22 0) < 32 := hv 22 (by omega)
  have hd23 : decU64 (s.getD 23 0) < 32 := hv 23 (by omega)
  have hd24 : decU64 (s.getD 24 0) < 32 := hv 24 (by omega)
  have hd25 : decU64 (s.getD 25 0) < 32 := hv 25 (by omega)
  rw [parse_ok s h26 hv h55]
  dsimp only
  rw [pH_val s (fun i h1 h2 => hv i (by omega)),
      pM_val s (fun i h1 h2 => hv i (by omega)),
      pL_val s (fun i h1 h2 => hv i (by omega))]
  rw [pbh_40 (decU64 (s.getD 0 0)) (decU64 (s.getD 1 0)) (decU64 (s.getD 2 0)) (decU64 (s.getD 3 0)) (decU64 (s.getD 4 0)) (decU64 (s.getD 5 0)) (decU64 (s.getD 6 0)) (decU64 (s.getD 7 0)) (decU64 (s.getD 8 0)) (decU64 (s.getD 9 0)) h8 (by omega) hd1 hd2 hd3 hd4 hd5 hd6 hd7 hd8 hd9]
  rw [pbh_32 (decU64 (s.getD 0 0)) (decU64 (s.getD 1 0)) (decU64 (s.getD 2 0)) (decU64 (s.getD 3 0)) (decU64 (s.getD 4 0)) (decU64 (s.getD 5 0)) (decU64 (s.getD 6 0)) (decU64 (s.getD 7 0)) (decU64 (s.getD 8 0)) (decU64 (s.getD 9 0)) (by omega) hd1 hd2 hd3 hd4 hd5 hd6 hd7 hd8 hd9]
  rw [pbh_24 (decU64 (s.getD 0 0)) (decU64 (s.getD 1 0)) (decU64 (s.getD 2 0)) (decU64 (s.getD 3 0)) (decU64 (s.getD 4 0)) (decU64 (s.getD 5 0)) (decU64 (s.getD 6 0)) (decU64 (s.getD 7 0)) (decU64 (s.getD 8 0)) (decU64 (s.getD 9 0)) (by omega) hd1 hd2 hd3 hd4 hd5 hd6 hd7 hd8 hd9]
  rw [pbh_16 (decU64 (s.getD 0 0)) (decU64 (s.getD 1 0)) (decU64 (s.getD 2 0)) (decU64 (s.getD 3 0)) (decU64 (s.getD 4 0)) (decU64 (s.getD 5 0)) (decU64 (s.getD 6 0)) (decU64 (s.getD 7 0)) (decU64 (s.getD 8 0)) (decU64 (s.getD 9 0)) (by omega) hd1 hd2 hd3 hd4 hd5 hd6 hd7 hd8 hd9]
  rw [pbh_8 (decU64 (s.getD 0 0)) (decU64 (s.getD 1 0)) (decU64 (s.getD 2 0)) (decU64 (s.getD 3 0)) (decU64 (s.getD 4 0)) (decU64 (s.getD 5 0)) (decU64 (s.getD 6 0)) (decU64 (s.getD 7 0)) (decU64 (s.getD 8 0)) (decU64 (s.getD 9 0)) (by omega) hd1 hd2 hd3 hd4 hd5 hd6 hd7 hd8 hd9]
  rw [pbh_0 (decU64 (s.getD 0 0)) (decU64 (s.getD 1 0)) (decU64 (s.getD 2 0)) (decU64 (s.getD 3 0)) (decU64 (s.getD 4 0)) (decU64 (s.getD 5 0)) (decU64 (s.getD 6 0)) (decU64 (s.getD 7 0)) (decU64 (s.getD 8 0)) (decU64 (s.getD 9 0)) (by omega) hd1 hd2 hd3 hd4 hd5 hd6 hd7 hd8 hd9]
  rw [pbw_32 (decU64 (s.getD 10 0)) (decU64 (s.getD 11 0)) (decU64 (s.getD 12 0)) (decU64 (s.getD 13 0)) (decU64 (s.getD 14 0)) (decU64 (s.getD 15 0)) (decU64 (s.getD 16 0)) (decU64 (s.getD 17 0)) hd10 hd11 hd12 hd13 hd14 hd15 hd16 hd17]
  rw [pbw_24 (decU64 (s.getD 10 0)) (decU64 (s.getD 11 0)) (decU64 (s.getD 12 0)) (decU64 (s.getD 13 0)) (decU64 (s.getD 14 0)) (decU64 (s.getD 15 0)) (decU64 (s.getD 16 0)) (decU64 (s.getD 17 0)) hd10 hd11 hd12 hd13 hd14 hd15 hd16 hd17]
  rw [pbw_16 (decU64 (s.getD 10 0)) (decU64 (s.getD 11 0)) (decU64 (s.getD 12 0)) (decU64 (s.getD 13 0)) (decU64 (s.getD 14 0)) (decU64 (s.getD 15 0)) (decU64 (s.getD 16 0)) (decU64 (s.getD 17 0)) hd10 hd11 hd12 hd13 hd14 hd15 hd16 hd17]
  rw [pbw_8 (decU64 (s.getD 10 0)) (decU64 (s.getD 11 0)) (decU64 (s.getD 12 0)) (decU64 (s.getD 13 0)) (decU64 (s.getD 14 0)) (decU64 (s.getD 15 0)) (decU64 (s.getD 16 0)) (decU64 (s.getD 17 0)) hd10 hd11 hd12 hd13 hd14 hd15 hd16 hd17]
  rw [pbw_0 (decU64 (s.getD 10 0)) (decU64 (s.getD 11 0)) (decU64 (s.getD 12 0)) (decU64 (s.getD 13 0)) (decU64 (s.getD 14 0)) (decU64 (s.getD 15 0)) (decU64 (s.getD 16 0)) (decU64 (s.getD 17 0)) hd10 hd11 hd12 hd13 hd14 hd15 hd16 hd17]
  rw [pbw_32 (decU64 (s.getD 18 0)) (decU64 (s.getD 19 0)) (decU64 (s.getD 20 0)) (decU64 (s.getD 21 0)) (decU64 (s.getD 22 0)) (decU64 (s.getD 23 0)) (decU64 (s.getD 24 0)) (decU64 (s.getD 25 0)) hd18 hd19 hd20 hd21 hd22 hd23 hd24 hd25]
  rw [pbw_24 (decU64 (s.getD 18 0)) (decU64 (s.getD 19 0)) (decU64 (s.getD 20 0)) (decU64 (s.getD 21 0)) (decU64 (s.getD 22 0)) (decU64 (s.getD 23 0)) (decU64 (s.getD 24 0)) (decU64 (s.getD 25 0)) hd18 hd19 hd20 hd21 hd22 hd23 hd24 hd25]
  rw [pbw_16 (decU64 (s.getD 18 0)) (decU64 (s.getD 19 0)) (decU64 (s.getD 20 0)) (decU64 (s.getD 21 0)) (decU64 (s.getD 22 0)) (decU64 (s.getD 23 0)) (decU64 (s.getD 24 0)) (decU64 (s.getD 25 0)) hd18 hd19 hd20 hd21 hd22 hd23 hd24 hd25]
  rw [pbw_8 (decU64 (s.getD 18 0)) (decU64 (s.getD 19 0)) (decU64 (s.getD 20 0)) (decU64 (s.getD 21 0)) (decU64 (s.getD 22 0)) (decU64 (s.getD 23 0)) (decU64 (s.getD 24 0)) (decU64 (s.getD 25 0)) hd18 hd19 hd20 hd21 hd22 hd23 hd24 hd25]
  rw [pbw_0 (decU64 (s.getD 18 0)) (decU64 (s.getD 19 0)) (decU64 (s.getD 20 0)) (decU64 (s.getD 21 0)) (decU64 (s.getD 22 0)) (decU64 (s.getD 23 0)) (decU64 (s.getD 24 0)) (decU64 (s.getD 25 0)) hd18 hd19 hd20 hd21 hd22 hd23 hd24 hd25]
  simp only [ULID.text]
  rw [orChain3 (decU64 (s.getD 0 0) * 32 + decU64 (s.getD 1 0)) (decU64 (s.getD 2 0) * 8 + decU64 (s.getD 3 0) / 4) (decU64 (s.getD 3 0) % 4 * 64 + decU64 (s.getD 4 0) * 2 + decU64 (s.getD 5 0) / 16) (by omega) (by omega) (by omega)]
  rw [orChain4 (decU64 (s.getD 3 0) % 4 * 64 + decU64 (s.getD 4 0) * 2 + decU64 (s.getD 5 0) / 16) (decU64 (s.getD 5 0) % 16 * 16 + decU64 (s.getD 6 0) / 2) (decU64 (s.getD 6 0) % 2 * 128 + decU64 (s.getD 7 0) * 4 + decU64 (s.getD 8 0) / 8) (decU64 (s.getD 8 0) % 8 * 32 + decU64 (s.getD 9 0)) (by omega) (by omega) (by omega) (by omega)]
  rw [orChain4 (decU64 (s.getD 10 0) * 8 + decU64 (s.getD 11 0) / 4) (decU64 (s.getD 11 0) % 4 * 64 + decU64 (s.getD 12 0) * 2 + decU64 (s.getD 13 0) / 16) (decU64 (s.getD 13 0) % 16 * 16 + decU64 (s.getD 14 0) / 2) (decU64 (s.getD 14 0) % 2 * 128 + decU64 (s.getD 15 0) * 4 + decU64 (s.getD 16 0) / 8) (by omega) (by omega) (by omega) (by omega)]
  rw [orChain4 (decU64 (s.getD 14 0) % 2 * 128 + decU64 (s.getD 15 0) * 4 + decU64 (s.getD 16 0) / 8) (decU64 (s.getD 16 0) % 8 * 32 + decU64 (s.getD 17 0)) (decU64 (s.getD 18 0) * 8 + decU64 (s.getD 19 0) / 4) (decU64 (s.getD 19 0) % 4 * 64 + decU64 (s.getD 20 0) * 2 + decU64 (s.getD 21 0) / 16) (by omega) (by omega) (by omega) (by omega)]
  rw [orChain4 (decU64 (s.getD 19 0) % 4 * 64 + decU64 (s.getD 20 0) * 2 + decU64 (s.getD 21 0) / 16) (decU64 (s.getD 21 0) % 16 * 16 + decU64 (s.getD 22 0) / 2) (decU64 (s.getD 22 0) % 2 * 128 + decU64 (s.getD 23 0) * 4 + decU64 (s.getD 24 0) / 8) (decU64 (s.getD 24 0) % 8 * 32 + decU64 (s.getD 25 0)) (by omega) (by omega) (by omega) (by omega)]
  rw [rec_0 (decU64 (s.getD 0 0)) (decU64 (s.getD 1 0)) (decU64 (s.getD 2 0)) (decU64 (s.getD 3 0)) (decU64 (s.getD 4 0)) (decU64 (s.getD 5 0)) h8 hd1 hd2 hd3 hd4 hd5]
  rw [rec_1 (decU64 (s.getD 0 0)) (decU64 (s.getD 1 0)) (decU64 (s.getD 2 0)) (decU64 (s.getD 3 0)) (decU64 (s.getD 4 0)) (decU64 (s.getD 5 0)) h8 hd1 hd2 hd3 hd4 hd5]
  rw [rec_2 (decU64 (s.getD 0 0)) (decU64 (s.getD 1 0)) (decU64 (s.getD 2 0)) (decU64 (s.getD 3 0)) (decU64 (s.getD 4 0)) (decU64 (s.getD 5 0)) h8 hd1 hd2 hd3 hd4 hd5]
  rw [rec_3 (decU64 (s.getD 0 0)) (decU64 (s.getD 1 0)) (decU64 (s.getD 2 0)) (decU64 (s.getD 3 0)) (decU64 (s.getD 4 0)) (decU64 (s.getD 5 0)) h8 hd1 hd2 hd3 hd4 hd5]
  rw [rec_4 (decU64 (s.getD 0 0)) (decU64 (s.getD 1 0)) (decU64 (s.getD 2 0)) (decU64 (s.getD 3 0)) (decU64 (s.getD 4 0)) (decU64 (s.getD 5 0)) h8 hd1 hd2 hd3 hd4 hd5]
  rw [rec_5 (decU64 (s.getD 3 0)) (decU64 (s.getD 4 0)) (decU64 (s.getD 5 0)) (decU64 (s.getD 6 0)) (decU64 (s.getD 7 0)) (decU64 (s.getD 8 0)) (decU64 (s.getD 9 0)) hd3 hd4 hd5 hd6 hd7 hd8 hd9]
  rw [rec_6 (decU64 (s.getD 3 0)) (decU64 (s.getD 4 0)) (decU64 (s.getD 5 0)) (decU64 (s.getD 6 0)) (decU64 (s.getD 7 0)) (decU64 (s.getD 8 0)) (decU64 (s.getD 9 0)) hd3 hd4 hd5 hd6 hd7 hd8 hd9]
  rw [rec_7 (decU64 (s.getD 3 0)) (decU64 (s.getD 4 0)) (decU64 (s.getD 5 0)) (decU64 (s.getD 6 0)) (decU64 (s.getD 7 0)) (decU64 (s.getD 8 0)) (decU64 (s.getD 9 0)) hd3 hd4 hd5 hd6 hd7 hd8 hd9]
  rw [rec_8 (decU64 (s.getD 3 0)) (decU64 (s.getD 4 0)) (decU64 (s.getD 5 0)) (decU64 (s.getD 6 0)) (decU64 (s.getD 7 0)) (decU64 (s.getD 8 0)) (decU64 (s.getD 9 0)) hd3 hd4 hd5 hd6 hd7 hd8 hd9]
  rw [rec_9 (decU64 (s.getD 3 0)) (decU64 (s.getD 4 0)) (decU64 (s.getD 5 0)) (decU64 (s.getD 6 0)) (decU64 (s.getD 7 0)) (decU64 (s.getD 8 0)) (decU64 (s.getD 9 0)) hd3 hd4 hd5 hd6 hd7 hd8 hd9]
  rw [rec_10 (decU64 (s.getD 10 0)) (decU64 (s.getD 11 0)) (decU64 (s.getD 12 0)) (decU64 (s.getD 13 0)) (decU64 (s.getD 14 0)) (decU64 (s.getD 15 0)) (decU64 (s.getD 16 0)) hd10 hd11 hd12 hd13 hd14 hd15 hd16]
  rw [rec_11 (decU64 (s.getD 10 0)) (decU64 (s.getD 11 0)) (decU64 (s.getD 12 0)) (decU64 (s.getD 13 0)) (decU64 (s.getD 14 0)) (decU64 (s.getD 15 0)) (decU64 (s.getD 16 0)) hd10 hd11 hd12 hd13 hd14 hd15 hd16]
  rw [rec_12 (decU64 (s.getD 10 0)) (decU64 (s.getD 11 0)) (decU64 (s.getD 12 0)) (decU64 (s.getD 13 0)) (decU64 (s.getD 14 0)) (decU64 (s.getD 15 0)) (decU64 (s.getD 16 0)) hd10 hd11 hd12 hd13 hd14 hd15 hd16]
  rw [rec_13 (decU64 (s.getD 10 0)) (decU64 (s.getD 11 0)) (decU64 (s.getD 12 0)) (decU64 (s.getD 13 0)) (decU64 (s.getD 14 0)) (decU64 (s.getD 15 0)) (decU64 (s.getD 16 0)) hd10 hd11 hd12 hd13 hd14 hd15 hd16]
  rw [rec_14 (decU64 (s.getD 10 0)) (decU64 (s.getD 11 0)) (decU64 (s.getD 12 0)) (decU64 (s.getD 13 0)) (decU64 (s.getD 14 0)) (decU64 (s.getD 15 0)) (decU64 (s.getD 16 0)) hd10 hd11 hd12 hd13 hd14 hd15 hd16]
  rw [rec_15 (decU64 (s.getD 10 0)) (decU64 (s.getD 11 0)) (decU64 (s.getD 12 0)) (decU64 (s.getD 13 0)) (decU64 (s.getD 14 0)) (decU64 (s.getD 15 0)) (decU64 (s.getD 16 0)) hd10 hd11 hd12 hd13 hd14 hd15 hd16]
  rw [rec_16 (decU64 (s.getD 14 0)) (decU64 (s.getD 15 0)) (decU64 (s.getD 16 0)) (decU64 (s.getD 17 0)) (decU64 (s.getD 18 0)) (decU64 (s.getD 19 0)) (decU64 (s.getD 20 0)) (decU64 (s.getD 21 0)) hd14 hd15 hd16 hd17 hd18 hd19 hd20 hd21]
  rw [rec_17 (decU64 (s.getD 14 0)) (decU64 (s.getD 15 0)) (decU64 (s.getD 16 0)) (decU64 (s.getD 17 0)) (decU64 (s.getD 18 0)) (decU64 (s.getD 19 0)) (decU64 (s.getD 20 0)) (decU64 (s.getD 21 0)) hd14 hd15 hd16 hd17 hd18 hd19 hd20 hd21]
  rw [rec_18 (decU64 (s.getD 14 0)) (decU64 (s.getD 15 0)) (decU64 (s.getD 16 0)) (decU64 (s.getD 17 0)) (decU64 (s.getD 18 0)) (decU64 (s.getD 19 0)) (decU64 (s.getD 20 0)) (decU64 (s.getD 21 0)) hd14 hd15 hd16 hd17 hd18 hd19 hd20 hd21]
  rw [rec_19 (decU64 (s.getD 14 0)) (decU64 (s.getD 15 0)) (decU64 (s.getD 16 0)) (decU64 (s.getD 17 0)) (decU64 (s.getD 18 0)) (decU64 (s.getD 19 0)) (decU64 (s.getD 20 0)) (decU64 (s.getD 21 0)) hd14 hd15 hd16 hd17 hd18 hd19 hd20 hd21]
  rw [rec_20 (decU64 (s.getD 14 0)) (decU64 (s.getD 15 0)) (decU64 (s.getD 16 0)) (decU64 (s.getD 17 0)) (decU64 (s.getD 18 0)) (decU64 (s.getD 19 0)) (decU64 (s.getD 20 0)) (decU64 (s.getD 21 0)) hd14 hd15 hd16 hd17 hd18 hd19 hd20 hd21]
  rw [rec_21 (decU64 (s.getD 19 0)) (decU64 (s.getD 20 0)) (decU64 (s.getD 21 0)) (decU64 (s.getD 22 0)) (decU64 (s.getD 23 0)) (decU64 (s.getD 24 0)) (decU64 (s.getD 25 0)) hd19 hd20 hd21 hd22 hd23 hd24 hd25]
  rw [rec_22 (decU64 (s.getD 19 0)) (decU64 (s.getD 20 0)) (decU64 (s.getD 21 0)) (decU64 (s.getD 22 0)) (decU64 (s.getD 23 0)) (decU64 (s.getD 24 0)) (decU64 (s.getD 25 0)) hd19 hd20 hd21 hd22 hd23 hd24 hd25]
  rw [rec_23 (decU64 (s.getD 19 0)) (decU64 (s.getD 20 0)) (decU64 (s.getD 21 0)) (decU64 (s.getD 22 0)) (decU64 (s.getD 23 0)) (decU64 (s.getD 24 0)) (decU64 (s.getD 25 0)) hd19 hd20 hd21 hd22 hd23 hd24 hd25]
  rw [rec_24 (decU64 (s.getD 19 0)) (decU64 (s.getD 20 0)) (decU64 (s.getD 21 0)) (decU64 (s.getD 22 0)) (decU64 (s.getD 23 0)) (decU64 (s.getD 24 0)) (decU64 (s.getD 25 0)) hd19 hd20 hd21 hd22 hd23 hd24 hd25]
  rw [rec_25 (decU64 (s.getD 19 0)) (decU64 (s.getD 20 0)) (decU64 (s.getD 21 0)) (decU64 (s.getD 22 0)) (decU64 (s.getD 23 0)) (decU64 (s.getD 24 0)) (decU64 (s.getD 25 0)) hd19 hd20 hd21 hd22 hd23 hd24 hd25]
  rw [encChar_decU64 (hcanon (s.getD 0 0) (getD_mem (by omega)))]
  rw [encChar_decU64 (hcanon (s.getD 1 0) (getD_mem (by omega)))]
  rw [encChar_decU64 (hcanon (s.getD 2 0) (getD_mem (by omega)))]
  rw [encChar_decU64 (hcanon (s.getD 3 0) (getD_mem (by omega)))]
  rw [encChar_decU64 (hcanon (s.getD 4 0) (getD_mem (by omega)))]
  rw [encChar_decU64 (hcanon (s.getD 5 0) (getD_mem (by omega)))]
  rw [encChar_decU64 (hcanon (s.getD 6 0) (getD_mem (by omega)))]
  rw [encChar_decU64 (hcanon (s.getD 7 0) (getD_mem (by omega)))]
  rw [encChar_decU64 (hcanon (s.getD 8 0) (getD_mem (by omega)))]
  rw [encChar_decU64 (hcanon (s.getD 9 0) (getD_mem (by omega)))]
  rw [encChar_decU64 (hcanon (s.getD 10 0) (getD_mem (by omega)))]
  rw [encChar_decU64 (hcanon (s.getD 11 0) (getD_mem (by omega)))]
  rw [encChar_decU64 (hcanon (s.getD 12 0) (getD_mem (by omega)))]
  rw [encChar_decU64 (hcanon (s.getD 13 0) (getD_mem (by omega)))]
  rw [encChar_decU64 (hcanon (s.getD 14 0) (getD_mem (by omega)))]
  rw [encChar_decU64 (hcanon (s.getD 15 0) (getD_mem (by omega)))]
  rw [encChar_decU64 (hcanon (s.getD 16 0) (getD_mem (by omega)))]
  rw [encChar_decU64 (hcanon (s.getD 17 0) (getD_mem (by omega)))]
  rw [encChar_decU64 (hcanon (s.getD 18 0) (getD_mem (by omega)))]
  rw [encChar_decU64 (hcanon (s.getD 19 0) (getD_mem (by omega)))]
  rw [encChar_decU64 (hcanon (s.getD 20 0) (getD_mem (by omega)))]
  rw [encChar_decU64 (hcanon (s.getD 21 0) (getD_mem (by omega)))]
  rw [encChar_decU64 (hcanon (s.getD 22 0) (getD_mem (by omega)))]
  rw [encChar_decU64 (hcanon (s.getD 23 0) (getD_mem (by omega)))]
  rw [encChar_decU64 (hcanon (s.getD 24 0) (getD_mem (by omega)))]
  rw [encChar_decU64 (hcanon (s.getD 25 0) (getD_mem (by omega)))]
  exact (eq_list26 s h26).symm

/-- Three-valued comparison of naturals as the integer sign convention of
bytes.Compare. -/
def natCmp (x y : Nat) : Int := if x < y then -1 else if y < x then 1 else 0

/-- Big-endian positional value of a list of digits in base B. -/
def beVal (B : Nat) : List Nat → Nat
  | [] => 0
  | x :: xs => x * B ^ xs.length + beVal B xs

theorem beVal_lt {B : Nat} (hB : 0 < B) :
    ∀ l : List Nat, (∀ x ∈ l, x < B) → beVal B l < B ^ l.length := by
  intro l
  induction l with
  | nil =>
    intro _
    simp [beVal]
  | cons x xs ih =>
    intro h
    simp only [beVal, List.length_cons]
    have h1 : x < B := h x (by simp)
    have h2 : beVal B xs < B ^ xs.length := ih (fun y hy => h y (by simp [hy]))
    calc x * B ^ xs.length + beVal B xs < x * B ^ xs.length + B ^ xs.length := by omega
      _ = (x + 1) * B ^ xs.length := by ring
      _ ≤ B * B ^ xs.length := Nat.mul_le_mul_right _ (by omega)
      _ = B ^ (xs.length + 1) := by ring

theorem natCmp_shift (c x y : Nat) : natCmp (c + x) (c + y) = natCmp x y := by
  unfold natCmp
  split_ifs <;> omega

/-- Lexicographic comparison of equal-length digit lists agrees with
comparison of their base-B values. -/
theorem bytesCompare_eq_natCmp {B : Nat} (hB : 0 < B) :
    ∀ xs ys : List Nat, xs.length = ys.length →
      (∀ x ∈ xs, x < B) → (∀ y ∈ ys, y < B) →
      bytesCompare xs ys = natCmp (beVal B xs) (beVal B ys) := by
  intro xs
  induction xs with
  | nil =>
    intro ys hlen _ _
    cases ys with
    | nil => simp [bytesCompare, natCmp, beVal]
    | cons y ys => simp at hlen
  | cons x xs ih =>
    intro ys hlen hx hy
    cases ys with
    | nil => simp at hlen
    | cons y ys =>
      have hlen' : xs.length = ys.length := by simpa using hlen
      simp only [bytesCompare, beVal, hlen']
      have hx1 : x < B := hx x (by simp)
      have hy1 : y < B := hy y (by simp)
      have hbx : beVal B xs < B ^ ys.length := by
        rw [← hlen']
        exact beVal_lt hB xs (fun a ha => hx a (by simp [ha]))
      have hby : beVal B ys < B ^ ys.length := beVal_lt hB ys (fun a ha => hy a (by simp [ha]))
      rcases Nat.lt_trichotomy x y with h | h | h
      · rw [if_pos h]
        have hv : x * B ^ ys.length + beVal B xs < y * B ^ ys.length + beVal B ys := by
          calc x * B ^ ys.length + beVal B xs < x * B ^ ys.length + B ^ ys.length := by omega
            _ = (x + 1) * B ^ ys.length := by ring
            _ ≤ y * B ^ ys.length := Nat.mul_le_mul_right _ (by omega)
            _ ≤ y * B ^ ys.length + beVal B ys := by omega
        unfold natCmp
        rw [if_pos hv]
      · subst h
        rw [if_neg (lt_irrefl x), if_neg (lt_irrefl x)]
        rw [natCmp_shift (x * B ^ ys.length) (beVal B xs) (beVal B ys)]
        exact ih ys hlen' (fun a ha => hx a (by simp [ha])) (fun a ha => hy a (by simp [ha]))
      · rw [if_neg (by omega), if_pos h]
        have hv : y * B ^ ys.length + beVal B ys < x * B ^ ys.length + beVal B xs := by
          calc y * B ^ ys.length + beVal B ys < y * B ^ ys.length + B ^ ys.length := by omega
            _ = (y + 1) * B ^ ys.length := by ring
            _ ≤ x * B ^ ys.length := Nat.mul_le_mul_right _ (by omega)
            _ ≤ x * B ^ ys.length + beVal B xs := by omega
        unfold natCmp
        rw [if_neg (by omega), if_pos hv]

/-- The alphabet is strictly increasing on 5-bit values. -/
theorem encChar_lt_iff {u v : Nat} (hu : u < 32) (hv : v < 32) :
    encChar u < encChar v ↔ u < v :=
  (by decide : ∀ u' < 32, ∀ v' < 32, (encChar u' < encChar v' ↔ u' < v')) u hu v hv

/-- Mapping the alphabet over equal-length digit lists preserves the
lexicographic comparison. -/
theorem bytesCompare_map_encChar :
    ∀ xs ys : List Nat, xs.length = ys.length →
      (∀ x ∈ xs, x < 32) → (∀ y ∈ ys, y < 32) →
      bytesCompare (xs.map encChar) (ys.map encChar) = bytesCompare xs ys := by
  intro xs
  induction xs with
  | nil =>
    intro ys hlen _ _
    cases ys with
    | nil => rfl
    | cons y ys => simp at hlen
  | cons x xs ih =>
    intro ys hlen hx hy
    cases ys with
    | nil => simp at hlen
    | cons y ys =>
      have hlen' : xs.length = ys.length := by simpa using hlen
      have hx1 : x < 32 := hx x (by simp)
      have hy1 : y < 32 := hy y (by simp)
      simp only [List.map_cons, bytesCompare]
      rcases Nat.lt_trichotomy x y with h | h | h
      · rw [if_pos h, if_pos ((encChar_lt_iff hx1 hy1).mpr h)]
      · subst h
        rw [if_neg (lt_irrefl x), if_neg (lt_irrefl (encChar x)),
          if_neg (lt_irrefl x), if_neg (lt_irrefl (encChar x))]
        exact ih ys hlen' (fun a ha => hx a (by simp [ha])) (fun a ha => hy a (by simp [ha]))
      · have hn1 : ¬ encChar x < encChar y :=
          fun hc => absurd ((encChar_lt_iff hx1 hy1).mp hc) (by omega)
        have hp1 : encChar y < encChar x := (encChar_lt_iff hy1 hx1).mpr h
        have hn2 : ¬ x < y := by omega
        rw [if_neg hn1, if_pos hp1, if_neg hn2, if_pos h]
set_option maxHeartbeats 3000000 in
/-- C4: Compare is unsigned byte-wise lexicographic comparison over the
16 bytes, and lexicographic comparison of the two text encodings yields
the same sign as Compare. -/
theorem c4_compare_order {a b : ULID} (ha : a.Valid) (hb : b.Valid) :
    ULID.Compare a b = bytesCompare a.toList b.toList ∧
    bytesCompare a.text b.text = ULID.Compare a b := by
  refine ⟨rfl, ?_⟩
  obtain ⟨x0, x1, x2, x3, x4, x5, x6, x7, x8, x9, x10, x11, x12, x13, x14, x15⟩ := a
  obtain ⟨y0, y1, y2, y3, y4, y5, y6, y7, y8, y9, y10, y11, y12, y13, y14, y15⟩ := b
  have hXc : x0 < 256 ∧ x1 < 256 ∧ x2 < 256 ∧ x3 < 256 ∧ x4 < 256 ∧ x5 < 256 ∧ x6 < 256 ∧ x7 < 256 ∧ x8 < 256 ∧ x9 < 256 ∧ x10 < 256 ∧ x11 < 256 ∧ x12 < 256 ∧ x13 < 256 ∧ x14 < 256 ∧ x15 < 256 := ha
  have hYc : y0 < 256 ∧ y1 < 256 ∧ y2 < 256 ∧ y3 < 256 ∧ y4 < 256 ∧ y5 < 256 ∧ y6 < 256 ∧ y7 < 256 ∧ y8 < 256 ∧ y9 < 256 ∧ y10 < 256 ∧ y11 < 256 ∧ y12 < 256 ∧ y13 < 256 ∧ y14 < 256 ∧ y15 < 256 := hb
  clear ha hb
  obtain ⟨X0, X1, X2, X3, X4, X5, X6, X7, X8, X9, X10, X11, X12, X13, X14, X15⟩ := hXc
  obtain ⟨Y0, Y1, Y2, Y3, Y4, Y5, Y6, Y7, Y8, Y9, Y10, Y11, Y12, Y13, Y14, Y15⟩ := hYc
  have hax : x0 <<< 16 ||| x1 <<< 8 ||| x2 = x0 * 2 ^ 16 + x1 * 2 ^ 8 + x2 := orChain3 _ _ _ X0 X1 X2
  have hbx : x2 <<< 24 ||| x3 <<< 16 ||| x4 <<< 8 ||| x5 = x2 * 2 ^ 24 + x3 * 2 ^ 16 + x4 * 2 ^ 8 + x5 := orChain4 _ _ _ _ X2 X3 X4 X5
  have hcx : x6 <<< 24 ||| x7 <<< 16 ||| x8 <<< 8 ||| x9 = x6 * 2 ^ 24 + x7 * 2 ^ 16 + x8 * 2 ^ 8 + x9 := orChain4 _ _ _ _ X6 X7 X8 X9
  have hdx : x9 <<< 24 ||| x10 <<< 16 ||| x11 <<< 8 ||| x12 = x9 * 2 ^ 24 + x10 * 2 ^ 16 + x11 * 2 ^ 8 + x12 := orChain4 _ _ _ _ X9 X10 X11 X12
  have hex : x12 <<< 24 ||| x13 <<< 16 ||| x14 <<< 8 ||| x15 = x12 * 2 ^ 24 + x13 * 2 ^ 16 + x14 * 2 ^ 8 + x15 := orChain4 _ _ _ _ X12 X13 X14 X15
  have hay : y0 <<< 16 ||| y1 <<< 8 ||| y2 = y0 * 2 ^ 16 + y1 * 2 ^ 8 + y2 := orChain3 _ _ _ Y0 Y1 Y2
  have hby : y2 <<< 24 ||| y3 <<< 16 ||| y4 <<< 8 ||| y5 = y2 * 2 ^ 24 + y3 * 2 ^ 16 + y4 * 2 ^ 8 + y5 := orChain4 _ _ _ _ Y2 Y3 Y4 Y5
  have hcy : y6 <<< 24 ||| y7 <<< 16 ||| y8 <<< 8 ||| y9 = y6 * 2 ^ 24 + y7 * 2 ^ 16 + y8 * 2 ^ 8 + y9 := orChain4 _ _ _ _ Y6 Y7 Y8 Y9
  have hdy : y9 <<< 24 ||| y10 <<< 16 ||| y11 <<< 8 ||| y12 = y9 * 2 ^ 24 + y10 * 2 ^ 16 + y11 * 2 ^ 8 + y12 := orChain4 _ _ _ _ Y9 Y10 Y11 Y12
  have hey : y12 <<< 24 ||| y13 <<< 16 ||| y14 <<< 8 ||| y15 = y12 * 2 ^ 24 + y13 * 2 ^ 16 + y14 * 2 ^ 8 + y15 := orChain4 _ _ _ _ Y12 Y13 Y14 Y15
  simp only [ULID.text]
  rw [hax, hbx, hcx, hdx, hex, hay, hby, hcy, hdy, hey]
  clear hax hbx hcx hdx hex hay hby hcy hdy hey
  rw [gw3_21 x0 x1 x2 X0 X1 X2, gw3_16 x0 x1 x2 X0 X1 X2, gw3_11 x0 x1 x2 X0 X1 X2]
  rw [gw3_6 x0 x1 x2 X0 X1 X2, gw3_1 x0 x1 x2 X0 X1 X2, gw4_20 x2 x3 x4 x5 X2 X3 X4 X5]
  rw [gw4_15 x2 x3 x4 x5 X2 X3 X4 X5, gw4_10 x2 x3 x4 x5 X2 X3 X4 X5, gw4_5 x2 x3 x4 x5 X2 X3 X4 X5]
  rw [gw4_0 x2 x3 x4 x5 X2 X3 X4 X5, gw4_27 x6 x7 x8 x9 X6 X7 X8 X9, gw4_22 x6 x7 x8 x9 X6 X7 X8 X9]
  rw [gw4_17 x6 x7 x8 x9 X6 X7 X8 X9, gw4_12 x6 x7 x8 x9 X6 X7 X8 X9, gw4_7 x6 x7 x8 x9 X6 X7 X8 X9]
  rw [gw4_2 x6 x7 x8 x9 X6 X7 X8 X9, gw4_21 x9 x10 x11 x12 X9 X10 X11 X12, gw4_16 x9 x10 x11 x12 X9 X10 X11 X12]
  rw [gw4_11 x9 x10 x11 x12 X9 X10 X11 X12, gw4_6 x9 x10 x11 x12 X9 X10 X11 X12, gw4_1 x9 x10 x11 x12 X9 X10 X11 X12]
  rw [gw4_20 x12 x13 x14 x15 X12 X13 X14 X15, gw4_15 x12 x13 x14 x15 X12 X13 X14 X15, gw4_10 x12 x13 x14 x15 X12 X13 X14 X15]
  rw [gw4_5 x12 x13 x14 x15 X12 X13 X14 X15, gw4_0 x12 x13 x14 x15 X12 X13 X14 X15, gw3_21 y0 y1 y2 Y0 Y1 Y2]
  rw [gw3_16 y0 y1 y2 Y0 Y1 Y2, gw3_11 y0 y1 y2 Y0 Y1 Y2, gw3_6 y0 y1 y2 Y0 Y1 Y2]
  rw [gw3_1 y0 y1 y2 Y0 Y1 Y2, gw4_20 y2 y3 y4 y5 Y2 Y3 Y4 Y5, gw4_15 y2 y3 y4 y5 Y2 Y3 Y4 Y5]
  rw [gw4_10 y2 y3 y4 y5 Y2 Y3 Y4 Y5, gw4_5 y2 y3 y4 y5 Y2 Y3 Y4 Y5, gw4_0 y2 y3 y4 y5 Y2 Y3 Y4 Y5]
  rw [gw4_27 y6 y7 y8 y9 Y6 Y7 Y8 Y9, gw4_22 y6 y7 y8 y9 Y6 Y7 Y8 Y9, gw4_17 y6 y7 y8 y9 Y6 Y7 Y8 Y9]
  rw [gw4_12 y6 y7 y8 y9 Y6 Y7 Y8 Y9, gw4_7 y6 y7 y8 y9 Y6 Y7 Y8 Y9, gw4_2 y6 y7 y8 y9 Y6 Y7 Y8 Y9]
  rw [gw4_21 y9 y10 y11 y12 Y9 Y10 Y11 Y12, gw4_16 y9 y10 y11 y12 Y9 Y10 Y11 Y12, gw4_11 y9 y10 y11 y12 Y9 Y10 Y11 Y12]
  rw [gw4_6 y9 y10 y11 y12 Y9 Y10 Y11 Y12, gw4_1 y9 y10 y11 y12 Y9 Y10 Y11 Y12, gw4_20 y12 y13 y14 y15 Y12 Y13 Y14 Y15]
  rw [gw4_15 y12 y13 y14 y15 Y12 Y13 Y14 Y15, gw4_10 y12 y13 y14 y15 Y12 Y13 Y14 Y15, gw4_5 y12 y13 y14 y15 Y12 Y13 Y14 Y15]
  rw [gw4_0 y12 y13 y14 y15 Y12 Y13 Y14 Y15]
  have hmx : [encChar (x0 / 32), encChar (x0 % 32), encChar (x1 / 8), encChar (x1 % 8 * 4 + x2 / 64), encChar (x2 / 2 % 32), encChar (x2 % 2 * 16 + x3 / 16), encChar (x3 % 16 * 2 + x4 / 128), encChar (x4 / 4 % 32), encChar (x4 % 4 * 8 + x5 / 32), encChar (x5 % 32), encChar (x6 / 8), encChar (x6 % 8 * 4 + x7 / 64), encChar (x7 / 2 % 32), encChar (x7 % 2 * 16 + x8 / 16), encChar (x8 % 16 * 2 + x9 / 128), encChar (x9 / 4 % 32), encChar (x9 % 4 * 8 + x10 / 32), encChar (x10 % 32), encChar (x11 / 8), encChar (x11 % 8 * 4 + x12 / 64), encChar (x12 / 2 % 32), encChar (x12 % 2 * 16 + x13 / 16), encChar (x13 % 16 * 2 + x14 / 128), encChar (x14 / 4 % 32), encChar (x14 % 4 * 8 + x15 / 32), encChar (x15 % 32)] = List.map encChar [x0 / 32, x0 % 32, x1 / 8, x1 % 8 * 4 + x2 / 64, x2 / 2 % 32, x2 % 2 * 16 + x3 / 16, x3 % 16 * 2 + x4 / 128, x4 / 4 % 32, x4 % 4 * 8 + x5 / 32, x5 % 32, x6 / 8, x6 % 8 * 4 + x7 / 64, x7 / 2 % 32, x7 % 2 * 16 + x8 / 16, x8 % 16 * 2 + x9 / 128, x9 / 4 % 32, x9 % 4 * 8 + x10 / 32, x10 % 32, x11 / 8, x11 % 8 * 4 + x12 / 64, x12 / 2 % 32, x12 % 2 * 16 + x13 / 16, x13 % 16 * 2 + x14 / 128, x14 / 4 % 32, x14 % 4 * 8 + x15 / 32, x15 % 32] := rfl
  have hmy : [encChar (y0 / 32), encChar (y0 % 32), encChar (y1 / 8), encChar (y1 % 8 * 4 + y2 / 64), encChar (y2 / 2 % 32), encChar (y2 % 2 * 16 + y3 / 16), encChar (y3 % 16 * 2 + y4 / 128), encChar (y4 / 4 % 32), encChar (y4 % 4 * 8 + y5 / 32), encChar (y5 % 32), encChar (y6 / 8), encChar (y6 % 8 * 4 + y7 / 64), encChar (y7 / 2 % 32), encChar (y7 % 2 * 16 + y8 / 16), encChar (y8 % 16 * 2 + y9 / 128), encChar (y9 / 4 % 32), encChar (y9 % 4 * 8 + y10 / 32), encChar (y10 % 32), encChar (y11 / 8), encChar (y11 % 8 * 4 + y12 / 64), encChar (y12 / 2 % 32), encChar (y12 % 2 * 16 + y13 / 16), encChar (y13 % 16 * 2 + y14 / 128), encChar (y14 / 4 % 32), encChar (y14 % 4 * 8 + y15 / 32), encChar (y15 % 32)] = List.map encChar [y0 / 32, y0 % 32, y1 / 8, y1 % 8 * 4 + y2 / 64, y2 / 2 % 32, y2 % 2 * 16 + y3 / 16, y3 % 16 * 2 + y4 / 128, y4 / 4 % 32, y4 % 4 * 8 + y5 / 32, y5 % 32, y6 / 8, y6 % 8 * 4 + y7 / 64, y7 / 2 % 32, y7 % 2 * 16 + y8 / 16, y8 % 16 * 2 + y9 / 128, y9 / 4 % 32, y9 % 4 * 8 + y10 / 32, y10 % 32, y11 / 8, y11 % 8 * 4 + y12 / 64, y12 / 2 % 32, y12 % 2 * 16 + y13 / 16, y13 % 16 * 2 + y14 / 128, y14 / 4 % 32, y14 % 4 * 8 + y15 / 32, y15 % 32] := rfl
  rw [hmx, hmy]
  have hbx32 : ∀ t ∈ ([x0 / 32, x0 % 32, x1 / 8, x1 % 8 * 4 + x2 / 64, x2 / 2 % 32, x2 % 2 * 16 + x3 / 16, x3 % 16 * 2 + x4 / 128, x4 / 4 % 32, x4 % 4 * 8 + x5 / 32, x5 % 32, x6 / 8, x6 % 8 * 4 + x7 / 64, x7 / 2 % 32, x7 % 2 * 16 + x8 / 16, x8 % 16 * 2 + x9 / 128, x9 / 4 % 32, x9 % 4 * 8 + x10 / 32, x10 % 32, x11 / 8, x11 % 8 * 4 + x12 / 64, x12 / 2 % 32, x12 % 2 * 16 + x13 / 16, x13 % 16 * 2 + x14 / 128, x14 / 4 % 32, x14 % 4 * 8 + x15 / 32, x15 % 32] : List Nat), t < 32 := by
    intro t ht
    fin_cases ht <;> omega
  have hby32 : ∀ t ∈ ([y0 / 32, y0 % 32, y1 / 8, y1 % 8 * 4 + y2 / 64, y2 / 2 % 32, y2 % 2 * 16 + y3 / 16, y3 % 16 * 2 + y4 / 128, y4 / 4 % 32, y4 % 4 * 8 + y5 / 32, y5 % 32, y6 / 8, y6 % 8 * 4 + y7 / 64, y7 / 2 % 32, y7 % 2 * 16 + y8 / 16, y8 % 16 * 2 + y9 / 128, y9 / 4 % 32, y9 % 4 * 8 + y10 / 32, y10 % 32, y11 / 8, y11 % 8 * 4 + y12 / 64, y12 / 2 % 32, y12 % 2 * 16 + y13 / 16, y13 % 16 * 2 + y14 / 128, y14 / 4 % 32, y14 % 4 * 8 + y15 / 32, y15 % 32] : List Nat), t < 32 := by
    intro t ht
    fin_cases ht <;> omega
  rw [bytesCompare_map_encChar [x0 / 32, x0 % 32, x1 / 8, x1 % 8 * 4 + x2 / 64, x2 / 2 % 32, x2 % 2 * 16 + x3 / 16, x3 % 16 * 2 + x4 / 128, x4 / 4 % 32, x4 % 4 * 8 + x5 / 32, x5 % 32, x6 / 8, x6 % 8 * 4 + x7 / 64, x7 / 2 % 32, x7 % 2 * 16 + x8 / 16, x8 % 16 * 2 + x9 / 128, x9 / 4 % 32, x9 % 4 * 8 + x10 / 32, x10 % 32, x11 / 8, x11 % 8 * 4 + x12 / 64, x12 / 2 % 32, x12 % 2 * 16 + x13 / 16, x13 % 16 * 2 + x14 / 128, x14 / 4 % 32, x14 % 4 * 8 + x15 / 32, x15 % 32] [y0 / 32, y0 % 32, y1 / 8, y1 % 8 * 4 + y2 / 64, y2 / 2 % 32, y2 % 2 * 16 + y3 / 16, y3 % 16 * 2 + y4 / 128, y4 / 4 % 32, y4 % 4 * 8 + y5 / 32, y5 % 32, y6 / 8, y6 % 8 * 4 + y7 / 64, y7 / 2 % 32, y7 % 2 * 16 + y8 / 16, y8 % 16 * 2 + y9 / 128, y9 / 4 % 32, y9 % 4 * 8 + y10 / 32, y10 % 32, y11 / 8, y11 % 8 * 4 + y12 / 64, y12 / 2 % 32, y12 % 2 * 16 + y13 / 16, y13 % 16 * 2 + y14 / 128, y14 / 4 % 32, y14 % 4 * 8 + y15 / 32, y15 % 32] rfl hbx32 hby32]
  rw [bytesCompare_eq_natCmp (by norm_num : (0 : Nat) < 32) [x0 / 32, x0 % 32, x1 / 8, x1 % 8 * 4 + x2 / 64, x2 / 2 % 32, x2 % 2 * 16 + x3 / 16, x3 % 16 * 2 + x4 / 128, x4 / 4 % 32, x4 % 4 * 8 + x5 / 32, x5 % 32, x6 / 8, x6 % 8 * 4 + x7 / 64, x7 / 2 % 32, x7 % 2 * 16 + x8 / 16, x8 % 16 * 2 + x9 / 128, x9 / 4 % 32, x9 % 4 * 8 + x10 / 32, x10 % 32, x11 / 8, x11 % 8 * 4 + x12 / 64, x12 / 2 % 32, x12 % 2 * 16 + x13 / 16, x13 % 16 * 2 + x14 / 128, x14 / 4 % 32, x14 % 4 * 8 + x15 / 32, x15 % 32] [y0 / 32, y0 % 32, y1 / 8, y1 % 8 * 4 + y2 / 64, y2 / 2 % 32, y2 % 2 * 16 + y3 / 16, y3 % 16 * 2 + y4 / 128, y4 / 4 % 32, y4 % 4 * 8 + y5 / 32, y5 % 32, y6 / 8, y6 % 8 * 4 + y7 / 64, y7 / 2 % 32, y7 % 2 * 16 + y8 / 16, y8 % 16 * 2 + y9 / 128, y9 / 4 % 32, y9 % 4 * 8 + y10 / 32, y10 % 32, y11 / 8, y11 % 8 * 4 + y12 / 64, y12 / 2 % 32, y12 % 2 * 16 + y13 / 16, y13 % 16 * 2 + y14 / 128, y14 / 4 % 32, y14 % 4 * 8 + y15 / 32, y15 % 32] rfl hbx32 hby32]
  have hvx : beVal 32 [x0 / 32, x0 % 32, x1 / 8, x1 % 8 * 4 + x2 / 64, x2 / 2 % 32, x2 % 2 * 16 + x3 / 16, x3 % 16 * 2 + x4 / 128, x4 / 4 % 32, x4 % 4 * 8 + x5 / 32, x5 % 32, x6 / 8, x6 % 8 * 4 + x7 / 64, x7 / 2 % 32, x7 % 2 * 16 + x8 / 16, x8 % 16 * 2 + x9 / 128, x9 / 4 % 32, x9 % 4 * 8 + x10 / 32, x10 % 32, x11 / 8, x11 % 8 * 4 + x12 / 64, x12 / 2 % 32, x12 % 2 * 16 + x13 / 16, x13 % 16 * 2 + x14 / 128, x14 / 4 % 32, x14 % 4 * 8 + x15 / 32, x15 % 32] = beVal 256 [x0, x1, x2, x3, x4, x5, x6, x7, x8, x9, x10, x11, x12, x13, x14, x15] := by
    simp only [beVal, List.length_cons, List.length_nil]
    omega
  have hvy : beVal 32 [y0 / 32, y0 % 32, y1 / 8, y1 % 8 * 4 + y2 / 64, y2 / 2 % 32, y2 % 2 * 16 + y3 / 16, y3 % 16 * 2 + y4 / 128, y4 / 4 % 32, y4 % 4 * 8 + y5 / 32, y5 % 32, y6 / 8, y6 % 8 * 4 + y7 / 64, y7 / 2 % 32, y7 % 2 * 16 + y8 / 16, y8 % 16 * 2 + y9 / 128, y9 / 4 % 32, y9 % 4 * 8 + y10 / 32, y10 % 32, y11 / 8, y11 % 8 * 4 + y12 / 64, y12 / 2 % 32, y12 % 2 * 16 + y13 / 16, y13 % 16 * 2 + y14 / 128, y14 / 4 % 32, y14 % 4 * 8 + y15 / 32, y15 % 32] = beVal 256 [y0, y1, y2, y3, y4, y5, y6, y7, y8, y9, y10, y11, y12, y13, y14, y15] := by
    simp only [beVal, List.length_cons, List.length_nil]
    omega
  rw [hvx, hvy]
  have hx256 : ∀ t ∈ ([x0, x1, x2, x3, x4, x5, x6, x7, x8, x9, x10, x11, x12, x13, x14, x15] : List Nat), t < 256 := by
    intro t ht
    fin_cases ht <;> omega
  have hy256 : ∀ t ∈ ([y0, y1, y2, y3, y4, y5, y6, y7, y8, y9, y10, y11, y12, y13, y14, y15] : List Nat), t < 256 := by
    intro t ht
    fin_cases ht <;> omega
  rw [← bytesCompare_eq_natCmp (by norm_num : (0 : Nat) < 256) [x0, x1, x2, x3, x4, x5, x6, x7, x8, x9, x10, x11, x12, x13, x14, x15] [y0, y1, y2, y3, y4, y5, y6, y7, y8, y9, y10, y11, y12, y13, y14, y15] rfl hx256 hy256]
  rfl

/-- C2 counterexample: a lowercase 26-character string is accepted by the
decoder, yet re-encoding the decoded identifier yields the uppercase
canonical form, not the original input. -/
theorem c2_counterexample :
    (parse (strBytes "01arz3ndektsv4rrffq69g5fav")).2 = none ∧
    ((parse (strBytes "01arz3ndektsv4rrffq69g5fav")).1).text ≠
      strBytes "01arz3ndektsv4rrffq69g5fav" := by
  decide

/-- Witness for the amended C2 at the canonical documentation example. -/
theorem c2_text_of_parse_roundtrip_witness :
    ((parse (strBytes "01ARZ3NDEKTSV4RRFFQ69G5FAV")).1).text =
      strBytes "01ARZ3NDEKTSV4RRFFQ69G5FAV" :=
  c2_text_of_parse_roundtrip (strBytes "01ARZ3NDEKTSV4RRFFQ69G5FAV")
    (by decide) (by decide)

/-- Witness for C10 at the documentation example identifier. -/
theorem c10_text_eq_textAlt_witness :
    ULID.text ⟨0x01, 0x56, 0x3e, 0x3a, 0xb5, 0xd3, 0xd6, 0x76,
               0x4c, 0x61, 0xef, 0xb9, 0x93, 0x02, 0xbd, 0x5b⟩ =
    ULID.textAlt ⟨0x01, 0x56, 0x3e, 0x3a, 0xb5, 0xd3, 0xd6, 0x76,
                  0x4c, 0x61, 0xef, 0xb9, 0x93, 0x02, 0xbd, 0x5b⟩ :=
  c10_text_eq_textAlt (by decide)

/-- Witness for C4 at two concrete identifiers differing in a late byte. -/
theorem c4_compare_order_witness :
    (ULID.Compare ⟨1, 2, 3, 4, 5, 6, 7, 8, 9, 10, 11, 12, 13, 14, 15, 16⟩
        ⟨1, 2, 3, 4, 5, 6, 7, 8, 9, 10, 11, 12, 13, 14, 250, 0⟩ =
      bytesCompare
        (ULID.toList ⟨1, 2, 3, 4, 5, 6, 7, 8, 9, 10, 11, 12, 13, 14, 15, 16⟩)
        (ULID.toList ⟨1, 2, 3, 4, 5, 6, 7, 8, 9, 10, 11, 12, 13, 14, 250, 0⟩)) ∧
    bytesCompare
        (ULID.text ⟨1, 2, 3, 4, 5, 6, 7, 8, 9, 10, 11, 12, 13, 14, 15, 16⟩)
        (ULID.text ⟨1, 2, 3, 4, 5, 6, 7, 8, 9, 10, 11, 12, 13, 14, 250, 0⟩) =
      ULID.Compare ⟨1, 2, 3, 4, 5, 6, 7, 8, 9, 10, 11, 12, 13, 14, 15, 16⟩
        ⟨1, 2, 3, 4, 5, 6, 7, 8, 9, 10, 11, 12, 13, 14, 250, 0⟩ :=
  c4_compare_order (by decide) (by decide)
